import Mathlib

/-!
The native gamepad manager of gamepad-node.

A shallow embedding of `src/native/gamepad_manager.cpp` and `gamepad_manager.h`.

* `std::map<SDL_JoystickID, GamepadState>` is a list of key/record pairs, read in
  key order; `find`, `insert` and `erase` are the map operations the code uses.
* `int` values (`index`, `next_index_`, instance ids) are integers. The counter
  `next_index_` starts at 0 and is only ever incremented; signed overflow of an
  `int` is undefined behaviour in C++, so the embedding covers the executions
  with fewer than 2^31 successful additions.
* `float` axis values are rationals: the only values the code ever stores are
  `0.0f` and `v / 32768.0f` for a 16-bit integer `v`, all of which a `float`
  holds exactly. The literal `0.11f` is the rational the nearest `float` is.
* The SDL driver is a record of answers (`Driver`) handed to every call; the calls
  the code makes on the driver that have an effect there are appended to
  `driver_calls`.
* `double` values are rationals too (every finite `double` is one); the product
  `weak * 65535` is rounded as binary64 arithmetic rounds it (`binary64`).
* JavaScript observers are opaque: every call of `EmitConnected` or
  `EmitDisconnected` is appended to `emitted`, with the observer invoked and the
  object handed to it, if an observer is registered. An observer is taken to
  return normally and not to call back into the manager.
-/

namespace Gamepad

/-! ## Canonical layout: `enum StandardButton` -/

/-- South. -/
def BUTTON_A : Fin 17 := 0
/-- East. -/
def BUTTON_B : Fin 17 := 1
/-- West. -/
def BUTTON_X : Fin 17 := 2
/-- North. -/
def BUTTON_Y : Fin 17 := 3
/-- Left shoulder. -/
def BUTTON_L1 : Fin 17 := 4
/-- Right shoulder. -/
def BUTTON_R1 : Fin 17 := 5
/-- Left trigger. -/
def BUTTON_L2 : Fin 17 := 6
/-- Right trigger. -/
def BUTTON_R2 : Fin 17 := 7
/-- Back/Select. -/
def BUTTON_SELECT : Fin 17 := 8
/-- Start. -/
def BUTTON_START : Fin 17 := 9
/-- Left stick. -/
def BUTTON_L3 : Fin 17 := 10
/-- Right stick. -/
def BUTTON_R3 : Fin 17 := 11
/-- D-pad up. -/
def BUTTON_DPAD_UP : Fin 17 := 12
/-- D-pad down. -/
def BUTTON_DPAD_DOWN : Fin 17 := 13
/-- D-pad left. -/
def BUTTON_DPAD_LEFT : Fin 17 := 14
/-- D-pad right. -/
def BUTTON_DPAD_RIGHT : Fin 17 := 15
/-- Home/Guide. -/
def BUTTON_GUIDE : Fin 17 := 16

/-! ## SDL2 constants (`SDL_gamecontroller.h`, a header of the driver library) -/

/-- Value of `SDL_CONTROLLER_BUTTON_A` in `enum SDL_GameControllerButton`. -/
def SDL_CONTROLLER_BUTTON_A : Nat := 0
/-- Value of `SDL_CONTROLLER_BUTTON_B`. -/
def SDL_CONTROLLER_BUTTON_B : Nat := 1
/-- Value of `SDL_CONTROLLER_BUTTON_X`. -/
def SDL_CONTROLLER_BUTTON_X : Nat := 2
/-- Value of `SDL_CONTROLLER_BUTTON_Y`. -/
def SDL_CONTROLLER_BUTTON_Y : Nat := 3
/-- Value of `SDL_CONTROLLER_BUTTON_BACK`. -/
def SDL_CONTROLLER_BUTTON_BACK : Nat := 4
/-- Value of `SDL_CONTROLLER_BUTTON_GUIDE`. -/
def SDL_CONTROLLER_BUTTON_GUIDE : Nat := 5
/-- Value of `SDL_CONTROLLER_BUTTON_START`. -/
def SDL_CONTROLLER_BUTTON_START : Nat := 6
/-- Value of `SDL_CONTROLLER_BUTTON_LEFTSTICK`. -/
def SDL_CONTROLLER_BUTTON_LEFTSTICK : Nat := 7
/-- Value of `SDL_CONTROLLER_BUTTON_RIGHTSTICK`. -/
def SDL_CONTROLLER_BUTTON_RIGHTSTICK : Nat := 8
/-- Value of `SDL_CONTROLLER_BUTTON_LEFTSHOULDER`. -/
def SDL_CONTROLLER_BUTTON_LEFTSHOULDER : Nat := 9
/-- Value of `SDL_CONTROLLER_BUTTON_RIGHTSHOULDER`. -/
def SDL_CONTROLLER_BUTTON_RIGHTSHOULDER : Nat := 10
/-- Value of `SDL_CONTROLLER_BUTTON_DPAD_UP`. -/
def SDL_CONTROLLER_BUTTON_DPAD_UP : Nat := 11
/-- Value of `SDL_CONTROLLER_BUTTON_DPAD_DOWN`. -/
def SDL_CONTROLLER_BUTTON_DPAD_DOWN : Nat := 12
/-- Value of `SDL_CONTROLLER_BUTTON_DPAD_LEFT`. -/
def SDL_CONTROLLER_BUTTON_DPAD_LEFT : Nat := 13
/-- Value of `SDL_CONTROLLER_BUTTON_DPAD_RIGHT`. -/
def SDL_CONTROLLER_BUTTON_DPAD_RIGHT : Nat := 14

/-- Value of `SDL_CONTROLLER_AXIS_LEFTX` in `enum SDL_GameControllerAxis`. -/
def SDL_CONTROLLER_AXIS_LEFTX : Nat := 0
/-- Value of `SDL_CONTROLLER_AXIS_LEFTY`. -/
def SDL_CONTROLLER_AXIS_LEFTY : Nat := 1
/-- Value of `SDL_CONTROLLER_AXIS_RIGHTX`. -/
def SDL_CONTROLLER_AXIS_RIGHTX : Nat := 2
/-- Value of `SDL_CONTROLLER_AXIS_RIGHTY`. -/
def SDL_CONTROLLER_AXIS_RIGHTY : Nat := 3
/-- Value of `SDL_CONTROLLER_AXIS_TRIGGERLEFT`. -/
def SDL_CONTROLLER_AXIS_TRIGGERLEFT : Nat := 4
/-- Value of `SDL_CONTROLLER_AXIS_TRIGGERRIGHT`. -/
def SDL_CONTROLLER_AXIS_TRIGGERRIGHT : Nat := 5

/-- The `float` literal `0.11f`: the binary32 value nearest to 0.11, which is
14763950 / 2^27. -/
def triggerThreshold : ℚ := 7381975 / 67108864

/-! ## Data model -/

/-- The record `struct GamepadState`. `device` is the driver handle. -/
structure GamepadState where
  instance_id : Int
  id : String
  guid : String
  index : Int
  is_controller : Bool
  buttons : Fin 17 → Bool
  axes : Fin 6 → ℚ
  connected : Bool
  device : Nat
deriving DecidableEq

/-- The events of `SDL_Event` that `HandleEvent` tells apart, with the fields it
reads: `which` (a device index for the two ADDED events, an instance id for the
others), the 8-bit `button` or `axis` ordinal and the 16-bit axis `value`. -/
inductive SDL_Event where
  | SDL_CONTROLLERDEVICEADDED (which : Int)
  | SDL_JOYDEVICEADDED (which : Int)
  | SDL_CONTROLLERDEVICEREMOVED (which : Int)
  | SDL_JOYDEVICEREMOVED (which : Int)
  | SDL_CONTROLLERBUTTONDOWN (which : Int) (button : Nat)
  | SDL_CONTROLLERBUTTONUP (which : Int) (button : Nat)
  | SDL_CONTROLLERAXISMOTION (which : Int) (axis : Nat) (value : Int)
  | SDL_JOYBUTTONDOWN (which : Int) (button : Nat)
  | SDL_JOYBUTTONUP (which : Int) (button : Nat)
  | SDL_JOYAXISMOTION (which : Int) (axis : Nat) (value : Int)
  | other (type : Nat)
deriving DecidableEq

/-- What the driver hands back for a device it opened: the handle, and the
instance id, name and GUID string the code then asks it for. -/
structure Opened where
  handle : Nat
  instance_id : Int
  name : String
  guid : String
deriving DecidableEq

/-- The driver's answers at the time of a call. `none` is a null handle. -/
structure Driver where
  SDL_GameControllerOpen : Int → Option Opened
  SDL_JoystickOpen : Int → Option Opened
  SDL_IsGameController : Int → Bool
  SDL_NumJoysticks : Nat
  SDL_GameControllerRumble : Nat → Nat → Nat → Nat → Int

/-- Calls on the driver that change something there. -/
inductive DriverCall where
  | SDL_GameControllerClose (handle : Nat)
  | SDL_JoystickClose (handle : Nat)
  | SDL_GameControllerRumble (handle : Nat) (low_frequency_rumble : Nat)
      (high_frequency_rumble : Nat) (duration_ms : Nat)
deriving DecidableEq

/-- The object `EmitConnected` and `EmitDisconnected` build for the observer. -/
structure GamepadEvent where
  id : String
  guid : String
  index : Int
  connected : Bool
  isController : Bool
deriving DecidableEq

/-- Which of the two notifications. -/
inductive EventKind where
  | connected
  | disconnected
deriving DecidableEq

/-- One call of `EmitConnected` or `EmitDisconnected`: the record it was called
for, the registry at that moment, and what it did: `call` is the observer it
invoked with the object it handed over, or `none` when no observer is registered
and the function returned at once. -/
structure Emission where
  kind : EventKind
  state : GamepadState
  registry : List (Int × GamepadState)
  call : Option (Nat × GamepadEvent)
deriving DecidableEq

/-- The state of a `GamepadManager`: its members `gamepads_`, `next_index_`,
`on_connected_`, `on_disconnected_`, and the two traces. -/
structure Manager where
  gamepads_ : List (Int × GamepadState)
  next_index_ : Int
  on_connected_ : Option Nat
  on_disconnected_ : Option Nat
  emitted : List Emission
  driver_calls : List DriverCall
deriving DecidableEq

/-- The manager as the constructor's initialiser list leaves it. -/
def initial : Manager :=
  { gamepads_ := [], next_index_ := 0, on_connected_ := none, on_disconnected_ := none,
    emitted := [], driver_calls := [] }

/-! ## The map operations -/

/-- `gamepads_.find(key)`: the record stored under `key`. -/
def find (key : Int) : List (Int × GamepadState) → Option GamepadState
  | [] => none
  | (k, v) :: rest => if k = key then some v else find key rest

/-- `gamepads_[key] = value`: the binding is put at its place in key order, and
replaces the one of an equal key. -/
def insert (key : Int) (value : GamepadState) :
    List (Int × GamepadState) → List (Int × GamepadState)
  | [] => [(key, value)]
  | (k, v) :: rest =>
    if key < k then (key, value) :: (k, v) :: rest
    else if key = k then (key, value) :: rest
    else (k, v) :: insert key value rest

/-- `gamepads_.erase(it)` for the iterator `find(key)` gave. -/
def erase (key : Int) : List (Int × GamepadState) → List (Int × GamepadState)
  | [] => []
  | (k, v) :: rest => if k = key then erase key rest else (k, v) :: erase key rest

/-- The record under `key` changed in place, as through `it->second`. -/
def modify (key : Int) (f : GamepadState → GamepadState) :
    List (Int × GamepadState) → List (Int × GamepadState)
  | [] => []
  | (k, v) :: rest => if k = key then (k, f v) :: rest else (k, v) :: modify key f rest

/-! ## Notifications -/

/-- `GamepadManager::EmitConnected`: nothing is done without an observer;
otherwise the observer is called with the record's name, GUID, slot and class,
and `connected` set to `true`. -/
def EmitConnected (m : Manager) (state : GamepadState) : Manager :=
  match m.on_connected_ with
  | none =>
    { m with emitted := m.emitted ++
        [{ kind := .connected, state := state, registry := m.gamepads_, call := none }] }
  | some callback =>
    let gamepad : GamepadEvent :=
      { id := state.id, guid := state.guid, index := state.index, connected := true,
        isController := state.is_controller }
    { m with emitted := m.emitted ++
        [{ kind := .connected, state := state, registry := m.gamepads_,
           call := some (callback, gamepad) }] }

/-- `GamepadManager::EmitDisconnected`: as `EmitConnected`, for the other
observer and with `connected` set to `false`. -/
def EmitDisconnected (m : Manager) (state : GamepadState) : Manager :=
  match m.on_disconnected_ with
  | none =>
    { m with emitted := m.emitted ++
        [{ kind := .disconnected, state := state, registry := m.gamepads_, call := none }] }
  | some callback =>
    let gamepad : GamepadEvent :=
      { id := state.id, guid := state.guid, index := state.index, connected := false,
        isController := state.is_controller }
    { m with emitted := m.emitted ++
        [{ kind := .disconnected, state := state, registry := m.gamepads_,
           call := some (callback, gamepad) }] }

/-- `GamepadManager::SetEventCallback`: the observer of the named kind is
replaced; any other name changes nothing. -/
def SetEventCallback (m : Manager) (event_type : String) (callback : Nat) : Manager :=
  if event_type = "connected" then { m with on_connected_ := some callback }
  else if event_type = "disconnected" then { m with on_disconnected_ := some callback }
  else m

/-! ## Hotplug -/

/-- `GamepadManager::AddController`. -/
def AddController (drv : Driver) (m : Manager) (device_index : Int) : Manager :=
  match drv.SDL_GameControllerOpen device_index with
  | none => m
  | some controller =>
    if (find controller.instance_id m.gamepads_).isSome then
      { m with driver_calls :=
          m.driver_calls ++ [DriverCall.SDL_GameControllerClose controller.handle] }
    else
      let state : GamepadState :=
        { instance_id := controller.instance_id
          id := controller.name
          guid := controller.guid
          index := m.next_index_
          is_controller := true
          connected := true
          device := controller.handle
          buttons := fun _ => false
          axes := fun _ => 0 }
      EmitConnected
        { m with next_index_ := m.next_index_ + 1
                 gamepads_ := insert controller.instance_id state m.gamepads_ }
        state

/-- `GamepadManager::AddJoystick`. -/
def AddJoystick (drv : Driver) (m : Manager) (device_index : Int) : Manager :=
  match drv.SDL_JoystickOpen device_index with
  | none => m
  | some joystick =>
    if (find joystick.instance_id m.gamepads_).isSome then
      { m with driver_calls :=
          m.driver_calls ++ [DriverCall.SDL_JoystickClose joystick.handle] }
    else
      let state : GamepadState :=
        { instance_id := joystick.instance_id
          id := joystick.name
          guid := joystick.guid
          index := m.next_index_
          is_controller := false
          connected := true
          device := joystick.handle
          buttons := fun _ => false
          axes := fun _ => 0 }
      EmitConnected
        { m with next_index_ := m.next_index_ + 1
                 gamepads_ := insert joystick.instance_id state m.gamepads_ }
        state

/-- `GamepadManager::RemoveDevice`: the notification first, then the handle is
closed and the record erased. -/
def RemoveDevice (m : Manager) (instance_id : Int) : Manager :=
  match find instance_id m.gamepads_ with
  | none => m
  | some state =>
    let m1 := EmitDisconnected m state
    let close :=
      if state.is_controller then DriverCall.SDL_GameControllerClose state.device
      else DriverCall.SDL_JoystickClose state.device
    { m1 with driver_calls := m1.driver_calls ++ [close]
              gamepads_ := erase instance_id m1.gamepads_ }

/-- `GamepadManager::ScanDevices`, the loop `for (i = 0; i < num_joysticks; i++)`. -/
def ScanDevices (drv : Driver) (m : Manager) : Manager :=
  (List.range drv.SDL_NumJoysticks).foldl
    (fun acc (i : Nat) =>
      if drv.SDL_IsGameController (i : Int) then AddController drv acc (i : Int)
      else AddJoystick drv acc (i : Int))
    m

/-! ## Event translation -/

/-- The `switch (event.cbutton.button)` of `UpdateControllerState`. -/
def controllerButton (state : GamepadState) (button : Nat) (pressed : Bool) : GamepadState :=
  if button = SDL_CONTROLLER_BUTTON_A then
    { state with buttons := Function.update state.buttons BUTTON_A pressed }
  else if button = SDL_CONTROLLER_BUTTON_B then
    { state with buttons := Function.update state.buttons BUTTON_B pressed }
  else if button = SDL_CONTROLLER_BUTTON_X then
    { state with buttons := Function.update state.buttons BUTTON_X pressed }
  else if button = SDL_CONTROLLER_BUTTON_Y then
    { state with buttons := Function.update state.buttons BUTTON_Y pressed }
  else if button = SDL_CONTROLLER_BUTTON_LEFTSHOULDER then
    { state with buttons := Function.update state.buttons BUTTON_L1 pressed }
  else if button = SDL_CONTROLLER_BUTTON_RIGHTSHOULDER then
    { state with buttons := Function.update state.buttons BUTTON_R1 pressed }
  else if button = SDL_CONTROLLER_BUTTON_BACK then
    { state with buttons := Function.update state.buttons BUTTON_SELECT pressed }
  else if button = SDL_CONTROLLER_BUTTON_START then
    { state with buttons := Function.update state.buttons BUTTON_START pressed }
  else if button = SDL_CONTROLLER_BUTTON_LEFTSTICK then
    { state with buttons := Function.update state.buttons BUTTON_L3 pressed }
  else if button = SDL_CONTROLLER_BUTTON_RIGHTSTICK then
    { state with buttons := Function.update state.buttons BUTTON_R3 pressed }
  else if button = SDL_CONTROLLER_BUTTON_DPAD_UP then
    { state with buttons := Function.update state.buttons BUTTON_DPAD_UP pressed }
  else if button = SDL_CONTROLLER_BUTTON_DPAD_DOWN then
    { state with buttons := Function.update state.buttons BUTTON_DPAD_DOWN pressed }
  else if button = SDL_CONTROLLER_BUTTON_DPAD_LEFT then
    { state with buttons := Function.update state.buttons BUTTON_DPAD_LEFT pressed }
  else if button = SDL_CONTROLLER_BUTTON_DPAD_RIGHT then
    { state with buttons := Function.update state.buttons BUTTON_DPAD_RIGHT pressed }
  else if button = SDL_CONTROLLER_BUTTON_GUIDE then
    { state with buttons := Function.update state.buttons BUTTON_GUIDE pressed }
  else state

/-- The `switch (event.caxis.axis)` of `UpdateControllerState`, after
`float value = event.caxis.value / 32768.0f`. -/
def controllerAxis (state : GamepadState) (axis : Nat) (raw : Int) : GamepadState :=
  let value : ℚ := (raw : ℚ) / 32768
  if axis = SDL_CONTROLLER_AXIS_LEFTX then
    { state with axes := Function.update state.axes 0 value }
  else if axis = SDL_CONTROLLER_AXIS_LEFTY then
    { state with axes := Function.update state.axes 1 value }
  else if axis = SDL_CONTROLLER_AXIS_RIGHTX then
    { state with axes := Function.update state.axes 2 value }
  else if axis = SDL_CONTROLLER_AXIS_RIGHTY then
    { state with axes := Function.update state.axes 3 value }
  else if axis = SDL_CONTROLLER_AXIS_TRIGGERLEFT then
    { state with axes := Function.update state.axes 4 value
                 buttons := Function.update state.buttons BUTTON_L2
                   (decide (value > triggerThreshold)) }
  else if axis = SDL_CONTROLLER_AXIS_TRIGGERRIGHT then
    { state with axes := Function.update state.axes 5 value
                 buttons := Function.update state.buttons BUTTON_R2
                   (decide (value > triggerThreshold)) }
  else state

/-- `GamepadManager::UpdateControllerState`. -/
def UpdateControllerState (state : GamepadState) (event : SDL_Event) : GamepadState :=
  match event with
  | .SDL_CONTROLLERBUTTONDOWN _ button => controllerButton state button true
  | .SDL_CONTROLLERBUTTONUP _ button => controllerButton state button false
  | .SDL_CONTROLLERAXISMOTION _ axis value => controllerAxis state axis value
  | _ => state

/-- The body of `UpdateJoystickState` for a button event. -/
def joystickButton (state : GamepadState) (button : Nat) (pressed : Bool) : GamepadState :=
  if h : button < 17 then
    { state with buttons := Function.update state.buttons ⟨button, h⟩ pressed }
  else state

/-- The body of `UpdateJoystickState` for an axis event. -/
def joystickAxis (state : GamepadState) (axis : Nat) (raw : Int) : GamepadState :=
  let value : ℚ := (raw : ℚ) / 32768
  if h : axis < 6 then
    { state with axes := Function.update state.axes ⟨axis, h⟩ value }
  else state

/-- `GamepadManager::UpdateJoystickState`. -/
def UpdateJoystickState (state : GamepadState) (event : SDL_Event) : GamepadState :=
  match event with
  | .SDL_JOYBUTTONDOWN _ button => joystickButton state button true
  | .SDL_JOYBUTTONUP _ button => joystickButton state button false
  | .SDL_JOYAXISMOTION _ axis value => joystickAxis state axis value
  | _ => state

/-- The two state-event cases of `HandleEvent`: the record under `which`, when
there is one, is handed to `update`. -/
def updateRecord (m : Manager) (which : Int) (update : GamepadState → GamepadState) :
    Manager :=
  match find which m.gamepads_ with
  | none => m
  | some _ => { m with gamepads_ := modify which update m.gamepads_ }

/-- `GamepadManager::HandleEvent`. -/
def HandleEvent (drv : Driver) (m : Manager) (event : SDL_Event) : Manager :=
  match event with
  | .SDL_CONTROLLERDEVICEADDED which => AddController drv m which
  | .SDL_JOYDEVICEADDED which =>
    if drv.SDL_IsGameController which then m else AddJoystick drv m which
  | .SDL_CONTROLLERDEVICEREMOVED which => RemoveDevice m which
  | .SDL_JOYDEVICEREMOVED which => RemoveDevice m which
  | .SDL_CONTROLLERBUTTONDOWN which _ =>
    updateRecord m which (fun state => UpdateControllerState state event)
  | .SDL_CONTROLLERBUTTONUP which _ =>
    updateRecord m which (fun state => UpdateControllerState state event)
  | .SDL_CONTROLLERAXISMOTION which _ _ =>
    updateRecord m which (fun state => UpdateControllerState state event)
  | .SDL_JOYBUTTONDOWN which _ =>
    updateRecord m which (fun state => UpdateJoystickState state event)
  | .SDL_JOYBUTTONUP which _ =>
    updateRecord m which (fun state => UpdateJoystickState state event)
  | .SDL_JOYAXISMOTION which _ _ =>
    updateRecord m which (fun state => UpdateJoystickState state event)
  | .other _ => m

/-- `GamepadManager::Poll`, the loop `while (SDL_PollEvent(&event))`: the
pending events are handled in the order the driver reports them, each with the
driver's answers at that moment. -/
def Poll (m : Manager) (events : List (Driver × SDL_Event)) : Manager :=
  events.foldl (fun acc de => HandleEvent de.1 acc de.2) m

/-! ## Snapshot -/

/-- The object `GetGamepads` builds for a record. -/
structure GamepadObject where
  id : String
  guid : String
  index : Int
  connected : Bool
  isController : Bool
  buttons : List Bool
  axes : List ℚ
deriving DecidableEq

/-- The fields `GetGamepads` copies out of a record: the two arrays have 17 and
6 elements. -/
def gamepadObject (state : GamepadState) : GamepadObject :=
  { id := state.id, guid := state.guid, index := state.index, connected := state.connected,
    isController := state.is_controller,
    buttons := List.ofFn state.buttons, axes := List.ofFn state.axes }

/-- The element store `result[index] = value` on a JavaScript array. The `int`
index is converted to `uint32_t`. An index below the length overwrites that
element; 2^32 - 1 is not an array index and leaves the elements alone; any
other index lengthens the array, the elements in between being holes. -/
def arraySet (result : List (Option GamepadObject)) (index : Int) (value : GamepadObject) :
    List (Option GamepadObject) :=
  let i := (index % 4294967296).toNat
  if i < result.length then result.set i (some value)
  else if i = 4294967295 then result
  else result ++ List.replicate (i - result.length) none ++ [some value]

/-- The body of the loop `for (auto& pair : gamepads_)` of `GetGamepads`. -/
def storeGamepad (result : List (Option GamepadObject)) (pair : Int × GamepadState) :
    List (Option GamepadObject) :=
  if (!pair.2.connected) || decide (pair.2.index ≥ 4) then result
  else arraySet result pair.2.index (gamepadObject pair.2)

/-- `GamepadManager::GetGamepads`: four nulls, then every record, in key order,
that is connected and has an index below 4 is stored at its index. -/
def GetGamepads (m : Manager) : List (Option GamepadObject) :=
  m.gamepads_.foldl storeGamepad (List.replicate 4 none)

/-! ## Vibration -/

/-- Rounding to the nearest integer, ties to the even one. -/
def roundHalfEven (x : ℚ) : Int :=
  if x - ⌊x⌋ < 1 / 2 then ⌊x⌋
  else if 1 / 2 < x - ⌊x⌋ then ⌊x⌋ + 1
  else if ⌊x⌋ % 2 = 0 then ⌊x⌋
  else ⌊x⌋ + 1

/-- The `double` nearest to the rational `x`, ties to even: `x` is rounded to a
multiple of 2^(e - 52), where 2^e is the power of two at or below `|x|`, and
`e` is at least -1022 (below that the values are subnormal). Results beyond the
largest finite `double` are not modelled. -/
def binary64 (x : ℚ) : ℚ :=
  if x = 0 then 0
  else (roundHalfEven (x / 2 ^ (max (Int.log 2 |x|) (-1022) - 52)) : ℚ) *
    2 ^ (max (Int.log 2 |x|) (-1022) - 52)

/-- The conversion `static_cast<Uint16>(x)` of a `double`: the fraction is
dropped. A value outside 0..65535 is undefined behaviour in C++; the model
reduces it modulo 2^16. -/
def castUint16 (x : ℚ) : Nat :=
  ((if 0 ≤ x then ⌊x⌋ else ⌈x⌉) % 65536).toNat

/-- The conversion of an `int` argument to a `Uint32` parameter. -/
def castUint32 (x : Int) : Nat := (x % 4294967296).toNat

/-- The loop `for (auto& pair : gamepads_)` of `PlayVibration` and
`StopVibration`: the first record, in key order, whose index is `gamepad_index`. -/
def findByIndex (gamepad_index : Int) : List (Int × GamepadState) → Option GamepadState
  | [] => none
  | (_, v) :: rest => if v.index = gamepad_index then some v else findByIndex gamepad_index rest

/-- `GamepadManager::PlayVibration`, called with its four arguments: the two
`int` values and the two `double` values that N-API hands over. The result is
the manager and the boolean returned. -/
def PlayVibration (drv : Driver) (m : Manager) (gamepad_index duration : Int)
    (strong weak : ℚ) : Manager × Bool :=
  match findByIndex gamepad_index m.gamepads_ with
  | none => (m, false)
  | some target =>
    if !target.is_controller then (m, false)
    else
      let low_freq := castUint16 (binary64 (weak * 65535))
      let high_freq := castUint16 (binary64 (strong * 65535))
      let result :=
        drv.SDL_GameControllerRumble target.device low_freq high_freq (castUint32 duration)
      ({ m with driver_calls := m.driver_calls ++
          [DriverCall.SDL_GameControllerRumble target.device low_freq high_freq
            (castUint32 duration)] },
        decide (result = 0))

/-- `GamepadManager::StopVibration`, called with its argument. -/
def StopVibration (drv : Driver) (m : Manager) (gamepad_index : Int) : Manager × Bool :=
  match findByIndex gamepad_index m.gamepads_ with
  | none => (m, false)
  | some target =>
    if !target.is_controller then (m, false)
    else
      let result := drv.SDL_GameControllerRumble target.device 0 0 0
      ({ m with driver_calls := m.driver_calls ++
          [DriverCall.SDL_GameControllerRumble target.device 0 0 0] },
        decide (result = 0))

/-! ## Runs -/

/-- The states a manager can be in: the initial one, and what the operations
that change the manager make of a reachable state. -/
inductive Reachable : Manager → Prop where
  | initial : Reachable initial
  | handleEvent (drv : Driver) (m : Manager) (event : SDL_Event) :
      Reachable m → Reachable (HandleEvent drv m event)
  | scanDevices (drv : Driver) (m : Manager) :
      Reachable m → Reachable (ScanDevices drv m)
  | setEventCallback (m : Manager) (event_type : String) (callback : Nat) :
      Reachable m → Reachable (SetEventCallback m event_type callback)
  | playVibration (drv : Driver) (m : Manager) (gamepad_index duration : Int)
      (strong weak : ℚ) :
      Reachable m → Reachable (PlayVibration drv m gamepad_index duration strong weak).1
  | stopVibration (drv : Driver) (m : Manager) (gamepad_index : Int) :
      Reachable m → Reachable (StopVibration drv m gamepad_index).1

/-- The slots of the records that `after` holds under a key `before` had no
record for: the slots one operation gave out. -/
def created (before after : Manager) : List Int :=
  (after.gamepads_.filter (fun kv => (find kv.1 before.gamepads_).isNone)).map
    (fun kv => kv.2.index)

/-- The slots given out along a run of events from `m`, in the order of the
additions. -/
def assignedSlots (m : Manager) : List (Driver × SDL_Event) → List Int
  | [] => []
  | de :: rest =>
    created m (HandleEvent de.1 m de.2) ++ assignedSlots (HandleEvent de.1 m de.2) rest

/-- Well-formedness of the registry: the counter is not negative, keys are
strictly increasing, every record is stored under its own instance id, is
connected and has a slot from 0 up to the counter, and no slot is held twice. -/
def WellFormed (m : Manager) : Prop :=
  0 ≤ m.next_index_ ∧
  m.gamepads_.Pairwise (fun a b => a.1 < b.1) ∧
  m.gamepads_.Pairwise (fun a b => a.2.index ≠ b.2.index) ∧
  ∀ kv ∈ m.gamepads_, kv.2.instance_id = kv.1 ∧ kv.2.connected = true ∧
    0 ≤ kv.2.index ∧ kv.2.index < m.next_index_

/-- The button and axis events, of either kind. -/
def isStateEvent : SDL_Event → Bool
  | .SDL_CONTROLLERBUTTONDOWN _ _ => true
  | .SDL_CONTROLLERBUTTONUP _ _ => true
  | .SDL_CONTROLLERAXISMOTION _ _ _ => true
  | .SDL_JOYBUTTONDOWN _ _ => true
  | .SDL_JOYBUTTONUP _ _ => true
  | .SDL_JOYAXISMOTION _ _ _ => true
  | _ => false

/-- The fields of a record that no event changes agree. -/
def sameDevice (a b : GamepadState) : Prop :=
  a.instance_id = b.instance_id ∧ a.id = b.id ∧ a.guid = b.guid ∧ a.index = b.index ∧
  a.is_controller = b.is_controller ∧ a.connected = b.connected ∧ a.device = b.device

/-- The raw axis value of an axis event is a 16-bit signed integer; the other
events carry none. -/
def axisValueInRange : SDL_Event → Bool
  | .SDL_CONTROLLERAXISMOTION _ _ value => decide (-32768 ≤ value ∧ value ≤ 32767)
  | .SDL_JOYAXISMOTION _ _ value => decide (-32768 ≤ value ∧ value ≤ 32767)
  | _ => true

/-- Every axis value of the record lies in [-1, 1]. -/
def axesInRange (state : GamepadState) : Prop :=
  ∀ i : Fin 6, -1 ≤ state.axes i ∧ state.axes i ≤ 1

/-- The identities the driver has reported live, after one more event: a
device-added event of either kind adds the identity of the device the driver
opens at that index, a device-removed event of either kind takes the identity
out, and no other event changes anything. -/
def liveStep (live : List Int) (de : Driver × SDL_Event) : List Int :=
  match de.2 with
  | .SDL_CONTROLLERDEVICEADDED which =>
    match de.1.SDL_GameControllerOpen which with
    | some dev => dev.instance_id :: live
    | none => live
  | .SDL_JOYDEVICEADDED which =>
    match de.1.SDL_JoystickOpen which with
    | some dev => dev.instance_id :: live
    | none => live
  | .SDL_CONTROLLERDEVICEREMOVED which => live.filter (fun x => decide (x ≠ which))
  | .SDL_JOYDEVICEREMOVED which => live.filter (fun x => decide (x ≠ which))
  | _ => live

/-- The identities live after a run of events from the start, where none is. -/
def liveIdentities (events : List (Driver × SDL_Event)) : List Int :=
  events.foldl liveStep []

/-- The table of driver buttons and canonical button indices: A, B, X, Y to 0-3,
the shoulders to 4 and 5, back to 8, start to 9, the sticks to 10 and 11, the
d-pad to 12-15, guide to 16. -/
def buttonTable : List (Nat × Fin 17) :=
  [(SDL_CONTROLLER_BUTTON_A, 0), (SDL_CONTROLLER_BUTTON_B, 1), (SDL_CONTROLLER_BUTTON_X, 2),
   (SDL_CONTROLLER_BUTTON_Y, 3), (SDL_CONTROLLER_BUTTON_LEFTSHOULDER, 4),
   (SDL_CONTROLLER_BUTTON_RIGHTSHOULDER, 5), (SDL_CONTROLLER_BUTTON_BACK, 8),
   (SDL_CONTROLLER_BUTTON_START, 9), (SDL_CONTROLLER_BUTTON_LEFTSTICK, 10),
   (SDL_CONTROLLER_BUTTON_RIGHTSTICK, 11), (SDL_CONTROLLER_BUTTON_DPAD_UP, 12),
   (SDL_CONTROLLER_BUTTON_DPAD_DOWN, 13), (SDL_CONTROLLER_BUTTON_DPAD_LEFT, 14),
   (SDL_CONTROLLER_BUTTON_DPAD_RIGHT, 15), (SDL_CONTROLLER_BUTTON_GUIDE, 16)]

/-- The table of driver axes and canonical axis indices: left X and Y to 0 and
1, right X and Y to 2 and 3, the left trigger to 4 and the right trigger to 5. -/
def axisTable : List (Nat × Fin 6) :=
  [(SDL_CONTROLLER_AXIS_LEFTX, 0), (SDL_CONTROLLER_AXIS_LEFTY, 1),
   (SDL_CONTROLLER_AXIS_RIGHTX, 2), (SDL_CONTROLLER_AXIS_RIGHTY, 3),
   (SDL_CONTROLLER_AXIS_TRIGGERLEFT, 4), (SDL_CONTROLLER_AXIS_TRIGGERRIGHT, 5)]

/-! ## Example devices -/

/-- A game controller the driver opens with instance id 0. -/
def padA : Opened := { handle := 100, instance_id := 0, name := "Pad A", guid := "guid-a" }

/-- A plain joystick the driver opens with instance id 1. -/
def stickB : Opened := { handle := 101, instance_id := 1, name := "Stick B", guid := "guid-b" }

/-- A game controller the driver opens with instance id 2. -/
def padC : Opened := { handle := 102, instance_id := 2, name := "Pad C", guid := "guid-c" }

/-- A driver with three devices: index 0 is `padA`, index 1 is `stickB`, index 2
is `padC`; only index 1 is not a game controller. -/
def exampleDriver : Driver :=
  { SDL_GameControllerOpen := fun i =>
      if i = 0 then some padA else if i = 2 then some padC else none
    SDL_JoystickOpen := fun i => if i = 1 then some stickB else none
    SDL_IsGameController := fun i => decide (i ≠ 1)
    SDL_NumJoysticks := 3
    SDL_GameControllerRumble := fun handle _ _ _ => if handle = 100 then 0 else -1 }

/-- The `double` nearest to 1/65535, which is what the JavaScript expression
`1 / 65535` evaluates to. -/
def doubleOf65535th : ℚ := 1 / 2 ^ 16 + 1 / 2 ^ 32 + 1 / 2 ^ 48 + 1 / 2 ^ 64

/-- The manager after `padA` was added to the initial one. -/
def withPadA : Manager := AddController exampleDriver initial 0

/-- The manager after `padA` and then `stickB` were added to the initial one. -/
def withPadAStickB : Manager := AddJoystick exampleDriver withPadA 1

/-- The initial manager with observer 1 for `connected` and observer 2 for
`disconnected`. -/
def observed : Manager :=
  SetEventCallback (SetEventCallback initial "connected" 1) "disconnected" 2

/-- The observed manager after `padA` was added. -/
def observedPadA : Manager := AddController exampleDriver observed 0

/-- The observed manager with `padA`, after button A of `padA` went down. -/
def observedPadAPressed : Manager :=
  HandleEvent exampleDriver observedPadA (.SDL_CONTROLLERBUTTONDOWN 0 SDL_CONTROLLER_BUTTON_A)

/-- The record `AddController` makes for `padA` in the initial manager. -/
def recordA : GamepadState :=
  { instance_id := 0, id := "Pad A", guid := "guid-a", index := 0, is_controller := true,
    buttons := fun _ => false, axes := fun _ => 0, connected := true, device := 100 }

/-- The record `AddJoystick` makes for `stickB` once `padA` holds slot 0. -/
def recordB : GamepadState :=
  { instance_id := 1, id := "Stick B", guid := "guid-b", index := 1, is_controller := false,
    buttons := fun _ => false, axes := fun _ => 0, connected := true, device := 101 }

/-! ## The map operations: lemmas -/

theorem find_insert_self (key : Int) (value : GamepadState) (l : List (Int × GamepadState)) :
    find key (insert key value l) = some value := by
  induction l with
  | nil => simp [insert, find]
  | cons hd tl ih =>
    obtain ⟨k, v⟩ := hd
    unfold insert
    by_cases h1 : key < k
    · simp [h1, find]
    · by_cases h2 : key = k
      · simp [h2, find]
      · have h3 : ¬ k = key := fun h => h2 h.symm
        simp [h1, h2, find, h3, ih]

theorem find_insert_ne (key other : Int) (value : GamepadState)
    (l : List (Int × GamepadState)) (hne : other ≠ key) :
    find other (insert key value l) = find other l := by
  have hne' : ¬ key = other := fun h => hne h.symm
  induction l with
  | nil => simp [insert, find, hne']
  | cons hd tl ih =>
    obtain ⟨k, v⟩ := hd
    unfold insert
    by_cases h1 : key < k
    · simp [h1, find, hne']
    · by_cases h2 : key = k
      · subst h2
        simp [find, hne']
      · simp only [h1, h2, if_false, find, ih]

theorem find_erase_self (key : Int) (l : List (Int × GamepadState)) :
    find key (erase key l) = none := by
  induction l with
  | nil => simp [erase, find]
  | cons hd tl ih =>
    obtain ⟨k, v⟩ := hd
    by_cases h : k = key
    · simp [erase, h, ih]
    · simp [erase, h, find, ih]

theorem find_erase_ne (key other : Int) (l : List (Int × GamepadState)) (hne : other ≠ key) :
    find other (erase key l) = find other l := by
  induction l with
  | nil => simp [erase, find]
  | cons hd tl ih =>
    obtain ⟨k, v⟩ := hd
    by_cases h : k = key
    · have h' : ¬ k = other := fun e => hne (e.symm.trans h)
      simp only [erase, h, if_true, find, ih]
      rw [if_neg (fun e => hne e.symm)]
    · by_cases h2 : k = other
      · subst h2
        simp [erase, h, find]
      · simp only [erase, h, if_false, find, h2, ih]

theorem erase_of_find_none (key : Int) (l : List (Int × GamepadState))
    (h : find key l = none) : erase key l = l := by
  induction l with
  | nil => simp [erase]
  | cons hd tl ih =>
    obtain ⟨k, v⟩ := hd
    by_cases hk : k = key
    · simp [find, hk] at h
    · simp only [find, hk, if_false] at h
      simp only [erase, hk, if_false, ih h]

theorem find_modify_self (key : Int) (f : GamepadState → GamepadState)
    (l : List (Int × GamepadState)) :
    find key (modify key f l) = (find key l).map f := by
  induction l with
  | nil => simp [modify, find]
  | cons hd tl ih =>
    obtain ⟨k, v⟩ := hd
    by_cases h : k = key
    · simp [modify, find, h]
    · simp [modify, find, h, ih]

theorem find_modify_ne (key other : Int) (f : GamepadState → GamepadState)
    (l : List (Int × GamepadState)) (hne : other ≠ key) :
    find other (modify key f l) = find other l := by
  induction l with
  | nil => simp [modify, find]
  | cons hd tl ih =>
    obtain ⟨k, v⟩ := hd
    by_cases h : k = key
    · have h' : ¬ k = other := fun e => hne (e.symm.trans h)
      simp only [modify, h, if_true, find]
      rw [if_neg (fun e => hne e.symm), if_neg (fun e => hne e.symm)]
    · by_cases h2 : k = other
      · subst h2
        simp [modify, h, find]
      · simp only [modify, h, if_false, find, h2, ih]

theorem modify_of_find_none (key : Int) (f : GamepadState → GamepadState)
    (l : List (Int × GamepadState)) (h : find key l = none) : modify key f l = l := by
  induction l with
  | nil => simp [modify]
  | cons hd tl ih =>
    obtain ⟨k, v⟩ := hd
    by_cases hk : k = key
    · simp [find, hk] at h
    · simp only [find, hk, if_false] at h
      simp only [modify, hk, if_false, ih h]

theorem find_isSome_of_mem (l : List (Int × GamepadState)) (kv : Int × GamepadState)
    (h : kv ∈ l) : (find kv.1 l).isSome = true := by
  induction l with
  | nil => simp at h
  | cons hd tl ih =>
    obtain ⟨k, v⟩ := hd
    by_cases hk : k = kv.1
    · simp [find, hk]
    · have : kv ∈ tl := by
        rcases List.mem_cons.mp h with h1 | h1
        · exact absurd (by rw [h1]) hk
        · exact h1
      simp [find, hk, ih this]

theorem mem_of_find_eq_some (key : Int) (value : GamepadState)
    (l : List (Int × GamepadState)) (h : find key l = some value) : (key, value) ∈ l := by
  induction l with
  | nil => simp [find] at h
  | cons hd tl ih =>
    obtain ⟨k, v⟩ := hd
    by_cases hk : k = key
    · simp only [find, hk, if_true, Option.some.injEq] at h
      simp [hk, h]
    · simp only [find, hk, if_false] at h
      exact List.mem_cons_of_mem _ (ih h)

theorem length_insert_of_find_none (key : Int) (value : GamepadState)
    (l : List (Int × GamepadState)) (h : find key l = none) :
    (insert key value l).length = l.length + 1 := by
  induction l with
  | nil => simp [insert]
  | cons hd tl ih =>
    obtain ⟨k, v⟩ := hd
    by_cases hk : k = key
    · simp [find, hk] at h
    · simp only [find, hk, if_false] at h
      have hk' : ¬ key = k := fun e => hk e.symm
      unfold insert
      by_cases h1 : key < k
      · simp [h1]
      · simp [h1, hk', ih h]

/-! ## The trigger threshold -/

theorem triggerThreshold_lt_iff (v : Int) :
    triggerThreshold < (v : ℚ) / 32768 ↔ 3605 ≤ v := by
  unfold triggerThreshold
  rw [lt_div_iff₀ (by norm_num : (0 : ℚ) < 32768)]
  constructor
  · intro h
    by_contra hc
    have h1 : v ≤ 3604 := by omega
    have h2 : (v : ℚ) ≤ 3604 := by exact_mod_cast h1
    linarith
  · intro h
    have h2 : (3605 : ℚ) ≤ v := by exact_mod_cast h
    linarith

theorem eleven_percent_lt_iff (v : Int) :
    (11 : ℚ) / 100 < (v : ℚ) / 32768 ↔ 3605 ≤ v := by
  rw [lt_div_iff₀ (by norm_num : (0 : ℚ) < 32768)]
  constructor
  · intro h
    by_contra hc
    have h1 : v ≤ 3604 := by omega
    have h2 : (v : ℚ) ≤ 3604 := by exact_mod_cast h1
    linarith
  · intro h
    have h2 : (3605 : ℚ) ≤ v := by exact_mod_cast h
    linarith

/-! ## The operations: what they do to the registry -/

theorem RemoveDevice_gamepads (m : Manager) (x : Int) :
    (RemoveDevice m x).gamepads_ = erase x m.gamepads_ := by
  cases hf : find x m.gamepads_ with
  | none => simp [RemoveDevice, hf, erase_of_find_none x m.gamepads_ hf]
  | some st =>
    cases hcb : m.on_disconnected_ <;> simp [RemoveDevice, hf, EmitDisconnected, hcb]

theorem RemoveDevice_next_index (m : Manager) (x : Int) :
    (RemoveDevice m x).next_index_ = m.next_index_ := by
  cases hf : find x m.gamepads_ with
  | none => simp [RemoveDevice, hf]
  | some st =>
    cases hcb : m.on_disconnected_ <;> simp [RemoveDevice, hf, EmitDisconnected, hcb]

theorem updateRecord_gamepads (m : Manager) (x : Int) (f : GamepadState → GamepadState) :
    (updateRecord m x f).gamepads_ = modify x f m.gamepads_ := by
  cases hf : find x m.gamepads_ with
  | none => simp [updateRecord, hf, modify_of_find_none x f m.gamepads_ hf]
  | some st => simp [updateRecord, hf]

theorem updateRecord_eq (m : Manager) (x : Int) (f : GamepadState → GamepadState) :
    updateRecord m x f = { m with gamepads_ := modify x f m.gamepads_ } := by
  cases hf : find x m.gamepads_ with
  | none => simp [updateRecord, hf, modify_of_find_none x f m.gamepads_ hf]
  | some st => simp [updateRecord, hf]

/-- The record an add makes for the device `dev` in the manager `m`. -/
theorem AddController_new (drv : Driver) (m : Manager) (i : Int) (dev : Opened)
    (hopen : drv.SDL_GameControllerOpen i = some dev)
    (hnew : find dev.instance_id m.gamepads_ = none) :
    AddController drv m i =
      EmitConnected
        { m with next_index_ := m.next_index_ + 1
                 gamepads_ := insert dev.instance_id
                   { instance_id := dev.instance_id, id := dev.name, guid := dev.guid,
                     index := m.next_index_, is_controller := true, connected := true,
                     device := dev.handle, buttons := fun _ => false, axes := fun _ => 0 }
                   m.gamepads_ }
        { instance_id := dev.instance_id, id := dev.name, guid := dev.guid,
          index := m.next_index_, is_controller := true, connected := true,
          device := dev.handle, buttons := fun _ => false, axes := fun _ => 0 } := by
  simp [AddController, hopen, hnew]

theorem AddJoystick_new (drv : Driver) (m : Manager) (i : Int) (dev : Opened)
    (hopen : drv.SDL_JoystickOpen i = some dev)
    (hnew : find dev.instance_id m.gamepads_ = none) :
    AddJoystick drv m i =
      EmitConnected
        { m with next_index_ := m.next_index_ + 1
                 gamepads_ := insert dev.instance_id
                   { instance_id := dev.instance_id, id := dev.name, guid := dev.guid,
                     index := m.next_index_, is_controller := false, connected := true,
                     device := dev.handle, buttons := fun _ => false, axes := fun _ => 0 }
                   m.gamepads_ }
        { instance_id := dev.instance_id, id := dev.name, guid := dev.guid,
          index := m.next_index_, is_controller := false, connected := true,
          device := dev.handle, buttons := fun _ => false, axes := fun _ => 0 } := by
  simp [AddJoystick, hopen, hnew]

theorem EmitConnected_eq (m : Manager) (state : GamepadState) :
    EmitConnected m state =
      { m with emitted := m.emitted ++
          [{ kind := EventKind.connected, state := state, registry := m.gamepads_,
             call := m.on_connected_.map (fun callback =>
               (callback, { id := state.id, guid := state.guid, index := state.index,
                            connected := true, isController := state.is_controller })) }] } := by
  cases hcb : m.on_connected_ <;> simp [EmitConnected, hcb]

/-! ## The slots given out along a run -/

theorem mem_insert (key : Int) (value : GamepadState) (l : List (Int × GamepadState))
    (kv : Int × GamepadState) (h : kv ∈ insert key value l) : kv = (key, value) ∨ kv ∈ l := by
  induction l with
  | nil =>
    simp only [insert, List.mem_singleton] at h
    exact Or.inl h
  | cons hd tl ih =>
    obtain ⟨k, v⟩ := hd
    unfold insert at h
    by_cases h1 : key < k
    · rw [if_pos h1] at h
      rcases List.mem_cons.mp h with h2 | h2
      · exact Or.inl h2
      · exact Or.inr h2
    · by_cases h2 : key = k
      · rw [if_neg h1, if_pos h2] at h
        rcases List.mem_cons.mp h with h3 | h3
        · exact Or.inl h3
        · exact Or.inr (List.mem_cons_of_mem _ h3)
      · rw [if_neg h1, if_neg h2] at h
        rcases List.mem_cons.mp h with h3 | h3
        · exact Or.inr (by rw [h3]; exact List.mem_cons_self _ _)
        · rcases ih h3 with h4 | h4
          · exact Or.inl h4
          · exact Or.inr (List.mem_cons_of_mem _ h4)

theorem mem_erase (key : Int) (l : List (Int × GamepadState)) (kv : Int × GamepadState)
    (h : kv ∈ erase key l) : kv ∈ l := by
  induction l with
  | nil => simp [erase] at h
  | cons hd tl ih =>
    obtain ⟨k, v⟩ := hd
    by_cases hk : k = key
    · simp only [erase, hk, if_true] at h
      exact List.mem_cons_of_mem _ (ih h)
    · simp only [erase, hk, if_false] at h
      rcases List.mem_cons.mp h with h1 | h1
      · rw [h1]
        exact List.mem_cons_self _ _
      · exact List.mem_cons_of_mem _ (ih h1)

theorem mem_modify (key : Int) (f : GamepadState → GamepadState)
    (l : List (Int × GamepadState)) (kv : Int × GamepadState) (h : kv ∈ modify key f l) :
    kv ∈ l ∨ ∃ v, (key, v) ∈ l ∧ kv = (key, f v) := by
  induction l with
  | nil => simp [modify] at h
  | cons hd tl ih =>
    obtain ⟨k, v⟩ := hd
    by_cases hk : k = key
    · simp only [modify, hk, if_true] at h
      rcases List.mem_cons.mp h with h1 | h1
      · exact Or.inr ⟨v, by rw [hk]; exact List.mem_cons_self _ _, h1⟩
      · exact Or.inl (List.mem_cons_of_mem _ h1)
    · simp only [modify, hk, if_false] at h
      rcases List.mem_cons.mp h with h1 | h1
      · exact Or.inl (by rw [h1]; exact List.mem_cons_self _ _)
      · rcases ih h1 with h2 | ⟨w, hw, he⟩
        · exact Or.inl (List.mem_cons_of_mem _ h2)
        · exact Or.inr ⟨w, List.mem_cons_of_mem _ hw, he⟩

theorem filter_insert_new (key : Int) (value : GamepadState) (l : List (Int × GamepadState))
    (p : Int × GamepadState → Bool) (hnew : p (key, value) = true)
    (hold : ∀ kv ∈ l, p kv = false) :
    (insert key value l).filter p = [(key, value)] := by
  have hl : l.filter p = [] := by
    rw [List.filter_eq_nil_iff]
    intro a ha
    simp [hold a ha]
  induction l with
  | nil => simp [insert, hnew]
  | cons hd tl ih =>
    obtain ⟨k, v⟩ := hd
    have hhd : p (k, v) = false := hold (k, v) (List.mem_cons_self _ _)
    have htl : ∀ kv ∈ tl, p kv = false := fun kv hkv => hold kv (List.mem_cons_of_mem _ hkv)
    have hftl : tl.filter p = [] := by
      rw [List.filter_eq_nil_iff]
      intro a ha
      simp [htl a ha]
    unfold insert
    by_cases h1 : key < k
    · rw [if_pos h1, List.filter_cons, hnew]
      simp [hl]
    · by_cases h2 : key = k
      · rw [if_neg h1, if_pos h2, List.filter_cons, hnew]
        simp [hftl]
      · rw [if_neg h1, if_neg h2, List.filter_cons, hhd]
        simp only [Bool.false_eq_true, if_false]
        exact ih htl hftl

theorem created_of_insert (m after : Manager) (key : Int) (value : GamepadState)
    (hnew : find key m.gamepads_ = none)
    (hafter : after.gamepads_ = insert key value m.gamepads_) :
    created m after = [value.index] := by
  unfold created
  rw [hafter, filter_insert_new key value m.gamepads_ _ (by simp [hnew])
    (fun kv hkv => by simp [find_isSome_of_mem m.gamepads_ kv hkv])]
  rfl

theorem created_of_keys_subset (m after : Manager)
    (h : ∀ kv ∈ after.gamepads_, (find kv.1 m.gamepads_).isSome = true) :
    created m after = [] := by
  unfold created
  rw [List.map_eq_nil_iff, List.filter_eq_nil_iff]
  intro a ha
  have h1 := h a ha
  cases hf : find a.1 m.gamepads_ with
  | none => simp [hf] at h1
  | some st => simp

theorem created_self (m after : Manager) (h : after.gamepads_ = m.gamepads_) :
    created m after = [] :=
  created_of_keys_subset m after (fun kv hkv => find_isSome_of_mem _ kv (h ▸ hkv))

theorem created_AddController (drv : Driver) (m : Manager) (i : Int) :
    (created m (AddController drv m i) = [] ∧
      (AddController drv m i).next_index_ = m.next_index_) ∨
    (created m (AddController drv m i) = [m.next_index_] ∧
      (AddController drv m i).next_index_ = m.next_index_ + 1) := by
  cases ho : drv.SDL_GameControllerOpen i with
  | none =>
    left
    have : AddController drv m i = m := by simp [AddController, ho]
    rw [this]
    exact ⟨created_self m m rfl, rfl⟩
  | some dev =>
    cases hf : find dev.instance_id m.gamepads_ with
    | some st =>
      left
      have : AddController drv m i = { m with driver_calls :=
          m.driver_calls ++ [DriverCall.SDL_GameControllerClose dev.handle] } := by
        simp [AddController, ho, hf]
      rw [this]
      exact ⟨created_self m _ rfl, rfl⟩
    | none =>
      right
      rw [AddController_new drv m i dev ho hf, EmitConnected_eq]
      exact ⟨created_of_insert m _ dev.instance_id _ hf rfl, rfl⟩

theorem created_AddJoystick (drv : Driver) (m : Manager) (i : Int) :
    (created m (AddJoystick drv m i) = [] ∧
      (AddJoystick drv m i).next_index_ = m.next_index_) ∨
    (created m (AddJoystick drv m i) = [m.next_index_] ∧
      (AddJoystick drv m i).next_index_ = m.next_index_ + 1) := by
  cases ho : drv.SDL_JoystickOpen i with
  | none =>
    left
    have : AddJoystick drv m i = m := by simp [AddJoystick, ho]
    rw [this]
    exact ⟨created_self m m rfl, rfl⟩
  | some dev =>
    cases hf : find dev.instance_id m.gamepads_ with
    | some st =>
      left
      have : AddJoystick drv m i = { m with driver_calls :=
          m.driver_calls ++ [DriverCall.SDL_JoystickClose dev.handle] } := by
        simp [AddJoystick, ho, hf]
      rw [this]
      exact ⟨created_self m _ rfl, rfl⟩
    | none =>
      right
      rw [AddJoystick_new drv m i dev ho hf, EmitConnected_eq]
      exact ⟨created_of_insert m _ dev.instance_id _ hf rfl, rfl⟩

theorem created_RemoveDevice (m : Manager) (x : Int) :
    created m (RemoveDevice m x) = [] ∧ (RemoveDevice m x).next_index_ = m.next_index_ := by
  refine ⟨created_of_keys_subset m _ ?_, RemoveDevice_next_index m x⟩
  intro kv hkv
  rw [RemoveDevice_gamepads] at hkv
  exact find_isSome_of_mem _ kv (mem_erase x _ kv hkv)

theorem created_updateRecord (m : Manager) (x : Int) (f : GamepadState → GamepadState) :
    created m (updateRecord m x f) = [] ∧ (updateRecord m x f).next_index_ = m.next_index_ := by
  refine ⟨created_of_keys_subset m _ ?_, by rw [updateRecord_eq]⟩
  intro kv hkv
  rw [updateRecord_gamepads] at hkv
  rcases mem_modify x f _ kv hkv with h | ⟨v, hv, he⟩
  · exact find_isSome_of_mem _ kv h
  · rw [he]
    exact find_isSome_of_mem _ (x, v) hv

theorem created_HandleEvent (drv : Driver) (m : Manager) (event : SDL_Event) :
    (created m (HandleEvent drv m event) = [] ∧
      (HandleEvent drv m event).next_index_ = m.next_index_) ∨
    (created m (HandleEvent drv m event) = [m.next_index_] ∧
      (HandleEvent drv m event).next_index_ = m.next_index_ + 1) := by
  cases event with
  | SDL_CONTROLLERDEVICEADDED which => exact created_AddController drv m which
  | SDL_JOYDEVICEADDED which =>
    by_cases hc : drv.SDL_IsGameController which = true
    · have hm : HandleEvent drv m (.SDL_JOYDEVICEADDED which) = m := by
        simp [HandleEvent, hc]
      rw [hm]
      exact Or.inl ⟨created_self m m rfl, rfl⟩
    · have hm : HandleEvent drv m (.SDL_JOYDEVICEADDED which) = AddJoystick drv m which := by
        simp [HandleEvent, hc]
      rw [hm]
      exact created_AddJoystick drv m which
  | SDL_CONTROLLERDEVICEREMOVED which => exact Or.inl (created_RemoveDevice m which)
  | SDL_JOYDEVICEREMOVED which => exact Or.inl (created_RemoveDevice m which)
  | SDL_CONTROLLERBUTTONDOWN which button => exact Or.inl (created_updateRecord m which _)
  | SDL_CONTROLLERBUTTONUP which button => exact Or.inl (created_updateRecord m which _)
  | SDL_CONTROLLERAXISMOTION which axis value => exact Or.inl (created_updateRecord m which _)
  | SDL_JOYBUTTONDOWN which button => exact Or.inl (created_updateRecord m which _)
  | SDL_JOYBUTTONUP which button => exact Or.inl (created_updateRecord m which _)
  | SDL_JOYAXISMOTION which axis value => exact Or.inl (created_updateRecord m which _)
  | other type => exact Or.inl ⟨created_self m m rfl, rfl⟩

theorem assignedSlots_eq (events : List (Driver × SDL_Event)) :
    ∀ m : Manager, ∃ n : Nat,
      assignedSlots m events = (List.range n).map (fun k : Nat => m.next_index_ + (k : Int)) ∧
      (Poll m events).next_index_ = m.next_index_ + (n : Int) := by
  induction events with
  | nil =>
    intro m
    exact ⟨0, by simp [assignedSlots], by simp [Poll]⟩
  | cons de rest ih =>
    intro m
    obtain ⟨n, hn1, hn2⟩ := ih (HandleEvent de.1 m de.2)
    have hpoll : Poll m (de :: rest) = Poll (HandleEvent de.1 m de.2) rest := by
      simp [Poll]
    rcases created_HandleEvent de.1 m de.2 with ⟨hc, hx⟩ | ⟨hc, hx⟩
    · refine ⟨n, ?_, ?_⟩
      · rw [assignedSlots, hc, hn1, hx]
        rfl
      · rw [hpoll, hn2, hx]
    · refine ⟨n + 1, ?_, ?_⟩
      · rw [assignedSlots, hc, hn1, hx, List.range_succ_eq_map]
        simp only [List.map_cons, List.map_map, List.singleton_append, Nat.cast_zero,
          add_zero, List.cons.injEq, true_and]
        apply List.map_congr_left
        intro k _
        simp only [Function.comp_apply, Nat.succ_eq_add_one, Nat.cast_add, Nat.cast_one]
        ring
      · rw [hpoll, hn2, hx]
        push_cast
        ring

theorem assignedSlots_append (pre post : List (Driver × SDL_Event)) :
    ∀ m : Manager,
      assignedSlots m (pre ++ post) = assignedSlots m pre ++ assignedSlots (Poll m pre) post := by
  induction pre with
  | nil =>
    intro m
    simp [assignedSlots, Poll]
  | cons de rest ih =>
    intro m
    have hpoll : Poll m (de :: rest) = Poll (HandleEvent de.1 m de.2) rest := by
      simp [Poll]
    rw [List.cons_append, assignedSlots, assignedSlots, ih, hpoll, List.append_assoc]

/-! ## Well-formedness is kept -/

theorem pairwise_keys_insert (key : Int) (value : GamepadState)
    (l : List (Int × GamepadState)) (h : l.Pairwise (fun a b => a.1 < b.1)) :
    (insert key value l).Pairwise (fun a b => a.1 < b.1) := by
  induction l with
  | nil => simp [insert]
  | cons hd tl ih =>
    obtain ⟨k, v⟩ := hd
    rw [List.pairwise_cons] at h
    obtain ⟨hhd, htl⟩ := h
    unfold insert
    by_cases h1 : key < k
    · rw [if_pos h1, List.pairwise_cons]
      refine ⟨?_, List.pairwise_cons.mpr ⟨hhd, htl⟩⟩
      intro b hb
      rcases List.mem_cons.mp hb with hb1 | hb1
      · rw [hb1]
        exact h1
      · exact lt_trans h1 (hhd b hb1)
    · by_cases h2 : key = k
      · rw [if_neg h1, if_pos h2, List.pairwise_cons]
        refine ⟨?_, htl⟩
        intro b hb
        have := hhd b hb
        simpa [h2] using this
      · rw [if_neg h1, if_neg h2, List.pairwise_cons]
        refine ⟨?_, ih htl⟩
        intro b hb
        rcases mem_insert key value tl b hb with hb1 | hb1
        · rw [hb1]
          show k < key
          omega
        · exact hhd b hb1

theorem pairwise_index_insert (key : Int) (value : GamepadState)
    (l : List (Int × GamepadState)) (h : l.Pairwise (fun a b => a.2.index ≠ b.2.index))
    (hfresh : ∀ kv ∈ l, kv.2.index ≠ value.index) :
    (insert key value l).Pairwise (fun a b => a.2.index ≠ b.2.index) := by
  induction l with
  | nil => simp [insert]
  | cons hd tl ih =>
    obtain ⟨k, v⟩ := hd
    rw [List.pairwise_cons] at h
    obtain ⟨hhd, htl⟩ := h
    have hfresh' : ∀ kv ∈ tl, kv.2.index ≠ value.index :=
      fun kv hkv => hfresh kv (List.mem_cons_of_mem _ hkv)
    unfold insert
    by_cases h1 : key < k
    · rw [if_pos h1, List.pairwise_cons]
      exact ⟨fun b hb => (hfresh b hb).symm, List.pairwise_cons.mpr ⟨hhd, htl⟩⟩
    · by_cases h2 : key = k
      · rw [if_neg h1, if_pos h2, List.pairwise_cons]
        exact ⟨fun b hb => (hfresh' b hb).symm, htl⟩
      · rw [if_neg h1, if_neg h2, List.pairwise_cons]
        refine ⟨?_, ih htl hfresh'⟩
        intro b hb
        rcases mem_insert key value tl b hb with hb1 | hb1
        · rw [hb1]
          exact hfresh (k, v) (List.mem_cons_self _ _)
        · exact hhd b hb1

theorem erase_sublist (key : Int) (l : List (Int × GamepadState)) :
    List.Sublist (erase key l) l := by
  induction l with
  | nil => simp [erase]
  | cons hd tl ih =>
    obtain ⟨k, v⟩ := hd
    by_cases hk : k = key
    · simp only [erase, hk, if_true]
      exact List.Sublist.cons _ ih
    · simp only [erase, hk, if_false]
      exact List.Sublist.cons₂ _ ih

theorem map_modify {β : Type} (key : Int) (f : GamepadState → GamepadState)
    (g : Int × GamepadState → β) (hg : ∀ k v, g (k, f v) = g (k, v))
    (l : List (Int × GamepadState)) : (modify key f l).map g = l.map g := by
  induction l with
  | nil => simp [modify]
  | cons hd tl ih =>
    obtain ⟨k, v⟩ := hd
    by_cases hk : k = key
    · simp only [modify, hk, if_true, List.map_cons, hg]
    · simp only [modify, hk, if_false, List.map_cons, ih]

theorem ite_shape (P : GamepadState → Prop) (c : Prop) [Decidable c]
    (x y : GamepadState) (hx : P x) (hy : P y) : P (if c then x else y) := by
  by_cases h : c
  · rw [if_pos h]
    exact hx
  · rw [if_neg h]
    exact hy

theorem controllerButton_shape (state : GamepadState) (button : Nat) (pressed : Bool) :
    ∃ b, controllerButton state button pressed = { state with buttons := b } := by
  unfold controllerButton
  repeat (refine ite_shape (fun s => ∃ b, s = { state with buttons := b }) _ _ _ ⟨_, rfl⟩ ?_)
  exact ⟨_, rfl⟩

theorem controllerAxis_shape (state : GamepadState) (axis : Nat) (raw : Int) :
    ∃ b a, controllerAxis state axis raw = { state with buttons := b, axes := a } := by
  unfold controllerAxis
  dsimp only
  have step := ite_shape (fun s => ∃ b a, s = { state with buttons := b, axes := a })
  repeat (refine step _ _ _ ⟨_, _, rfl⟩ ?_)
  exact ⟨_, _, rfl⟩

theorem UpdateControllerState_shape (state : GamepadState) (event : SDL_Event) :
    ∃ b a, UpdateControllerState state event = { state with buttons := b, axes := a } := by
  cases event with
  | SDL_CONTROLLERBUTTONDOWN which button =>
    obtain ⟨b, hb⟩ := controllerButton_shape state button true
    exact ⟨b, state.axes, by simp only [UpdateControllerState, hb]⟩
  | SDL_CONTROLLERBUTTONUP which button =>
    obtain ⟨b, hb⟩ := controllerButton_shape state button false
    exact ⟨b, state.axes, by simp only [UpdateControllerState, hb]⟩
  | SDL_CONTROLLERAXISMOTION which axis value =>
    obtain ⟨b, a, hb⟩ := controllerAxis_shape state axis value
    exact ⟨b, a, by simp only [UpdateControllerState, hb]⟩
  | _ => exact ⟨state.buttons, state.axes, rfl⟩

theorem joystickButton_shape (state : GamepadState) (button : Nat) (pressed : Bool) :
    ∃ b, joystickButton state button pressed = { state with buttons := b } := by
  unfold joystickButton
  split_ifs <;> exact ⟨_, rfl⟩

theorem joystickAxis_shape (state : GamepadState) (axis : Nat) (raw : Int) :
    ∃ a, joystickAxis state axis raw = { state with axes := a } := by
  unfold joystickAxis
  split_ifs <;> exact ⟨_, rfl⟩

theorem UpdateJoystickState_shape (state : GamepadState) (event : SDL_Event) :
    ∃ b a, UpdateJoystickState state event = { state with buttons := b, axes := a } := by
  cases event with
  | SDL_JOYBUTTONDOWN which button =>
    obtain ⟨b, hb⟩ := joystickButton_shape state button true
    exact ⟨b, state.axes, by simp only [UpdateJoystickState, hb]⟩
  | SDL_JOYBUTTONUP which button =>
    obtain ⟨b, hb⟩ := joystickButton_shape state button false
    exact ⟨b, state.axes, by simp only [UpdateJoystickState, hb]⟩
  | SDL_JOYAXISMOTION which axis value =>
    obtain ⟨a, hb⟩ := joystickAxis_shape state axis value
    exact ⟨state.buttons, a, by simp only [UpdateJoystickState, hb]⟩
  | _ => exact ⟨state.buttons, state.axes, rfl⟩

theorem UpdateControllerState_frame (state : GamepadState) (event : SDL_Event) :
    (UpdateControllerState state event).instance_id = state.instance_id ∧
    (UpdateControllerState state event).id = state.id ∧
    (UpdateControllerState state event).guid = state.guid ∧
    (UpdateControllerState state event).index = state.index ∧
    (UpdateControllerState state event).is_controller = state.is_controller ∧
    (UpdateControllerState state event).connected = state.connected ∧
    (UpdateControllerState state event).device = state.device := by
  obtain ⟨b, a, h⟩ := UpdateControllerState_shape state event
  rw [h]
  exact ⟨rfl, rfl, rfl, rfl, rfl, rfl, rfl⟩

theorem UpdateJoystickState_frame (state : GamepadState) (event : SDL_Event) :
    (UpdateJoystickState state event).instance_id = state.instance_id ∧
    (UpdateJoystickState state event).id = state.id ∧
    (UpdateJoystickState state event).guid = state.guid ∧
    (UpdateJoystickState state event).index = state.index ∧
    (UpdateJoystickState state event).is_controller = state.is_controller ∧
    (UpdateJoystickState state event).connected = state.connected ∧
    (UpdateJoystickState state event).device = state.device := by
  obtain ⟨b, a, h⟩ := UpdateJoystickState_shape state event
  rw [h]
  exact ⟨rfl, rfl, rfl, rfl, rfl, rfl, rfl⟩

theorem WellFormed_initial : WellFormed initial := by
  simp [WellFormed, initial]

theorem WellFormed_congr (m after : Manager) (hg : after.gamepads_ = m.gamepads_)
    (hn : after.next_index_ = m.next_index_) (h : WellFormed m) : WellFormed after := by
  unfold WellFormed at h ⊢
  rw [hg, hn]
  exact h

theorem WellFormed_insert (m after : Manager) (key : Int) (value : GamepadState)
    (hkey : value.instance_id = key) (hconn : value.connected = true)
    (hidx : value.index = m.next_index_)
    (hg : after.gamepads_ = insert key value m.gamepads_)
    (hn : after.next_index_ = m.next_index_ + 1) (h : WellFormed m) : WellFormed after := by
  obtain ⟨h0, h1, h2, h3⟩ := h
  unfold WellFormed
  rw [hg, hn]
  refine ⟨by omega, pairwise_keys_insert key value _ h1,
    pairwise_index_insert key value _ h2 ?_, ?_⟩
  · intro kv hkv
    have := (h3 kv hkv).2.2.2
    omega
  · intro kv hkv
    rcases mem_insert key value _ kv hkv with hkv1 | hkv1
    · rw [hkv1]
      exact ⟨hkey, hconn, by show 0 ≤ value.index; omega,
        by show value.index < m.next_index_ + 1; omega⟩
    · obtain ⟨a, b, c, d⟩ := h3 kv hkv1
      exact ⟨a, b, c, by omega⟩

theorem WellFormed_erase (m after : Manager) (key : Int)
    (hg : after.gamepads_ = erase key m.gamepads_)
    (hn : after.next_index_ = m.next_index_) (h : WellFormed m) : WellFormed after := by
  obtain ⟨h0, h1, h2, h3⟩ := h
  unfold WellFormed
  rw [hg, hn]
  exact ⟨h0, h1.sublist (erase_sublist key _), h2.sublist (erase_sublist key _),
    fun kv hkv => h3 kv (mem_erase key _ kv hkv)⟩

theorem WellFormed_modify (m after : Manager) (key : Int) (f : GamepadState → GamepadState)
    (hf : ∀ v, (f v).instance_id = v.instance_id ∧ (f v).index = v.index ∧
      (f v).connected = v.connected)
    (hg : after.gamepads_ = modify key f m.gamepads_)
    (hn : after.next_index_ = m.next_index_) (h : WellFormed m) : WellFormed after := by
  obtain ⟨h0, h1, h2, h3⟩ := h
  unfold WellFormed
  rw [hg, hn]
  refine ⟨h0, ?_, ?_, ?_⟩
  · have e := map_modify key f (fun kv => kv.1) (fun _ _ => rfl) m.gamepads_
    have h1' : (m.gamepads_.map (fun kv => kv.1)).Pairwise (fun a b => a < b) :=
      List.pairwise_map.mpr h1
    rw [← e] at h1'
    exact List.pairwise_map.mp h1'
  · have e := map_modify key f (fun kv => kv.2.index) (fun _ v => (hf v).2.1) m.gamepads_
    have h2' : (m.gamepads_.map (fun kv => kv.2.index)).Pairwise (fun a b => a ≠ b) :=
      List.pairwise_map.mpr h2
    rw [← e] at h2'
    exact List.pairwise_map.mp h2'
  · intro kv hkv
    rcases mem_modify key f _ kv hkv with hkv1 | ⟨v, hv, he⟩
    · exact h3 kv hkv1
    · obtain ⟨a, b, c, d⟩ := h3 (key, v) hv
      obtain ⟨f1, f2, f3⟩ := hf v
      rw [he]
      exact ⟨by show (f v).instance_id = key; rw [f1]; exact a,
        by show (f v).connected = true; rw [f3]; exact b,
        by show 0 ≤ (f v).index; rw [f2]; exact c,
        by show (f v).index < m.next_index_; rw [f2]; exact d⟩

theorem WellFormed_AddController (drv : Driver) (m : Manager) (i : Int) (h : WellFormed m) :
    WellFormed (AddController drv m i) := by
  cases ho : drv.SDL_GameControllerOpen i with
  | none =>
    have : AddController drv m i = m := by simp [AddController, ho]
    rw [this]
    exact h
  | some dev =>
    cases hf : find dev.instance_id m.gamepads_ with
    | some st =>
      have : AddController drv m i = { m with driver_calls :=
          m.driver_calls ++ [DriverCall.SDL_GameControllerClose dev.handle] } := by
        simp [AddController, ho, hf]
      rw [this]
      exact WellFormed_congr m _ rfl rfl h
    | none =>
      rw [AddController_new drv m i dev ho hf, EmitConnected_eq]
      exact WellFormed_insert m _ dev.instance_id _ rfl rfl rfl rfl rfl h

theorem WellFormed_AddJoystick (drv : Driver) (m : Manager) (i : Int) (h : WellFormed m) :
    WellFormed (AddJoystick drv m i) := by
  cases ho : drv.SDL_JoystickOpen i with
  | none =>
    have : AddJoystick drv m i = m := by simp [AddJoystick, ho]
    rw [this]
    exact h
  | some dev =>
    cases hf : find dev.instance_id m.gamepads_ with
    | some st =>
      have : AddJoystick drv m i = { m with driver_calls :=
          m.driver_calls ++ [DriverCall.SDL_JoystickClose dev.handle] } := by
        simp [AddJoystick, ho, hf]
      rw [this]
      exact WellFormed_congr m _ rfl rfl h
    | none =>
      rw [AddJoystick_new drv m i dev ho hf, EmitConnected_eq]
      exact WellFormed_insert m _ dev.instance_id _ rfl rfl rfl rfl rfl h

theorem WellFormed_RemoveDevice (m : Manager) (x : Int) (h : WellFormed m) :
    WellFormed (RemoveDevice m x) :=
  WellFormed_erase m _ x (RemoveDevice_gamepads m x) (RemoveDevice_next_index m x) h

theorem WellFormed_updateController (m : Manager) (x : Int) (event : SDL_Event)
    (h : WellFormed m) :
    WellFormed (updateRecord m x (fun state => UpdateControllerState state event)) := by
  refine WellFormed_modify m _ x _ ?_ (updateRecord_gamepads m x _)
    (by rw [updateRecord_eq]) h
  intro v
  have hfr := UpdateControllerState_frame v event
  exact ⟨hfr.1, hfr.2.2.2.1, hfr.2.2.2.2.2.1⟩

theorem WellFormed_updateJoystick (m : Manager) (x : Int) (event : SDL_Event)
    (h : WellFormed m) :
    WellFormed (updateRecord m x (fun state => UpdateJoystickState state event)) := by
  refine WellFormed_modify m _ x _ ?_ (updateRecord_gamepads m x _)
    (by rw [updateRecord_eq]) h
  intro v
  have hfr := UpdateJoystickState_frame v event
  exact ⟨hfr.1, hfr.2.2.2.1, hfr.2.2.2.2.2.1⟩

theorem WellFormed_HandleEvent (drv : Driver) (m : Manager) (event : SDL_Event)
    (h : WellFormed m) : WellFormed (HandleEvent drv m event) := by
  cases event with
  | SDL_CONTROLLERDEVICEADDED which => exact WellFormed_AddController drv m which h
  | SDL_JOYDEVICEADDED which =>
    by_cases hc : drv.SDL_IsGameController which = true
    · have hm : HandleEvent drv m (.SDL_JOYDEVICEADDED which) = m := by
        simp [HandleEvent, hc]
      rw [hm]
      exact h
    · have hm : HandleEvent drv m (.SDL_JOYDEVICEADDED which) = AddJoystick drv m which := by
        simp [HandleEvent, hc]
      rw [hm]
      exact WellFormed_AddJoystick drv m which h
  | SDL_CONTROLLERDEVICEREMOVED which => exact WellFormed_RemoveDevice m which h
  | SDL_JOYDEVICEREMOVED which => exact WellFormed_RemoveDevice m which h
  | SDL_CONTROLLERBUTTONDOWN which button => exact WellFormed_updateController m which _ h
  | SDL_CONTROLLERBUTTONUP which button => exact WellFormed_updateController m which _ h
  | SDL_CONTROLLERAXISMOTION which axis value => exact WellFormed_updateController m which _ h
  | SDL_JOYBUTTONDOWN which button => exact WellFormed_updateJoystick m which _ h
  | SDL_JOYBUTTONUP which button => exact WellFormed_updateJoystick m which _ h
  | SDL_JOYAXISMOTION which axis value => exact WellFormed_updateJoystick m which _ h
  | other type => exact h

theorem WellFormed_ScanDevices (drv : Driver) (m : Manager) (h : WellFormed m) :
    WellFormed (ScanDevices drv m) := by
  unfold ScanDevices
  generalize List.range drv.SDL_NumJoysticks = l
  induction l generalizing m with
  | nil => exact h
  | cons i rest ih =>
    rw [List.foldl_cons]
    apply ih
    by_cases hc : drv.SDL_IsGameController (i : Int) = true
    · rw [if_pos hc]
      exact WellFormed_AddController drv m _ h
    · rw [if_neg hc]
      exact WellFormed_AddJoystick drv m _ h

theorem WellFormed_SetEventCallback (m : Manager) (event_type : String) (callback : Nat)
    (h : WellFormed m) : WellFormed (SetEventCallback m event_type callback) := by
  unfold SetEventCallback
  split_ifs
  · exact WellFormed_congr m _ rfl rfl h
  · exact WellFormed_congr m _ rfl rfl h
  · exact h

theorem PlayVibration_registry (drv : Driver) (m : Manager) (gamepad_index duration : Int)
    (strong weak : ℚ) :
    ∃ calls, (PlayVibration drv m gamepad_index duration strong weak).1 =
      { m with driver_calls := calls } := by
  unfold PlayVibration
  cases findByIndex gamepad_index m.gamepads_ with
  | none => exact ⟨m.driver_calls, rfl⟩
  | some target =>
    by_cases hc : target.is_controller = true
    · exact ⟨m.driver_calls ++
        [DriverCall.SDL_GameControllerRumble target.device
          (castUint16 (binary64 (weak * 65535))) (castUint16 (binary64 (strong * 65535)))
          (castUint32 duration)], by simp [hc]⟩
    · exact ⟨m.driver_calls, by simp [hc]⟩

theorem StopVibration_registry (drv : Driver) (m : Manager) (gamepad_index : Int) :
    ∃ calls, (StopVibration drv m gamepad_index).1 = { m with driver_calls := calls } := by
  unfold StopVibration
  cases findByIndex gamepad_index m.gamepads_ with
  | none => exact ⟨m.driver_calls, rfl⟩
  | some target =>
    by_cases hc : target.is_controller = true
    · exact ⟨m.driver_calls ++ [DriverCall.SDL_GameControllerRumble target.device 0 0 0],
        by simp [hc]⟩
    · exact ⟨m.driver_calls, by simp [hc]⟩

theorem WellFormed_PlayVibration (drv : Driver) (m : Manager) (gamepad_index duration : Int)
    (strong weak : ℚ) (h : WellFormed m) :
    WellFormed (PlayVibration drv m gamepad_index duration strong weak).1 := by
  obtain ⟨calls, hc⟩ := PlayVibration_registry drv m gamepad_index duration strong weak
  rw [hc]
  exact WellFormed_congr m _ rfl rfl h

theorem WellFormed_StopVibration (drv : Driver) (m : Manager) (gamepad_index : Int)
    (h : WellFormed m) : WellFormed (StopVibration drv m gamepad_index).1 := by
  obtain ⟨calls, hc⟩ := StopVibration_registry drv m gamepad_index
  rw [hc]
  exact WellFormed_congr m _ rfl rfl h

theorem Reachable.wellFormed (m : Manager) (h : Reachable m) : WellFormed m := by
  induction h with
  | initial => exact WellFormed_initial
  | handleEvent drv m event _ ih => exact WellFormed_HandleEvent drv m event ih
  | scanDevices drv m _ ih => exact WellFormed_ScanDevices drv m ih
  | setEventCallback m ty cb _ ih => exact WellFormed_SetEventCallback m ty cb ih
  | playVibration drv m s d strong weak _ ih =>
    exact WellFormed_PlayVibration drv m s d strong weak ih
  | stopVibration drv m s _ ih => exact WellFormed_StopVibration drv m s ih

/-! ## The snapshot -/

theorem arraySet_in_range (result : List (Option GamepadObject)) (index : Int)
    (value : GamepadObject) (h0 : 0 ≤ index) (h4 : index < 4) (hlen : result.length = 4) :
    arraySet result index value = result.set index.toNat (some value) := by
  have hmod : index % 4294967296 = index := Int.emod_eq_of_lt h0 (by omega)
  have hlt : index.toNat < result.length := by omega
  simp only [arraySet, hmod, hlt, if_true]

theorem storeGamepad_skip (result : List (Option GamepadObject)) (pair : Int × GamepadState)
    (h : pair.2.connected = false ∨ 4 ≤ pair.2.index) : storeGamepad result pair = result := by
  unfold storeGamepad
  rcases h with h | h
  · simp [h]
  · simp [h]

theorem storeGamepad_store (result : List (Option GamepadObject)) (pair : Int × GamepadState)
    (hc : pair.2.connected = true) (h0 : 0 ≤ pair.2.index) (h4 : pair.2.index < 4)
    (hlen : result.length = 4) :
    storeGamepad result pair = result.set pair.2.index.toNat (some (gamepadObject pair.2)) := by
  unfold storeGamepad
  have hn : ¬ (4 ≤ pair.2.index) := by omega
  simp only [hc, Bool.not_true, ge_iff_le, hn, decide_False, Bool.or_self, Bool.false_eq_true,
    if_false]
  exact arraySet_in_range result _ _ h0 h4 hlen

theorem storeGamepad_cases (result : List (Option GamepadObject)) (pair : Int × GamepadState)
    (h0 : 0 ≤ pair.2.index) (hlen : result.length = 4) :
    storeGamepad result pair = result ∨
    (pair.2.connected = true ∧ pair.2.index < 4 ∧
      storeGamepad result pair =
        result.set pair.2.index.toNat (some (gamepadObject pair.2))) := by
  by_cases hc : pair.2.connected = true
  · by_cases h4 : pair.2.index < 4
    · exact Or.inr ⟨hc, h4, storeGamepad_store result pair hc h0 h4 hlen⟩
    · exact Or.inl (storeGamepad_skip result pair (Or.inr (by omega)))
  · exact Or.inl (storeGamepad_skip result pair (Or.inl (by simpa using hc)))

theorem foldl_storeGamepad_length (l : List (Int × GamepadState))
    (hnn : ∀ kv ∈ l, 0 ≤ kv.2.index) :
    ∀ acc : List (Option GamepadObject), acc.length = 4 →
      (l.foldl storeGamepad acc).length = 4 := by
  induction l with
  | nil => exact fun acc h => h
  | cons hd tl ih =>
    intro acc hacc
    rw [List.foldl_cons]
    apply ih (fun kv hkv => hnn kv (List.mem_cons_of_mem _ hkv))
    rcases storeGamepad_cases acc hd (hnn hd (List.mem_cons_self _ _)) hacc with h | ⟨_, _, h⟩
    · rw [h]
      exact hacc
    · rw [h, List.length_set]
      exact hacc

theorem foldl_storeGamepad_untouched (l : List (Int × GamepadState)) (i : Nat)
    (hnn : ∀ kv ∈ l, 0 ≤ kv.2.index)
    (hne : ∀ kv ∈ l, kv.2.connected = true → kv.2.index ≠ (i : Int)) :
    ∀ acc : List (Option GamepadObject), acc.length = 4 →
      (l.foldl storeGamepad acc)[i]? = acc[i]? := by
  induction l with
  | nil => exact fun acc _ => rfl
  | cons hd tl ih =>
    intro acc hacc
    rw [List.foldl_cons]
    have h0 := hnn hd (List.mem_cons_self _ _)
    have ihtl := ih (fun kv hkv => hnn kv (List.mem_cons_of_mem _ hkv))
      (fun kv hkv => hne kv (List.mem_cons_of_mem _ hkv))
    rcases storeGamepad_cases acc hd h0 hacc with h | ⟨hc, _, h⟩
    · rw [h]
      exact ihtl acc hacc
    · rw [h, ihtl _ (by rw [List.length_set]; exact hacc)]
      have hi : hd.2.index ≠ (i : Int) := hne hd (List.mem_cons_self _ _) hc
      have hi' : hd.2.index.toNat ≠ i := by omega
      exact List.getElem?_set_ne hi'

theorem foldl_storeGamepad_stored (l : List (Int × GamepadState)) (i : Nat) (hi : i < 4)
    (hnn : ∀ kv ∈ l, 0 ≤ kv.2.index)
    (hdist : l.Pairwise (fun a b => a.2.index ≠ b.2.index))
    (kv : Int × GamepadState) (hkv : kv ∈ l) (hc : kv.2.connected = true)
    (hidx : kv.2.index = (i : Int)) :
    ∀ acc : List (Option GamepadObject), acc.length = 4 →
      (l.foldl storeGamepad acc)[i]? = some (some (gamepadObject kv.2)) := by
  induction l with
  | nil => simp at hkv
  | cons hd tl ih =>
    intro acc hacc
    rw [List.foldl_cons]
    rw [List.pairwise_cons] at hdist
    obtain ⟨hhd, htl⟩ := hdist
    have hnn' : ∀ kv ∈ tl, 0 ≤ kv.2.index := fun kv hkv => hnn kv (List.mem_cons_of_mem _ hkv)
    rcases List.mem_cons.mp hkv with hk | hk
    · subst hk
      have hstore := storeGamepad_store acc kv hc (by omega) (by omega) hacc
      rw [hstore, foldl_storeGamepad_untouched tl i hnn'
        (fun b hb _ => by rw [← hidx]; exact (hhd b hb).symm) _
        (by rw [List.length_set]; exact hacc)]
      have ht : kv.2.index.toNat = i := by omega
      rw [ht]
      exact List.getElem?_set_self (by omega)
    · apply ih hnn' htl hk
      rcases storeGamepad_cases acc hd (hnn hd (List.mem_cons_self _ _)) hacc with h | ⟨_, _, h⟩
      · rw [h]
        exact hacc
      · rw [h, List.length_set]
        exact hacc

theorem foldl_storeGamepad_mem (l : List (Int × GamepadState))
    (hnn : ∀ kv ∈ l, 0 ≤ kv.2.index) (obj : GamepadObject) :
    ∀ acc : List (Option GamepadObject), acc.length = 4 →
      some obj ∈ l.foldl storeGamepad acc →
      some obj ∈ acc ∨ ∃ kv ∈ l, obj = gamepadObject kv.2 ∧ kv.2.connected = true ∧
        kv.2.index < 4 := by
  induction l with
  | nil => exact fun acc _ h => Or.inl h
  | cons hd tl ih =>
    intro acc hacc hmem
    rw [List.foldl_cons] at hmem
    have hnn' : ∀ kv ∈ tl, 0 ≤ kv.2.index := fun kv hkv => hnn kv (List.mem_cons_of_mem _ hkv)
    rcases storeGamepad_cases acc hd (hnn hd (List.mem_cons_self _ _)) hacc with h | ⟨hc, h4, h⟩
    · rw [h] at hmem
      rcases ih hnn' acc hacc hmem with h1 | ⟨kv, hkv, h2⟩
      · exact Or.inl h1
      · exact Or.inr ⟨kv, List.mem_cons_of_mem _ hkv, h2⟩
    · rw [h] at hmem
      rcases ih hnn' _ (by rw [List.length_set]; exact hacc) hmem with h1 | ⟨kv, hkv, h2⟩
      · rcases List.mem_or_eq_of_mem_set h1 with h3 | h3
        · exact Or.inl h3
        · exact Or.inr ⟨hd, List.mem_cons_self _ _, by simpa using h3, hc, h4⟩
      · exact Or.inr ⟨kv, List.mem_cons_of_mem _ hkv, h2⟩

/-! ## Runs of state events -/

theorem sameDevice_refl (a : GamepadState) : sameDevice a a :=
  ⟨rfl, rfl, rfl, rfl, rfl, rfl, rfl⟩

theorem sameDevice_trans (a b c : GamepadState) (h1 : sameDevice a b) (h2 : sameDevice b c) :
    sameDevice a c := by
  obtain ⟨a1, a2, a3, a4, a5, a6, a7⟩ := h1
  obtain ⟨b1, b2, b3, b4, b5, b6, b7⟩ := h2
  exact ⟨a1.trans b1, a2.trans b2, a3.trans b3, a4.trans b4, a5.trans b5, a6.trans b6,
    a7.trans b7⟩

theorem HandleEvent_state_event (drv : Driver) (m : Manager) (event : SDL_Event)
    (h : isStateEvent event = true) :
    ∃ (which : Int) (f : GamepadState → GamepadState),
      (∀ v, sameDevice (f v) v) ∧
      HandleEvent drv m event = { m with gamepads_ := modify which f m.gamepads_ } := by
  cases event with
  | SDL_CONTROLLERBUTTONDOWN which button =>
    exact ⟨which, _, fun v => UpdateControllerState_frame v _, updateRecord_eq m which _⟩
  | SDL_CONTROLLERBUTTONUP which button =>
    exact ⟨which, _, fun v => UpdateControllerState_frame v _, updateRecord_eq m which _⟩
  | SDL_CONTROLLERAXISMOTION which axis value =>
    exact ⟨which, _, fun v => UpdateControllerState_frame v _, updateRecord_eq m which _⟩
  | SDL_JOYBUTTONDOWN which button =>
    exact ⟨which, _, fun v => UpdateJoystickState_frame v _, updateRecord_eq m which _⟩
  | SDL_JOYBUTTONUP which button =>
    exact ⟨which, _, fun v => UpdateJoystickState_frame v _, updateRecord_eq m which _⟩
  | SDL_JOYAXISMOTION which axis value =>
    exact ⟨which, _, fun v => UpdateJoystickState_frame v _, updateRecord_eq m which _⟩
  | SDL_CONTROLLERDEVICEADDED which => simp [isStateEvent] at h
  | SDL_JOYDEVICEADDED which => simp [isStateEvent] at h
  | SDL_CONTROLLERDEVICEREMOVED which => simp [isStateEvent] at h
  | SDL_JOYDEVICEREMOVED which => simp [isStateEvent] at h
  | other type => simp [isStateEvent] at h

theorem find_modify_sameDevice (which x : Int) (f : GamepadState → GamepadState)
    (hf : ∀ v, sameDevice (f v) v) (l : List (Int × GamepadState)) (st : GamepadState)
    (h : find x l = some st) :
    ∃ st', find x (modify which f l) = some st' ∧ sameDevice st' st := by
  by_cases hx : x = which
  · subst hx
    exact ⟨f st, by rw [find_modify_self, h]; rfl, hf st⟩
  · exact ⟨st, by rw [find_modify_ne which x f l hx, h], sameDevice_refl st⟩

theorem Poll_state_events (events : List (Driver × SDL_Event))
    (hstate : ∀ de ∈ events, isStateEvent de.2 = true) :
    ∀ m : Manager, ∃ g,
      Poll m events = { m with gamepads_ := g } ∧
      ∀ x st, find x m.gamepads_ = some st →
        ∃ st', find x g = some st' ∧ sameDevice st' st := by
  induction events with
  | nil =>
    intro m
    exact ⟨m.gamepads_, rfl, fun x st h => ⟨st, h, sameDevice_refl st⟩⟩
  | cons de rest ih =>
    intro m
    obtain ⟨which, f, hf, hstep⟩ :=
      HandleEvent_state_event de.1 m de.2 (hstate de (List.mem_cons_self _ _))
    obtain ⟨g, hg, hfind⟩ :=
      ih (fun d hd => hstate d (List.mem_cons_of_mem _ hd)) (HandleEvent de.1 m de.2)
    refine ⟨g, ?_, ?_⟩
    · have hpoll : Poll m (de :: rest) = Poll (HandleEvent de.1 m de.2) rest := by
        simp [Poll]
      rw [hpoll, hg, hstep]
    · intro x st hx
      obtain ⟨st1, h1, s1⟩ := find_modify_sameDevice which x f hf m.gamepads_ st hx
      have h1' : find x (HandleEvent de.1 m de.2).gamepads_ = some st1 := by
        rw [hstep]
        exact h1
      obtain ⟨st2, h2, s2⟩ := hfind x st1 h1'
      exact ⟨st2, h2, sameDevice_trans _ _ _ s2 s1⟩

/-! ## Add and remove, in closed form -/

theorem EmitDisconnected_eq (m : Manager) (state : GamepadState) :
    EmitDisconnected m state =
      { m with emitted := m.emitted ++
          [{ kind := EventKind.disconnected, state := state, registry := m.gamepads_,
             call := m.on_disconnected_.map (fun callback =>
               (callback, { id := state.id, guid := state.guid, index := state.index,
                            connected := false, isController := state.is_controller })) }] } := by
  cases hcb : m.on_disconnected_ <;> simp [EmitDisconnected, hcb]

theorem add_new_eq (drv : Driver) (m : Manager) (device_index : Int) (dev : Opened)
    (is_controller : Bool)
    (hopen : (if is_controller then drv.SDL_GameControllerOpen device_index
              else drv.SDL_JoystickOpen device_index) = some dev)
    (hnew : find dev.instance_id m.gamepads_ = none) :
    (if is_controller then AddController drv m device_index
      else AddJoystick drv m device_index) =
      { m with
        next_index_ := m.next_index_ + 1
        gamepads_ := insert dev.instance_id
          { instance_id := dev.instance_id, id := dev.name, guid := dev.guid,
            index := m.next_index_, is_controller := is_controller, connected := true,
            device := dev.handle, buttons := fun _ => false, axes := fun _ => 0 }
          m.gamepads_
        emitted := m.emitted ++
          [{ kind := EventKind.connected,
             state :=
               { instance_id := dev.instance_id, id := dev.name, guid := dev.guid,
                 index := m.next_index_, is_controller := is_controller, connected := true,
                 device := dev.handle, buttons := fun _ => false, axes := fun _ => 0 },
             registry := insert dev.instance_id
               { instance_id := dev.instance_id, id := dev.name, guid := dev.guid,
                 index := m.next_index_, is_controller := is_controller, connected := true,
                 device := dev.handle, buttons := fun _ => false, axes := fun _ => 0 }
               m.gamepads_,
             call := m.on_connected_.map (fun callback =>
               (callback, { id := dev.name, guid := dev.guid, index := m.next_index_,
                            connected := true, isController := is_controller })) }] } := by
  cases is_controller with
  | true =>
    simp only [if_true] at hopen ⊢
    rw [AddController_new drv m device_index dev hopen hnew, EmitConnected_eq]
  | false =>
    simp only [Bool.false_eq_true, if_false] at hopen ⊢
    rw [AddJoystick_new drv m device_index dev hopen hnew, EmitConnected_eq]

theorem RemoveDevice_found (m : Manager) (x : Int) (state : GamepadState)
    (hfind : find x m.gamepads_ = some state) :
    RemoveDevice m x =
      { m with
        gamepads_ := erase x m.gamepads_
        emitted := m.emitted ++
          [{ kind := EventKind.disconnected, state := state, registry := m.gamepads_,
             call := m.on_disconnected_.map (fun callback =>
               (callback, { id := state.id, guid := state.guid, index := state.index,
                            connected := false, isController := state.is_controller })) }]
        driver_calls := m.driver_calls ++
          [if state.is_controller then DriverCall.SDL_GameControllerClose state.device
           else DriverCall.SDL_JoystickClose state.device] } := by
  simp only [RemoveDevice, hfind, EmitDisconnected_eq]

/-! ## Lookup by slot -/

theorem findByIndex_some (s : Int) (l : List (Int × GamepadState)) (target : GamepadState)
    (h : findByIndex s l = some target) : ∃ key, (key, target) ∈ l ∧ target.index = s := by
  induction l with
  | nil => simp [findByIndex] at h
  | cons hd tl ih =>
    obtain ⟨k, v⟩ := hd
    by_cases hv : v.index = s
    · simp only [findByIndex, hv, if_true, Option.some.injEq] at h
      subst h
      exact ⟨k, List.mem_cons_self _ _, hv⟩
    · simp only [findByIndex, hv, if_false] at h
      obtain ⟨key, hmem, hidx⟩ := ih h
      exact ⟨key, List.mem_cons_of_mem _ hmem, hidx⟩

theorem findByIndex_of_mem (l : List (Int × GamepadState))
    (hdist : l.Pairwise (fun a b => a.2.index ≠ b.2.index)) (key : Int)
    (target : GamepadState) (hmem : (key, target) ∈ l) :
    findByIndex target.index l = some target := by
  induction l with
  | nil => simp at hmem
  | cons hd tl ih =>
    obtain ⟨k, v⟩ := hd
    rw [List.pairwise_cons] at hdist
    obtain ⟨hhd, htl⟩ := hdist
    rcases List.mem_cons.mp hmem with h | h
    · have hv : v = target := (Prod.mk.inj h).2.symm
      subst hv
      simp [findByIndex]
    · have hne : ¬ v.index = target.index := hhd (key, target) h
      simp only [findByIndex, hne, if_false]
      exact ih htl h

/-! ## State events on a record of the registry -/

theorem find_updateRecord_self (m : Manager) (which : Int)
    (f : GamepadState → GamepadState) :
    find which (updateRecord m which f).gamepads_ = (find which m.gamepads_).map f := by
  rw [updateRecord_gamepads, find_modify_self]

theorem find_HandleEvent_controller (drv : Driver) (m : Manager) (which : Int)
    (state : GamepadState) (hfind : find which m.gamepads_ = some state) :
    (∀ button,
      find which (HandleEvent drv m (.SDL_CONTROLLERBUTTONDOWN which button)).gamepads_ =
        some (UpdateControllerState state (.SDL_CONTROLLERBUTTONDOWN which button)) ∧
      find which (HandleEvent drv m (.SDL_CONTROLLERBUTTONUP which button)).gamepads_ =
        some (UpdateControllerState state (.SDL_CONTROLLERBUTTONUP which button))) ∧
    (∀ axis value,
      find which (HandleEvent drv m (.SDL_CONTROLLERAXISMOTION which axis value)).gamepads_ =
        some (UpdateControllerState state (.SDL_CONTROLLERAXISMOTION which axis value))) := by
  refine ⟨fun button => ⟨?_, ?_⟩, fun axis value => ?_⟩ <;>
    simp only [HandleEvent, find_updateRecord_self, hfind, Option.map_some']

theorem find_HandleEvent_joystick (drv : Driver) (m : Manager) (which : Int)
    (state : GamepadState) (hfind : find which m.gamepads_ = some state) :
    (∀ button,
      find which (HandleEvent drv m (.SDL_JOYBUTTONDOWN which button)).gamepads_ =
        some (UpdateJoystickState state (.SDL_JOYBUTTONDOWN which button)) ∧
      find which (HandleEvent drv m (.SDL_JOYBUTTONUP which button)).gamepads_ =
        some (UpdateJoystickState state (.SDL_JOYBUTTONUP which button))) ∧
    (∀ axis value,
      find which (HandleEvent drv m (.SDL_JOYAXISMOTION which axis value)).gamepads_ =
        some (UpdateJoystickState state (.SDL_JOYAXISMOTION which axis value))) := by
  refine ⟨fun button => ⟨?_, ?_⟩, fun axis value => ?_⟩ <;>
    simp only [HandleEvent, find_updateRecord_self, hfind, Option.map_some']

/-! ## The Mapped tables -/

theorem controllerButton_table (state : GamepadState) (pressed : Bool) :
    ∀ p ∈ buttonTable, controllerButton state p.1 pressed =
      { state with buttons := Function.update state.buttons p.2 pressed } := by
  intro p hp
  simp only [buttonTable, List.mem_cons, List.mem_singleton, List.not_mem_nil, or_false] at hp
  rcases hp with h | h | h | h | h | h | h | h | h | h | h | h | h | h | h <;>
    subst h <;> rfl

theorem controllerButton_other (state : GamepadState) (pressed : Bool) (d : Nat)
    (hd : d ∉ buttonTable.map Prod.fst) : controllerButton state d pressed = state := by
  simp only [buttonTable, List.map_cons, List.map_nil, List.mem_cons, List.mem_singleton,
    List.not_mem_nil, or_false, not_or] at hd
  obtain ⟨h1, h2, h3, h4, h5, h6, h7, h8, h9, h10, h11, h12, h13, h14, h15⟩ := hd
  unfold controllerButton
  rw [if_neg h1, if_neg h2, if_neg h3, if_neg h4, if_neg h5, if_neg h6, if_neg h7, if_neg h8,
    if_neg h9, if_neg h10, if_neg h11, if_neg h12, if_neg h13, if_neg h14, if_neg h15]

theorem controllerAxis_table (state : GamepadState) (v : Int) :
    ∀ p ∈ axisTable,
      (controllerAxis state p.1 v).axes p.2 = (v : ℚ) / 32768 ∧
      ∀ j, j ≠ p.2 → (controllerAxis state p.1 v).axes j = state.axes j := by
  intro p hp
  simp only [axisTable, List.mem_cons, List.mem_singleton, List.not_mem_nil, or_false] at hp
  rcases hp with h | h | h | h | h | h <;> subst h <;>
    exact ⟨by simp [controllerAxis, SDL_CONTROLLER_AXIS_LEFTX, SDL_CONTROLLER_AXIS_LEFTY,
        SDL_CONTROLLER_AXIS_RIGHTX, SDL_CONTROLLER_AXIS_RIGHTY,
        SDL_CONTROLLER_AXIS_TRIGGERLEFT, SDL_CONTROLLER_AXIS_TRIGGERRIGHT],
      fun j hj => by simp [controllerAxis, SDL_CONTROLLER_AXIS_LEFTX,
        SDL_CONTROLLER_AXIS_LEFTY, SDL_CONTROLLER_AXIS_RIGHTX, SDL_CONTROLLER_AXIS_RIGHTY,
        SDL_CONTROLLER_AXIS_TRIGGERLEFT, SDL_CONTROLLER_AXIS_TRIGGERRIGHT,
        Function.update_noteq hj]⟩

theorem controllerAxis_other (state : GamepadState) (v : Int) (d : Nat)
    (hd : d ∉ axisTable.map Prod.fst) : controllerAxis state d v = state := by
  simp only [axisTable, List.map_cons, List.map_nil, List.mem_cons, List.mem_singleton,
    List.not_mem_nil, or_false, not_or] at hd
  obtain ⟨h1, h2, h3, h4, h5, h6⟩ := hd
  unfold controllerAxis
  simp only [if_neg h1, if_neg h2, if_neg h3, if_neg h4, if_neg h5, if_neg h6]

/-! ## Axis values stay in range -/

theorem normalized_in_range (v : Int) (hlo : -32768 ≤ v) (hhi : v ≤ 32767) :
    -1 ≤ (v : ℚ) / 32768 ∧ (v : ℚ) / 32768 ≤ 1 := by
  have h1 : (-32768 : ℚ) ≤ v := by exact_mod_cast hlo
  have h2 : (v : ℚ) ≤ 32767 := by exact_mod_cast hhi
  constructor
  · rw [le_div_iff₀ (by norm_num : (0 : ℚ) < 32768)]
    linarith
  · rw [div_le_iff₀ (by norm_num : (0 : ℚ) < 32768)]
    linarith

theorem axesInRange_update (state : GamepadState) (k : Fin 6) (x : ℚ) (b : Fin 17 → Bool)
    (h : axesInRange state) (hx : -1 ≤ x ∧ x ≤ 1) :
    axesInRange { state with axes := Function.update state.axes k x, buttons := b } := by
  intro i
  show -1 ≤ Function.update state.axes k x i ∧ Function.update state.axes k x i ≤ 1
  rw [Function.update_apply]
  by_cases hi : i = k
  · rw [if_pos hi]
    exact hx
  · rw [if_neg hi]
    exact h i

theorem axesInRange_buttons (state : GamepadState) (b : Fin 17 → Bool)
    (h : axesInRange state) : axesInRange { state with buttons := b } :=
  fun i => h i

theorem controllerAxis_axesInRange (state : GamepadState) (axis : Nat) (v : Int)
    (h : axesInRange state) (hlo : -32768 ≤ v) (hhi : v ≤ 32767) :
    axesInRange (controllerAxis state axis v) := by
  have hx := normalized_in_range v hlo hhi
  unfold controllerAxis
  dsimp only
  by_cases h0 : axis = SDL_CONTROLLER_AXIS_LEFTX
  · rw [if_pos h0]
    exact axesInRange_update state 0 _ state.buttons h hx
  rw [if_neg h0]
  by_cases h1 : axis = SDL_CONTROLLER_AXIS_LEFTY
  · rw [if_pos h1]
    exact axesInRange_update state 1 _ state.buttons h hx
  rw [if_neg h1]
  by_cases h2 : axis = SDL_CONTROLLER_AXIS_RIGHTX
  · rw [if_pos h2]
    exact axesInRange_update state 2 _ state.buttons h hx
  rw [if_neg h2]
  by_cases h3 : axis = SDL_CONTROLLER_AXIS_RIGHTY
  · rw [if_pos h3]
    exact axesInRange_update state 3 _ state.buttons h hx
  rw [if_neg h3]
  by_cases h4 : axis = SDL_CONTROLLER_AXIS_TRIGGERLEFT
  · rw [if_pos h4]
    exact axesInRange_update state 4 _ _ h hx
  rw [if_neg h4]
  by_cases h5 : axis = SDL_CONTROLLER_AXIS_TRIGGERRIGHT
  · rw [if_pos h5]
    exact axesInRange_update state 5 _ _ h hx
  rw [if_neg h5]
  exact h

theorem joystickAxis_axesInRange (state : GamepadState) (axis : Nat) (v : Int)
    (h : axesInRange state) (hlo : -32768 ≤ v) (hhi : v ≤ 32767) :
    axesInRange (joystickAxis state axis v) := by
  have hx := normalized_in_range v hlo hhi
  unfold joystickAxis
  dsimp only
  by_cases ha : axis < 6
  · rw [dif_pos ha]
    exact axesInRange_update state _ _ _ h hx
  · rw [dif_neg ha]
    exact h

theorem UpdateControllerState_axesInRange (state : GamepadState) (event : SDL_Event)
    (h : axesInRange state) (hev : axisValueInRange event = true) :
    axesInRange (UpdateControllerState state event) := by
  cases event with
  | SDL_CONTROLLERBUTTONDOWN which button =>
    obtain ⟨b, hb⟩ := controllerButton_shape state button true
    simp only [UpdateControllerState, hb]
    exact axesInRange_buttons state b h
  | SDL_CONTROLLERBUTTONUP which button =>
    obtain ⟨b, hb⟩ := controllerButton_shape state button false
    simp only [UpdateControllerState, hb]
    exact axesInRange_buttons state b h
  | SDL_CONTROLLERAXISMOTION which axis value =>
    simp only [axisValueInRange, decide_eq_true_eq] at hev
    exact controllerAxis_axesInRange state axis value h hev.1 hev.2
  | _ => exact h

theorem UpdateJoystickState_axesInRange (state : GamepadState) (event : SDL_Event)
    (h : axesInRange state) (hev : axisValueInRange event = true) :
    axesInRange (UpdateJoystickState state event) := by
  cases event with
  | SDL_JOYBUTTONDOWN which button =>
    obtain ⟨b, hb⟩ := joystickButton_shape state button true
    simp only [UpdateJoystickState, hb]
    exact axesInRange_buttons state b h
  | SDL_JOYBUTTONUP which button =>
    obtain ⟨b, hb⟩ := joystickButton_shape state button false
    simp only [UpdateJoystickState, hb]
    exact axesInRange_buttons state b h
  | SDL_JOYAXISMOTION which axis value =>
    simp only [axisValueInRange, decide_eq_true_eq] at hev
    exact joystickAxis_axesInRange state axis value h hev.1 hev.2
  | _ => exact h

theorem mem_AddController (drv : Driver) (m : Manager) (i : Int) (kv : Int × GamepadState)
    (h : kv ∈ (AddController drv m i).gamepads_) :
    kv ∈ m.gamepads_ ∨
    ∃ dev, drv.SDL_GameControllerOpen i = some dev ∧ kv.1 = dev.instance_id ∧
      kv.2.axes = (fun _ => 0) ∧ kv.2.buttons = (fun _ => false) := by
  cases ho : drv.SDL_GameControllerOpen i with
  | none =>
    have hm : AddController drv m i = m := by simp [AddController, ho]
    rw [hm] at h
    exact Or.inl h
  | some dev =>
    cases hf : find dev.instance_id m.gamepads_ with
    | some st =>
      have hm : AddController drv m i = { m with driver_calls :=
          m.driver_calls ++ [DriverCall.SDL_GameControllerClose dev.handle] } := by
        simp [AddController, ho, hf]
      rw [hm] at h
      exact Or.inl h
    | none =>
      rw [AddController_new drv m i dev ho hf, EmitConnected_eq] at h
      rcases mem_insert _ _ _ kv h with h1 | h1
      · exact Or.inr ⟨dev, rfl, by rw [h1], by rw [h1], by rw [h1]⟩
      · exact Or.inl h1

theorem mem_AddJoystick (drv : Driver) (m : Manager) (i : Int) (kv : Int × GamepadState)
    (h : kv ∈ (AddJoystick drv m i).gamepads_) :
    kv ∈ m.gamepads_ ∨
    ∃ dev, drv.SDL_JoystickOpen i = some dev ∧ kv.1 = dev.instance_id ∧
      kv.2.axes = (fun _ => 0) ∧ kv.2.buttons = (fun _ => false) := by
  cases ho : drv.SDL_JoystickOpen i with
  | none =>
    have hm : AddJoystick drv m i = m := by simp [AddJoystick, ho]
    rw [hm] at h
    exact Or.inl h
  | some dev =>
    cases hf : find dev.instance_id m.gamepads_ with
    | some st =>
      have hm : AddJoystick drv m i = { m with driver_calls :=
          m.driver_calls ++ [DriverCall.SDL_JoystickClose dev.handle] } := by
        simp [AddJoystick, ho, hf]
      rw [hm] at h
      exact Or.inl h
    | none =>
      rw [AddJoystick_new drv m i dev ho hf, EmitConnected_eq] at h
      rcases mem_insert _ _ _ kv h with h1 | h1
      · exact Or.inr ⟨dev, rfl, by rw [h1], by rw [h1], by rw [h1]⟩
      · exact Or.inl h1

theorem axesInRange_of_zero (state : GamepadState) (h : state.axes = (fun _ => 0)) :
    axesInRange state := by
  intro i
  rw [h]
  norm_num

theorem axesInRange_updateRecord (m : Manager) (which : Int)
    (f : GamepadState → GamepadState) (hf : ∀ v, axesInRange v → axesInRange (f v))
    (h : ∀ kv ∈ m.gamepads_, axesInRange kv.2) :
    ∀ kv ∈ (updateRecord m which f).gamepads_, axesInRange kv.2 := by
  intro kv hkv
  rw [updateRecord_gamepads] at hkv
  rcases mem_modify which f _ kv hkv with h1 | ⟨v, hv, he⟩
  · exact h kv h1
  · rw [he]
    exact hf v (h (which, v) hv)

theorem axesInRange_HandleEvent (drv : Driver) (m : Manager) (event : SDL_Event)
    (hev : axisValueInRange event = true) (h : ∀ kv ∈ m.gamepads_, axesInRange kv.2) :
    ∀ kv ∈ (HandleEvent drv m event).gamepads_, axesInRange kv.2 := by
  cases event with
  | SDL_CONTROLLERDEVICEADDED which =>
    intro kv hkv
    rcases mem_AddController drv m which kv hkv with h1 | ⟨_, _, _, h2, _⟩
    · exact h kv h1
    · exact axesInRange_of_zero kv.2 h2
  | SDL_JOYDEVICEADDED which =>
    intro kv hkv
    by_cases hc : drv.SDL_IsGameController which = true
    · have hm : HandleEvent drv m (.SDL_JOYDEVICEADDED which) = m := by
        simp [HandleEvent, hc]
      rw [hm] at hkv
      exact h kv hkv
    · have hm : HandleEvent drv m (.SDL_JOYDEVICEADDED which) = AddJoystick drv m which := by
        simp [HandleEvent, hc]
      rw [hm] at hkv
      rcases mem_AddJoystick drv m which kv hkv with h1 | ⟨_, _, _, h2, _⟩
      · exact h kv h1
      · exact axesInRange_of_zero kv.2 h2
  | SDL_CONTROLLERDEVICEREMOVED which =>
    intro kv hkv
    rw [show HandleEvent drv m (.SDL_CONTROLLERDEVICEREMOVED which) = RemoveDevice m which
      from rfl, RemoveDevice_gamepads] at hkv
    exact h kv (mem_erase which _ kv hkv)
  | SDL_JOYDEVICEREMOVED which =>
    intro kv hkv
    rw [show HandleEvent drv m (.SDL_JOYDEVICEREMOVED which) = RemoveDevice m which
      from rfl, RemoveDevice_gamepads] at hkv
    exact h kv (mem_erase which _ kv hkv)
  | SDL_CONTROLLERBUTTONDOWN which button =>
    exact axesInRange_updateRecord m which _
      (fun v hv => UpdateControllerState_axesInRange v _ hv hev) h
  | SDL_CONTROLLERBUTTONUP which button =>
    exact axesInRange_updateRecord m which _
      (fun v hv => UpdateControllerState_axesInRange v _ hv hev) h
  | SDL_CONTROLLERAXISMOTION which axis value =>
    exact axesInRange_updateRecord m which _
      (fun v hv => UpdateControllerState_axesInRange v _ hv hev) h
  | SDL_JOYBUTTONDOWN which button =>
    exact axesInRange_updateRecord m which _
      (fun v hv => UpdateJoystickState_axesInRange v _ hv hev) h
  | SDL_JOYBUTTONUP which button =>
    exact axesInRange_updateRecord m which _
      (fun v hv => UpdateJoystickState_axesInRange v _ hv hev) h
  | SDL_JOYAXISMOTION which axis value =>
    exact axesInRange_updateRecord m which _
      (fun v hv => UpdateJoystickState_axesInRange v _ hv hev) h
  | other type => exact h

theorem axesInRange_Poll (events : List (Driver × SDL_Event))
    (hrange : ∀ de ∈ events, axisValueInRange de.2 = true) :
    ∀ m : Manager, (∀ kv ∈ m.gamepads_, axesInRange kv.2) →
      ∀ kv ∈ (Poll m events).gamepads_, axesInRange kv.2 := by
  induction events with
  | nil => exact fun m h => h
  | cons de rest ih =>
    intro m h
    have hpoll : Poll m (de :: rest) = Poll (HandleEvent de.1 m de.2) rest := by
      simp [Poll]
    rw [hpoll]
    exact ih (fun d hd => hrange d (List.mem_cons_of_mem _ hd)) _
      (axesInRange_HandleEvent de.1 m de.2 (hrange de (List.mem_cons_self _ _)) h)

/-! ## Registry identities are live identities -/

theorem mem_erase_ne (key : Int) (l : List (Int × GamepadState)) (kv : Int × GamepadState)
    (h : kv ∈ erase key l) : kv.1 ≠ key := by
  induction l with
  | nil => simp [erase] at h
  | cons hd tl ih =>
    obtain ⟨k, v⟩ := hd
    by_cases hk : k = key
    · simp only [erase, hk, if_true] at h
      exact ih h
    · simp only [erase, hk, if_false] at h
      rcases List.mem_cons.mp h with h1 | h1
      · rw [h1]
        exact hk
      · exact ih h1

theorem keys_live_updateRecord (m : Manager) (which : Int) (f : GamepadState → GamepadState)
    (live : List Int) (h : ∀ kv ∈ m.gamepads_, kv.1 ∈ live) :
    ∀ kv ∈ (updateRecord m which f).gamepads_, kv.1 ∈ live := by
  intro kv hkv
  rw [updateRecord_gamepads] at hkv
  rcases mem_modify which f _ kv hkv with h1 | ⟨v, hv, he⟩
  · exact h kv h1
  · rw [he]
    exact h (which, v) hv

theorem keys_live_RemoveDevice (m : Manager) (which : Int) (live : List Int)
    (h : ∀ kv ∈ m.gamepads_, kv.1 ∈ live) :
    ∀ kv ∈ (RemoveDevice m which).gamepads_,
      kv.1 ∈ live.filter (fun x => decide (x ≠ which)) := by
  intro kv hkv
  rw [RemoveDevice_gamepads] at hkv
  rw [List.mem_filter]
  exact ⟨h kv (mem_erase which _ kv hkv), by simpa using mem_erase_ne which _ kv hkv⟩

theorem keys_live_HandleEvent (drv : Driver) (m : Manager) (event : SDL_Event)
    (live : List Int) (h : ∀ kv ∈ m.gamepads_, kv.1 ∈ live) :
    ∀ kv ∈ (HandleEvent drv m event).gamepads_, kv.1 ∈ liveStep live (drv, event) := by
  cases event with
  | SDL_CONTROLLERDEVICEADDED which =>
    intro kv hkv
    rcases mem_AddController drv m which kv hkv with h1 | ⟨dev, ho, hk, _, _⟩
    · have := h kv h1
      simp only [liveStep]
      cases hopen : drv.SDL_GameControllerOpen which with
      | none => exact this
      | some d => exact List.mem_cons_of_mem _ this
    · simp only [liveStep, ho, hk]
      exact List.mem_cons_self _ _
  | SDL_JOYDEVICEADDED which =>
    intro kv hkv
    have hold : ∀ kv ∈ m.gamepads_, kv.1 ∈ liveStep live (drv, .SDL_JOYDEVICEADDED which) := by
      intro kv' hkv'
      have := h kv' hkv'
      simp only [liveStep]
      cases hopen : drv.SDL_JoystickOpen which with
      | none => exact this
      | some d => exact List.mem_cons_of_mem _ this
    by_cases hc : drv.SDL_IsGameController which = true
    · have hm : HandleEvent drv m (.SDL_JOYDEVICEADDED which) = m := by
        simp [HandleEvent, hc]
      rw [hm] at hkv
      exact hold kv hkv
    · have hm : HandleEvent drv m (.SDL_JOYDEVICEADDED which) = AddJoystick drv m which := by
        simp [HandleEvent, hc]
      rw [hm] at hkv
      rcases mem_AddJoystick drv m which kv hkv with h1 | ⟨dev, ho, hk, _, _⟩
      · exact hold kv h1
      · simp only [liveStep, ho, hk]
        exact List.mem_cons_self _ _
  | SDL_CONTROLLERDEVICEREMOVED which => exact keys_live_RemoveDevice m which live h
  | SDL_JOYDEVICEREMOVED which => exact keys_live_RemoveDevice m which live h
  | SDL_CONTROLLERBUTTONDOWN which button => exact keys_live_updateRecord m which _ live h
  | SDL_CONTROLLERBUTTONUP which button => exact keys_live_updateRecord m which _ live h
  | SDL_CONTROLLERAXISMOTION which axis value => exact keys_live_updateRecord m which _ live h
  | SDL_JOYBUTTONDOWN which button => exact keys_live_updateRecord m which _ live h
  | SDL_JOYBUTTONUP which button => exact keys_live_updateRecord m which _ live h
  | SDL_JOYAXISMOTION which axis value => exact keys_live_updateRecord m which _ live h
  | other type => exact h

theorem keys_live_Poll (events : List (Driver × SDL_Event)) :
    ∀ (m : Manager) (live : List Int), (∀ kv ∈ m.gamepads_, kv.1 ∈ live) →
      ∀ kv ∈ (Poll m events).gamepads_, kv.1 ∈ events.foldl liveStep live := by
  induction events with
  | nil => exact fun m live h => h
  | cons de rest ih =>
    intro m live h
    have hpoll : Poll m (de :: rest) = Poll (HandleEvent de.1 m de.2) rest := by
      simp [Poll]
    rw [hpoll, List.foldl_cons]
    exact ih _ _ (keys_live_HandleEvent de.1 m de.2 live h)

theorem WellFormed_Poll (events : List (Driver × SDL_Event)) :
    ∀ m : Manager, WellFormed m → WellFormed (Poll m events) := by
  induction events with
  | nil => exact fun m h => h
  | cons de rest ih =>
    intro m h
    have hpoll : Poll m (de :: rest) = Poll (HandleEvent de.1 m de.2) rest := by
      simp [Poll]
    rw [hpoll]
    exact ih _ (WellFormed_HandleEvent de.1 m de.2 h)

theorem eq_of_key_eq (l : List (Int × GamepadState))
    (hkeys : l.Pairwise (fun a b => a.1 < b.1)) (a b : Int × GamepadState)
    (ha : a ∈ l) (hb : b ∈ l) (h : a.1 = b.1) : a = b := by
  by_contra hne
  have hp : l.Pairwise (fun x y => x.1 ≠ y.1) := hkeys.imp (fun hlt => ne_of_lt hlt)
  exact List.Pairwise.forall (fun _ _ hxy => Ne.symm hxy) hp ha hb hne h

theorem eq_of_index_eq (l : List (Int × GamepadState))
    (hdist : l.Pairwise (fun a b => a.2.index ≠ b.2.index)) (a b : Int × GamepadState)
    (ha : a ∈ l) (hb : b ∈ l) (h : a.2.index = b.2.index) : a = b := by
  by_contra hne
  exact List.Pairwise.forall (fun _ _ hxy => Ne.symm hxy) hdist ha hb hne h

/-! ## The magnitude conversion -/

theorem floor_le_roundHalfEven (y : ℚ) : ⌊y⌋ ≤ roundHalfEven y := by
  unfold roundHalfEven
  split_ifs <;> omega

theorem roundHalfEven_le_ceil (y : ℚ) : roundHalfEven y ≤ ⌈y⌉ := by
  have hfc : ⌊y⌋ ≤ ⌈y⌉ := Int.floor_le_ceil y
  have hstep : (⌊y⌋ : ℚ) < y → ⌊y⌋ + 1 ≤ ⌈y⌉ := by
    intro h
    have : ⌊y⌋ < ⌈y⌉ := Int.lt_ceil.mpr h
    omega
  unfold roundHalfEven
  by_cases h1 : y - ⌊y⌋ < 1 / 2
  · rw [if_pos h1]
    exact hfc
  · rw [if_neg h1]
    have hpos : (⌊y⌋ : ℚ) < y := by
      have : (1 : ℚ) / 2 ≤ y - ⌊y⌋ := not_lt.mp h1
      linarith
    split_ifs
    · exact hstep hpos
    · exact hfc
    · exact hstep hpos

theorem binary64_between (x : ℚ) (n N : Int) (hx0 : 0 ≤ x) (hx : x < 2 ^ (53 : Int))
    (hn : (n : ℚ) ≤ x) (hN : x ≤ (N : ℚ)) :
    (n : ℚ) ≤ binary64 x ∧ binary64 x ≤ (N : ℚ) := by
  by_cases hzero : x = 0
  · subst hzero
    simp only [binary64, if_true]
    exact ⟨hn, hN⟩
  have hpos : 0 < x := lt_of_le_of_ne hx0 (Ne.symm hzero)
  have habs : |x| = x := abs_of_pos hpos
  have hlog : Int.log 2 x < 53 := by
    have h := (Int.lt_zpow_iff_log_lt (R := ℚ) (b := 2) (by norm_num) hpos (x := 53)).mp
    apply h
    simpa using hx
  have he : max (Int.log 2 x) (-1022) ≤ 52 := by
    apply max_le
    · omega
    · norm_num
  obtain ⟨k, hk⟩ : ∃ k : Nat, max (Int.log 2 x) (-1022) - 52 = -(k : Int) :=
    ⟨(52 - max (Int.log 2 x) (-1022)).toNat, by omega⟩
  have hu : (0 : ℚ) < 2 ^ k := by positivity
  have hs : (2 : ℚ) ^ (max (Int.log 2 x) (-1022) - 52) = ((2 : ℚ) ^ k)⁻¹ := by
    rw [hk, zpow_neg, zpow_natCast]
  have hval : binary64 x = (roundHalfEven (x * 2 ^ k) : ℚ) / 2 ^ k := by
    simp only [binary64, hzero, if_false, habs, hs, div_inv_eq_mul]
    rw [div_eq_mul_inv]
  rw [hval]
  constructor
  · rw [le_div_iff₀ hu]
    have h1 : ((n * 2 ^ k : Int) : ℚ) ≤ x * 2 ^ k := by
      push_cast
      exact mul_le_mul_of_nonneg_right hn (le_of_lt hu)
    have h2 : n * 2 ^ k ≤ ⌊x * 2 ^ k⌋ := Int.le_floor.mpr h1
    have h3 : n * 2 ^ k ≤ roundHalfEven (x * 2 ^ k) :=
      le_trans h2 (floor_le_roundHalfEven _)
    have h4 : ((n * 2 ^ k : Int) : ℚ) ≤ (roundHalfEven (x * 2 ^ k) : ℚ) := by
      exact_mod_cast h3
    push_cast at h4
    exact h4
  · rw [div_le_iff₀ hu]
    have h1 : x * 2 ^ k ≤ ((N * 2 ^ k : Int) : ℚ) := by
      push_cast
      exact mul_le_mul_of_nonneg_right hN (le_of_lt hu)
    have h2 : ⌈x * 2 ^ k⌉ ≤ N * 2 ^ k := Int.ceil_le.mpr h1
    have h3 : roundHalfEven (x * 2 ^ k) ≤ N * 2 ^ k :=
      le_trans (roundHalfEven_le_ceil _) h2
    have h4 : (roundHalfEven (x * 2 ^ k) : ℚ) ≤ ((N * 2 ^ k : Int) : ℚ) := by
      exact_mod_cast h3
    push_cast at h4
    exact h4

theorem castUint16_of_range (y : ℚ) (h0 : 0 ≤ y) (h1 : y ≤ 65535) :
    (castUint16 y : Int) = ⌊y⌋ ∧ castUint16 y ≤ 65535 := by
  have hf0 : 0 ≤ ⌊y⌋ := Int.floor_nonneg.mpr h0
  have hf1 : ⌊y⌋ ≤ 65535 := by
    have : (⌊y⌋ : ℚ) ≤ 65535 := le_trans (Int.floor_le y) h1
    exact_mod_cast this
  have hmod : ⌊y⌋ % 65536 = ⌊y⌋ := Int.emod_eq_of_lt hf0 (by omega)
  unfold castUint16
  rw [if_pos h0, hmod]
  constructor
  · exact Int.toNat_of_nonneg hf0
  · omega

theorem magnitude_of_unit (w : ℚ) (h0 : 0 ≤ w) (h1 : w ≤ 1) :
    (castUint16 (binary64 (w * 65535)) : Int) = ⌊binary64 (w * 65535)⌋ ∧
    castUint16 (binary64 (w * 65535)) ≤ 65535 ∧
    ⌊w * 65535⌋ ≤ (castUint16 (binary64 (w * 65535)) : Int) ∧
    (castUint16 (binary64 (w * 65535)) : Int) ≤ ⌈w * 65535⌉ := by
  have hx0 : 0 ≤ w * 65535 := by positivity
  have hx1 : w * 65535 ≤ 65535 := by linarith
  have hx : w * 65535 < 2 ^ (53 : Int) := by
    have : (65535 : ℚ) < 2 ^ (53 : Int) := by norm_num
    linarith
  have hb0 := (binary64_between (w * 65535) 0 65535 hx0 hx (by simpa using hx0)
    (by simpa using hx1))
  have hlo : (0 : ℚ) ≤ binary64 (w * 65535) := by simpa using hb0.1
  have hhi : binary64 (w * 65535) ≤ 65535 := by simpa using hb0.2
  obtain ⟨hc, hle⟩ := castUint16_of_range _ hlo hhi
  have hb := binary64_between (w * 65535) ⌊w * 65535⌋ ⌈w * 65535⌉ hx0 hx
    (Int.floor_le _) (Int.le_ceil _)
  refine ⟨hc, hle, ?_, ?_⟩
  · rw [hc]
    exact Int.le_floor.mpr hb.1
  · rw [hc]
    have : (⌊binary64 (w * 65535)⌋ : ℚ) ≤ ⌈w * 65535⌉ :=
      le_trans (Int.floor_le _) hb.2
    exact_mod_cast this

theorem castUint32_of_range (d : Int) (h0 : 0 ≤ d) (h1 : d < 2147483648) :
    castUint32 d = d.toNat := by
  unfold castUint32
  rw [Int.emod_eq_of_lt h0 (by omega)]

theorem log_eq_of_between (x : ℚ) (e : Int) (hx : 0 < x) (h1 : (2 : ℚ) ^ e ≤ x)
    (h2 : x < (2 : ℚ) ^ (e + 1)) : Int.log 2 x = e := by
  have a : e ≤ Int.log 2 x :=
    (Int.zpow_le_iff_le_log (R := ℚ) (b := 2) (by norm_num) hx).mp (by simpa using h1)
  have b : Int.log 2 x < e + 1 :=
    (Int.lt_zpow_iff_log_lt (R := ℚ) (b := 2) (by norm_num) hx).mp (by simpa using h2)
  omega

theorem binary64_doubleOf65535th_product : binary64 (doubleOf65535th * 65535) = 1 := by
  have hx : doubleOf65535th * 65535 = 1 - 1 / 2 ^ 64 := by
    unfold doubleOf65535th
    norm_num
  have hlog : Int.log 2 |(1 : ℚ) - 1 / 2 ^ 64| = -1 := by
    rw [abs_of_pos (by norm_num)]
    apply log_eq_of_between _ _ (by norm_num) <;> norm_num
  rw [hx]
  unfold binary64
  rw [if_neg (by norm_num), hlog]
  have hfl : ⌊((1 : ℚ) - 1 / 2 ^ 64) / 2 ^ (max (-1 : Int) (-1022) - 52)⌋ = 2 ^ 53 - 1 := by
    rw [Int.floor_eq_iff]
    norm_num
  unfold roundHalfEven
  rw [hfl]
  norm_num

theorem binary64_one_over_65535 : binary64 (1 / 65535) = doubleOf65535th := by
  have hlog : Int.log 2 |(1 : ℚ) / 65535| = -16 := by
    rw [abs_of_pos (by norm_num)]
    apply log_eq_of_between _ _ (by norm_num) <;> norm_num
  unfold binary64
  rw [if_neg (by norm_num), hlog]
  have hfl : ⌊((1 : ℚ) / 65535) / 2 ^ (max (-16 : Int) (-1022) - 52)⌋ =
      2 ^ 52 + 2 ^ 36 + 2 ^ 20 + 2 ^ 4 := by
    rw [Int.floor_eq_iff]
    norm_num
  unfold roundHalfEven doubleOf65535th
  rw [hfl]
  norm_num

/-! ## The frame of a state event -/

theorem HandleEvent_addressed (drv : Driver) (m : Manager) (x : Int) (button axis : Nat)
    (value : Int) (event : SDL_Event)
    (hev : event ∈ [SDL_Event.SDL_CONTROLLERBUTTONDOWN x button,
      SDL_Event.SDL_CONTROLLERBUTTONUP x button,
      SDL_Event.SDL_CONTROLLERAXISMOTION x axis value,
      SDL_Event.SDL_JOYBUTTONDOWN x button, SDL_Event.SDL_JOYBUTTONUP x button,
      SDL_Event.SDL_JOYAXISMOTION x axis value]) :
    ∃ f : GamepadState → GamepadState,
      (∀ v, sameDevice (f v) v) ∧
      HandleEvent drv m event = { m with gamepads_ := modify x f m.gamepads_ } := by
  simp only [List.mem_cons, List.mem_singleton, List.not_mem_nil, or_false] at hev
  rcases hev with h | h | h | h | h | h <;> subst h
  · exact ⟨_, fun v => UpdateControllerState_frame v _, updateRecord_eq m x _⟩
  · exact ⟨_, fun v => UpdateControllerState_frame v _, updateRecord_eq m x _⟩
  · exact ⟨_, fun v => UpdateControllerState_frame v _, updateRecord_eq m x _⟩
  · exact ⟨_, fun v => UpdateJoystickState_frame v _, updateRecord_eq m x _⟩
  · exact ⟨_, fun v => UpdateJoystickState_frame v _, updateRecord_eq m x _⟩
  · exact ⟨_, fun v => UpdateJoystickState_frame v _, updateRecord_eq m x _⟩

theorem mem_modify_of_ne (key : Int) (f : GamepadState → GamepadState)
    (l : List (Int × GamepadState)) (kv : Int × GamepadState) (h : kv ∈ l)
    (hne : kv.1 ≠ key) : kv ∈ modify key f l := by
  induction l with
  | nil => simp at h
  | cons hd tl ih =>
    obtain ⟨k, v⟩ := hd
    by_cases hk : k = key
    · simp only [modify, hk, if_true]
      rcases List.mem_cons.mp h with h1 | h1
      · rw [h1] at hne
        exact absurd hk hne
      · exact List.mem_cons_of_mem _ h1
    · simp only [modify, hk, if_false]
      rcases List.mem_cons.mp h with h1 | h1
      · rw [h1]
        exact List.mem_cons_self _ _
      · exact List.mem_cons_of_mem _ (ih h1)

/-! ## Claims -/

/-- C4. A left-trigger axis event with raw value `v`, addressed to a record of
the registry (a Mapped one in particular), leaves that record with button 6 true
exactly when `v / 32768 > 0.11`, which is exactly when `v >= 3605`; a
right-trigger axis event does the same to button 7. The new value is a function
of `v` alone. It holds for every integer `v`, the 16-bit ones among them. -/
theorem trigger_axis_sets_trigger_button (drv : Driver) (m : Manager) (which : Int)
    (state : GamepadState) (v : Int) (hfind : find which m.gamepads_ = some state) :
    (∃ after,
      find which (HandleEvent drv m
        (.SDL_CONTROLLERAXISMOTION which SDL_CONTROLLER_AXIS_TRIGGERLEFT v)).gamepads_
          = some after ∧
      (after.buttons 6 = true ↔ (v : ℚ) / 32768 > 11 / 100) ∧
      (after.buttons 6 = true ↔ 3605 ≤ v) ∧
      after.buttons 6 = decide (3605 ≤ v)) ∧
    (∃ after,
      find which (HandleEvent drv m
        (.SDL_CONTROLLERAXISMOTION which SDL_CONTROLLER_AXIS_TRIGGERRIGHT v)).gamepads_
          = some after ∧
      (after.buttons 7 = true ↔ (v : ℚ) / 32768 > 11 / 100) ∧
      (after.buttons 7 = true ↔ 3605 ≤ v) ∧
      after.buttons 7 = decide (3605 ≤ v)) := by
  have hv : (decide ((v : ℚ) / 32768 > triggerThreshold)) = decide (3605 ≤ v) := by
    rw [decide_eq_decide]
    exact triggerThreshold_lt_iff v
  have h11 : ((v : ℚ) / 32768 > 11 / 100) ↔ 3605 ≤ v := eleven_percent_lt_iff v
  constructor
  · refine ⟨UpdateControllerState state
      (.SDL_CONTROLLERAXISMOTION which SDL_CONTROLLER_AXIS_TRIGGERLEFT v), ?_, ?_, ?_, ?_⟩
    · simp [HandleEvent, updateRecord, hfind, find_modify_self]
    · rw [h11]
      simp [UpdateControllerState, controllerAxis, SDL_CONTROLLER_AXIS_TRIGGERLEFT,
        SDL_CONTROLLER_AXIS_LEFTX, SDL_CONTROLLER_AXIS_LEFTY, SDL_CONTROLLER_AXIS_RIGHTX,
        SDL_CONTROLLER_AXIS_RIGHTY, BUTTON_L2, hv]
    · simp [UpdateControllerState, controllerAxis, SDL_CONTROLLER_AXIS_TRIGGERLEFT,
        SDL_CONTROLLER_AXIS_LEFTX, SDL_CONTROLLER_AXIS_LEFTY, SDL_CONTROLLER_AXIS_RIGHTX,
        SDL_CONTROLLER_AXIS_RIGHTY, BUTTON_L2, hv]
    · simp [UpdateControllerState, controllerAxis, SDL_CONTROLLER_AXIS_TRIGGERLEFT,
        SDL_CONTROLLER_AXIS_LEFTX, SDL_CONTROLLER_AXIS_LEFTY, SDL_CONTROLLER_AXIS_RIGHTX,
        SDL_CONTROLLER_AXIS_RIGHTY, BUTTON_L2, hv]
  · refine ⟨UpdateControllerState state
      (.SDL_CONTROLLERAXISMOTION which SDL_CONTROLLER_AXIS_TRIGGERRIGHT v), ?_, ?_, ?_, ?_⟩
    · simp [HandleEvent, updateRecord, hfind, find_modify_self]
    · rw [h11]
      simp [UpdateControllerState, controllerAxis, SDL_CONTROLLER_AXIS_TRIGGERRIGHT,
        SDL_CONTROLLER_AXIS_TRIGGERLEFT,
        SDL_CONTROLLER_AXIS_LEFTX, SDL_CONTROLLER_AXIS_LEFTY, SDL_CONTROLLER_AXIS_RIGHTX,
        SDL_CONTROLLER_AXIS_RIGHTY, BUTTON_R2, hv]
    · simp [UpdateControllerState, controllerAxis, SDL_CONTROLLER_AXIS_TRIGGERRIGHT,
        SDL_CONTROLLER_AXIS_TRIGGERLEFT,
        SDL_CONTROLLER_AXIS_LEFTX, SDL_CONTROLLER_AXIS_LEFTY, SDL_CONTROLLER_AXIS_RIGHTX,
        SDL_CONTROLLER_AXIS_RIGHTY, BUTTON_R2, hv]
    · simp [UpdateControllerState, controllerAxis, SDL_CONTROLLER_AXIS_TRIGGERRIGHT,
        SDL_CONTROLLER_AXIS_TRIGGERLEFT,
        SDL_CONTROLLER_AXIS_LEFTX, SDL_CONTROLLER_AXIS_LEFTY, SDL_CONTROLLER_AXIS_RIGHTX,
        SDL_CONTROLLER_AXIS_RIGHTY, BUTTON_R2, hv]

/-- C4 at a concrete input: `padA` in slot 0, left and right trigger at raw 16384. -/
theorem trigger_axis_sets_trigger_button_witness :
    find 0 withPadA.gamepads_ = some recordA ∧
    ((∃ after,
      find 0 (HandleEvent exampleDriver withPadA
        (.SDL_CONTROLLERAXISMOTION 0 SDL_CONTROLLER_AXIS_TRIGGERLEFT 16384)).gamepads_
          = some after ∧
      (after.buttons 6 = true ↔ ((16384 : Int) : ℚ) / 32768 > 11 / 100) ∧
      (after.buttons 6 = true ↔ (3605 : Int) ≤ 16384) ∧
      after.buttons 6 = decide ((3605 : Int) ≤ 16384)) ∧
    (∃ after,
      find 0 (HandleEvent exampleDriver withPadA
        (.SDL_CONTROLLERAXISMOTION 0 SDL_CONTROLLER_AXIS_TRIGGERRIGHT 16384)).gamepads_
          = some after ∧
      (after.buttons 7 = true ↔ ((16384 : Int) : ℚ) / 32768 > 11 / 100) ∧
      (after.buttons 7 = true ↔ (3605 : Int) ≤ 16384) ∧
      after.buttons 7 = decide ((3605 : Int) ≤ 16384))) :=
  ⟨rfl, trigger_axis_sets_trigger_button exampleDriver withPadA 0 recordA 16384 rfl⟩

/-- C5. Adding an identity the registry already holds, as a controller or as a
joystick, changes nothing but the driver trace, where the handle just opened
is closed again: registry, counter, observers and notification trace are the
same, so no connect notification fires. An add that opened a device leaves its
identity in the registry, so adding twice leaves registry, counter and
notification trace as adding once does. -/
theorem addDevice_idempotent (drv : Driver) (m : Manager) (device_index : Int)
    (dev : Opened) (hpresent : (find dev.instance_id m.gamepads_).isSome = true) :
    (drv.SDL_GameControllerOpen device_index = some dev →
      AddController drv m device_index =
        { m with driver_calls :=
            m.driver_calls ++ [DriverCall.SDL_GameControllerClose dev.handle] }) ∧
    (drv.SDL_JoystickOpen device_index = some dev →
      AddJoystick drv m device_index =
        { m with driver_calls :=
            m.driver_calls ++ [DriverCall.SDL_JoystickClose dev.handle] }) ∧
    (∀ (drv0 : Driver) (m0 : Manager) (i0 : Int),
      (drv0.SDL_GameControllerOpen i0 = some dev →
        (find dev.instance_id (AddController drv0 m0 i0).gamepads_).isSome = true) ∧
      (drv0.SDL_JoystickOpen i0 = some dev →
        (find dev.instance_id (AddJoystick drv0 m0 i0).gamepads_).isSome = true) ∧
      (AddController drv0 (AddController drv0 m0 i0) i0).gamepads_ =
          (AddController drv0 m0 i0).gamepads_ ∧
      (AddController drv0 (AddController drv0 m0 i0) i0).next_index_ =
          (AddController drv0 m0 i0).next_index_ ∧
      (AddController drv0 (AddController drv0 m0 i0) i0).emitted =
          (AddController drv0 m0 i0).emitted ∧
      (AddJoystick drv0 (AddJoystick drv0 m0 i0) i0).gamepads_ =
          (AddJoystick drv0 m0 i0).gamepads_ ∧
      (AddJoystick drv0 (AddJoystick drv0 m0 i0) i0).next_index_ =
          (AddJoystick drv0 m0 i0).next_index_ ∧
      (AddJoystick drv0 (AddJoystick drv0 m0 i0) i0).emitted =
          (AddJoystick drv0 m0 i0).emitted) := by
  have hc : ∀ (d : Driver) (n : Manager) (i : Int) (o : Opened),
      d.SDL_GameControllerOpen i = some o →
      (find o.instance_id (AddController d n i).gamepads_).isSome = true := by
    intro d n i o ho
    unfold AddController
    rw [ho]
    by_cases hp : (find o.instance_id n.gamepads_).isSome = true
    · simp [hp]
    · simp only [hp]
      cases hcb : n.on_connected_ <;> simp [EmitConnected, hcb, find_insert_self]
  have hj : ∀ (d : Driver) (n : Manager) (i : Int) (o : Opened),
      d.SDL_JoystickOpen i = some o →
      (find o.instance_id (AddJoystick d n i).gamepads_).isSome = true := by
    intro d n i o ho
    unfold AddJoystick
    rw [ho]
    by_cases hp : (find o.instance_id n.gamepads_).isSome = true
    · simp [hp]
    · simp only [hp]
      cases hcb : n.on_connected_ <;> simp [EmitConnected, hcb, find_insert_self]
  have hcc : ∀ (d : Driver) (n : Manager) (i : Int) (o : Opened),
      d.SDL_GameControllerOpen i = some o → (find o.instance_id n.gamepads_).isSome = true →
      AddController d n i =
        { n with driver_calls :=
            n.driver_calls ++ [DriverCall.SDL_GameControllerClose o.handle] } := by
    intro d n i o ho hp
    simp [AddController, ho, hp]
  have hjj : ∀ (d : Driver) (n : Manager) (i : Int) (o : Opened),
      d.SDL_JoystickOpen i = some o → (find o.instance_id n.gamepads_).isSome = true →
      AddJoystick d n i =
        { n with driver_calls :=
            n.driver_calls ++ [DriverCall.SDL_JoystickClose o.handle] } := by
    intro d n i o ho hp
    simp [AddJoystick, ho, hp]
  refine ⟨fun ho => hcc drv m device_index dev ho hpresent,
    fun ho => hjj drv m device_index dev ho hpresent, ?_⟩
  intro drv0 m0 i0
  refine ⟨hc drv0 m0 i0 dev, hj drv0 m0 i0 dev, ?_⟩
  have hC : ∀ n : Manager, ∃ calls,
      AddController drv0 (AddController drv0 m0 i0) i0 =
        { AddController drv0 m0 i0 with driver_calls := calls } := by
    intro _
    cases ho : drv0.SDL_GameControllerOpen i0 with
    | none => exact ⟨(AddController drv0 m0 i0).driver_calls, by simp [AddController, ho]⟩
    | some o => exact ⟨_, hcc drv0 _ i0 o ho (hc drv0 m0 i0 o ho)⟩
  have hJ : ∀ n : Manager, ∃ calls,
      AddJoystick drv0 (AddJoystick drv0 m0 i0) i0 =
        { AddJoystick drv0 m0 i0 with driver_calls := calls } := by
    intro _
    cases ho : drv0.SDL_JoystickOpen i0 with
    | none => exact ⟨(AddJoystick drv0 m0 i0).driver_calls, by simp [AddJoystick, ho]⟩
    | some o => exact ⟨_, hjj drv0 _ i0 o ho (hj drv0 m0 i0 o ho)⟩
  obtain ⟨c1, h1⟩ := hC m0
  obtain ⟨c2, h2⟩ := hJ m0
  rw [h1, h2]
  exact ⟨rfl, rfl, rfl, rfl, rfl, rfl⟩

/-- C5 at a concrete input: `padA` added again, as a controller, to the manager
that holds it. -/
theorem addDevice_idempotent_witness :
    (find padA.instance_id withPadA.gamepads_).isSome = true ∧
    AddController exampleDriver withPadA 0 =
      { withPadA with driver_calls :=
          withPadA.driver_calls ++ [DriverCall.SDL_GameControllerClose padA.handle] } :=
  ⟨rfl, (addDevice_idempotent exampleDriver withPadA 0 padA rfl).1 rfl⟩

/-- C6. For every state and identity `x`. When the registry holds no record for
`x`, an empty registry included, removing `x` leaves the whole manager as it
was: nothing is emitted, no driver call is made. When it holds one, removing
`x` calls `EmitDisconnected` exactly once, for that record and with the
registry as it was, the record still in it; the observer, if one is registered,
gets the record's name, GUID, slot and class with `connected` false.
Afterwards the registry is the old one without `x`: every other identity has
the record it had, and counter and observers are as before. The only other
effect is that the record's handle is closed. -/
theorem removeDevice_spec (m : Manager) (x : Int) :
    (find x m.gamepads_ = none → RemoveDevice m x = m) ∧
    (∀ state, find x m.gamepads_ = some state →
      (RemoveDevice m x).emitted = m.emitted ++
        [{ kind := EventKind.disconnected, state := state, registry := m.gamepads_,
           call := m.on_disconnected_.map (fun callback =>
             (callback, { id := state.id, guid := state.guid, index := state.index,
                          connected := false, isController := state.is_controller })) }] ∧
      (x, state) ∈ m.gamepads_ ∧
      (RemoveDevice m x).gamepads_ = erase x m.gamepads_ ∧
      find x (RemoveDevice m x).gamepads_ = none ∧
      (∀ y, y ≠ x → find y (RemoveDevice m x).gamepads_ = find y m.gamepads_) ∧
      (RemoveDevice m x).next_index_ = m.next_index_ ∧
      (RemoveDevice m x).on_connected_ = m.on_connected_ ∧
      (RemoveDevice m x).on_disconnected_ = m.on_disconnected_ ∧
      (RemoveDevice m x).driver_calls = m.driver_calls ++
        [if state.is_controller then DriverCall.SDL_GameControllerClose state.device
         else DriverCall.SDL_JoystickClose state.device]) := by
  constructor
  · intro hnone
    simp [RemoveDevice, hnone]
  intro state hfind
  have hmem := mem_of_find_eq_some x state m.gamepads_ hfind
  have hreg : (RemoveDevice m x).gamepads_ = erase x m.gamepads_ := by
    cases hcb : m.on_disconnected_ <;> simp [RemoveDevice, hfind, EmitDisconnected, hcb]
  refine ⟨?_, hmem, hreg, ?_, ?_, ?_, ?_, ?_, ?_⟩
  · cases hcb : m.on_disconnected_ <;> simp [RemoveDevice, hfind, EmitDisconnected, hcb]
  · rw [hreg]
    exact find_erase_self x m.gamepads_
  · intro y hy
    rw [hreg]
    exact find_erase_ne x y m.gamepads_ hy
  · cases hcb : m.on_disconnected_ <;> simp [RemoveDevice, hfind, EmitDisconnected, hcb]
  · cases hcb : m.on_disconnected_ <;> simp [RemoveDevice, hfind, EmitDisconnected, hcb]
  · cases hcb : m.on_disconnected_ <;> simp [RemoveDevice, hfind, EmitDisconnected, hcb]
  · cases hcb : m.on_disconnected_ <;> simp [RemoveDevice, hfind, EmitDisconnected, hcb]

/-- C6 at concrete inputs: an identity removed from the initial manager, whose
registry is empty; an unknown identity removed from the manager that holds
`padA` and `stickB`; and `padA` removed from that manager. -/
theorem removeDevice_spec_witness :
    RemoveDevice initial 0 = initial ∧
    RemoveDevice withPadAStickB 9 = withPadAStickB ∧
    find 0 withPadAStickB.gamepads_ = some recordA ∧
    (RemoveDevice withPadAStickB 0).emitted = withPadAStickB.emitted ++
      [{ kind := EventKind.disconnected, state := recordA,
         registry := withPadAStickB.gamepads_,
         call := withPadAStickB.on_disconnected_.map (fun callback =>
           (callback, { id := recordA.id, guid := recordA.guid, index := recordA.index,
                        connected := false, isController := recordA.is_controller })) }] ∧
    (RemoveDevice withPadAStickB 0).gamepads_ = erase 0 withPadAStickB.gamepads_ ∧
    find 0 (RemoveDevice withPadAStickB 0).gamepads_ = none ∧
    find 1 (RemoveDevice withPadAStickB 0).gamepads_ = some recordB :=
  ⟨(removeDevice_spec initial 0).1 rfl,
    (removeDevice_spec withPadAStickB 9).1 rfl,
    rfl,
    ((removeDevice_spec withPadAStickB 0).2 recordA rfl).1,
    ((removeDevice_spec withPadAStickB 0).2 recordA rfl).2.2.1,
    ((removeDevice_spec withPadAStickB 0).2 recordA rfl).2.2.2.1,
    (((removeDevice_spec withPadAStickB 0).2 recordA rfl).2.2.2.2.1 1 (by decide)).trans rfl⟩

/-- C7. A button or axis event, of the controller kind or of the joystick kind,
addressed to an identity the registry does not hold leaves the whole manager as
it was: no record appears, none changes, the counter stays and nothing is
emitted. An identity that was just removed is such an identity. -/
theorem event_for_unknown_identity (drv : Driver) (m : Manager) (x : Int)
    (habsent : find x m.gamepads_ = none) :
    (∀ button : Nat,
      HandleEvent drv m (.SDL_CONTROLLERBUTTONDOWN x button) = m ∧
      HandleEvent drv m (.SDL_CONTROLLERBUTTONUP x button) = m ∧
      HandleEvent drv m (.SDL_JOYBUTTONDOWN x button) = m ∧
      HandleEvent drv m (.SDL_JOYBUTTONUP x button) = m) ∧
    (∀ (axis : Nat) (value : Int),
      HandleEvent drv m (.SDL_CONTROLLERAXISMOTION x axis value) = m ∧
      HandleEvent drv m (.SDL_JOYAXISMOTION x axis value) = m) ∧
    (∀ n : Manager, find x (RemoveDevice n x).gamepads_ = none) := by
  refine ⟨fun button => ?_, fun axis value => ?_, fun n => ?_⟩
  · simp [HandleEvent, updateRecord, habsent]
  · simp [HandleEvent, updateRecord, habsent]
  · cases hn : find x n.gamepads_ with
    | none => simp [RemoveDevice, hn]
    | some st =>
      rw [RemoveDevice_gamepads]
      exact find_erase_self x n.gamepads_

/-- C7 at a concrete input: `padA` was just removed, and a button press for it
arrives. -/
theorem event_for_unknown_identity_witness :
    find 0 (RemoveDevice withPadAStickB 0).gamepads_ = none ∧
    HandleEvent exampleDriver (RemoveDevice withPadAStickB 0)
      (.SDL_CONTROLLERBUTTONDOWN 0 SDL_CONTROLLER_BUTTON_A) = RemoveDevice withPadAStickB 0 :=
  ⟨rfl, ((event_for_unknown_identity exampleDriver (RemoveDevice withPadAStickB 0) 0 rfl).1
    SDL_CONTROLLER_BUTTON_A).1⟩

/-- C9. Adding a device that opens and whose identity the registry does not hold
makes one record, stored under that identity: its slot is the counter's value,
its 17 buttons are false, its 6 axes 0, it is connected and its class is that of
the add (a controller add makes a Mapped record, a joystick add an Unmapped
one). The registry is one longer, every other identity has the record it had,
the counter is one more, and `EmitConnected` is called exactly once, for that
record and with the registry that already holds it; the observer, if one is
registered, gets name, GUID, that slot and the class. All of this holds whether
or not an observer is registered. -/
theorem addDevice_new (drv : Driver) (m : Manager) (device_index : Int) (dev : Opened)
    (is_controller : Bool)
    (hopen : (if is_controller then drv.SDL_GameControllerOpen device_index
              else drv.SDL_JoystickOpen device_index) = some dev)
    (hnew : find dev.instance_id m.gamepads_ = none) :
    ∃ (after : Manager) (state : GamepadState),
      after = (if is_controller then AddController drv m device_index
               else AddJoystick drv m device_index) ∧
      state = { instance_id := dev.instance_id, id := dev.name, guid := dev.guid,
                index := m.next_index_, is_controller := is_controller, connected := true,
                device := dev.handle, buttons := fun _ => false, axes := fun _ => 0 } ∧
      after.gamepads_ = insert dev.instance_id state m.gamepads_ ∧
      find dev.instance_id after.gamepads_ = some state ∧
      (∀ y, y ≠ dev.instance_id → find y after.gamepads_ = find y m.gamepads_) ∧
      after.gamepads_.length = m.gamepads_.length + 1 ∧
      after.next_index_ = m.next_index_ + 1 ∧
      after.emitted = m.emitted ++
        [{ kind := EventKind.connected, state := state, registry := after.gamepads_,
           call := m.on_connected_.map (fun callback =>
             (callback, { id := dev.name, guid := dev.guid, index := m.next_index_,
                          connected := true, isController := is_controller })) }] ∧
      after.on_connected_ = m.on_connected_ ∧
      after.on_disconnected_ = m.on_disconnected_ ∧
      after.driver_calls = m.driver_calls := by
  cases is_controller with
  | true =>
    simp only [if_true] at hopen
    refine ⟨_, _, rfl, rfl, ?_⟩
    simp only [if_true]
    rw [AddController_new drv m device_index dev hopen hnew, EmitConnected_eq]
    refine ⟨rfl, find_insert_self _ _ _, fun y hy => find_insert_ne _ y _ _ hy,
      length_insert_of_find_none _ _ _ hnew, rfl, rfl, rfl, rfl, rfl⟩
  | false =>
    simp only [Bool.false_eq_true, if_false] at hopen
    refine ⟨_, _, rfl, rfl, ?_⟩
    simp only [Bool.false_eq_true, if_false]
    rw [AddJoystick_new drv m device_index dev hopen hnew, EmitConnected_eq]
    refine ⟨rfl, find_insert_self _ _ _, fun y hy => find_insert_ne _ y _ _ hy,
      length_insert_of_find_none _ _ _ hnew, rfl, rfl, rfl, rfl, rfl⟩

/-- C9 at a concrete input: `padA` added as a controller to the initial manager. -/
theorem addDevice_new_witness :
    (if true then exampleDriver.SDL_GameControllerOpen 0
      else exampleDriver.SDL_JoystickOpen 0) = some padA ∧
    find padA.instance_id initial.gamepads_ = none ∧
    ∃ (after : Manager) (state : GamepadState),
      after = (if true then AddController exampleDriver initial 0
               else AddJoystick exampleDriver initial 0) ∧
      state = { instance_id := padA.instance_id, id := padA.name, guid := padA.guid,
                index := initial.next_index_, is_controller := true, connected := true,
                device := padA.handle, buttons := fun _ => false, axes := fun _ => 0 } ∧
      after.gamepads_ = insert padA.instance_id state initial.gamepads_ ∧
      find padA.instance_id after.gamepads_ = some state ∧
      (∀ y, y ≠ padA.instance_id → find y after.gamepads_ = find y initial.gamepads_) ∧
      after.gamepads_.length = initial.gamepads_.length + 1 ∧
      after.next_index_ = initial.next_index_ + 1 ∧
      after.emitted = initial.emitted ++
        [{ kind := EventKind.connected, state := state, registry := after.gamepads_,
           call := initial.on_connected_.map (fun callback =>
             (callback, { id := padA.name, guid := padA.guid, index := initial.next_index_,
                          connected := true, isController := true })) }] ∧
      after.on_connected_ = initial.on_connected_ ∧
      after.on_disconnected_ = initial.on_disconnected_ ∧
      after.driver_calls = initial.driver_calls :=
  ⟨rfl, rfl, addDevice_new exampleDriver initial 0 padA true rfl rfl⟩

/-- C1. Along every run of events from the initial manager, the slots given to
the records that additions make are 0, 1, 2, ... in the order of the additions:
addition number `k` gets slot `k`. So the slots are strictly increasing and no
two records made in the run share one; the counter ends as the number of
additions; and whatever was given out in an earlier part of the run, freed by a
removal since or not, is below every slot given out later. -/
theorem slots_strictly_increasing (events : List (Driver × SDL_Event)) :
    assignedSlots initial events =
      (List.range (assignedSlots initial events).length).map (fun k : Nat => (k : Int)) ∧
    (∀ k : Nat, k < (assignedSlots initial events).length →
      (assignedSlots initial events)[k]? = some (k : Int)) ∧
    (assignedSlots initial events).Pairwise (fun s t => s < t) ∧
    (assignedSlots initial events).Nodup ∧
    (Poll initial events).next_index_ = ((assignedSlots initial events).length : Int) ∧
    (∀ pre post : List (Driver × SDL_Event), events = pre ++ post →
      ∀ s ∈ assignedSlots initial pre, ∀ t ∈ assignedSlots (Poll initial pre) post, s < t) := by
  obtain ⟨n, hn1, hn2⟩ := assignedSlots_eq events initial
  have hzero : initial.next_index_ = 0 := rfl
  have hlist : assignedSlots initial events = (List.range n).map (fun k : Nat => (k : Int)) := by
    rw [hn1]
    apply List.map_congr_left
    intro k _
    rw [hzero, zero_add]
  have hlen : (assignedSlots initial events).length = n := by
    rw [hlist, List.length_map, List.length_range]
  have hpair : (assignedSlots initial events).Pairwise (fun s t => s < t) := by
    rw [hlist, List.pairwise_map]
    exact (List.pairwise_lt_range n).imp (fun h => by exact_mod_cast h)
  refine ⟨by rw [hlen]; exact hlist, ?_, hpair, ?_, ?_, ?_⟩
  · intro k hk
    rw [hlen] at hk
    rw [hlist, List.getElem?_map, List.getElem?_range hk]
    rfl
  · exact hpair.imp (fun h => ne_of_lt h)
  · rw [hn2, hzero, zero_add, hlen]
  · intro pre post hev s hs t ht
    rw [hev, assignedSlots_append, List.pairwise_append] at hpair
    exact hpair.2.2 s hs t ht

/-- C2. In every reachable state `GetGamepads` returns exactly 4 positions. For
`i` from 0 to 3, position `i` is empty when no connected record has slot `i`,
and otherwise holds the fields copied from the record whose slot is `i`: name,
GUID, slot `i`, connected, class, 17 buttons and 6 axes. Whatever the result
holds comes from a connected record with a slot from 0 to 3, so a record with a
slot of 4 or more is not in it and does not lengthen it. -/
theorem getGamepads_four_positions (m : Manager) (hreach : Reachable m) :
    (GetGamepads m).length = 4 ∧
    (∀ i : Nat, i < 4 →
      ((∀ kv ∈ m.gamepads_, kv.2.connected = true → kv.2.index ≠ (i : Int)) →
        (GetGamepads m)[i]? = some none) ∧
      (∀ kv ∈ m.gamepads_, kv.2.connected = true → kv.2.index = (i : Int) →
        (GetGamepads m)[i]? = some (some (gamepadObject kv.2)) ∧
        (gamepadObject kv.2).id = kv.2.id ∧
        (gamepadObject kv.2).guid = kv.2.guid ∧
        (gamepadObject kv.2).index = (i : Int) ∧
        (gamepadObject kv.2).connected = true ∧
        (gamepadObject kv.2).isController = kv.2.is_controller ∧
        (gamepadObject kv.2).buttons = List.ofFn kv.2.buttons ∧
        (gamepadObject kv.2).buttons.length = 17 ∧
        (gamepadObject kv.2).axes = List.ofFn kv.2.axes ∧
        (gamepadObject kv.2).axes.length = 6)) ∧
    (∀ obj, some obj ∈ GetGamepads m →
      ∃ kv ∈ m.gamepads_, obj = gamepadObject kv.2 ∧ kv.2.connected = true ∧
        0 ≤ kv.2.index ∧ kv.2.index < 4) ∧
    (∀ kv ∈ m.gamepads_, 4 ≤ kv.2.index → some (gamepadObject kv.2) ∉ GetGamepads m) := by
  obtain ⟨_, _, hdist, hrec⟩ := Reachable.wellFormed m hreach
  have hnn : ∀ kv ∈ m.gamepads_, 0 ≤ kv.2.index := fun kv hkv => (hrec kv hkv).2.2.1
  have hinit : (List.replicate 4 (none : Option GamepadObject)).length = 4 := by simp
  have hfrom : ∀ obj, some obj ∈ GetGamepads m →
      ∃ kv ∈ m.gamepads_, obj = gamepadObject kv.2 ∧ kv.2.connected = true ∧
        0 ≤ kv.2.index ∧ kv.2.index < 4 := by
    intro obj hobj
    rcases foldl_storeGamepad_mem m.gamepads_ hnn obj _ hinit hobj with h | ⟨kv, hkv, h1, h2, h3⟩
    · simp at h
    · exact ⟨kv, hkv, h1, h2, hnn kv hkv, h3⟩
  refine ⟨foldl_storeGamepad_length m.gamepads_ hnn _ hinit, ?_, hfrom, ?_⟩
  · intro i hi
    constructor
    · intro hne
      unfold GetGamepads
      rw [foldl_storeGamepad_untouched m.gamepads_ i hnn hne _ hinit]
      exact List.getElem?_replicate_of_lt hi
    · intro kv hkv hc hidx
      refine ⟨foldl_storeGamepad_stored m.gamepads_ i hi hnn hdist kv hkv hc hidx _ hinit,
        rfl, rfl, hidx, hc, rfl, rfl, ?_, rfl, ?_⟩
      · simp [gamepadObject]
      · simp [gamepadObject]
  · intro kv hkv h4 hmem
    obtain ⟨kv', _, he, _, _, hlt⟩ := hfrom _ hmem
    have : kv.2.index = kv'.2.index := congrArg GamepadObject.index he
    omega

/-- C2 at a concrete input: the manager that holds `padA` in slot 0 and `stickB`
in slot 1. -/
theorem getGamepads_four_positions_witness :
    Reachable withPadAStickB ∧
    (GetGamepads withPadAStickB).length = 4 ∧
    (GetGamepads withPadAStickB)[0]? = some (some (gamepadObject recordA)) ∧
    (GetGamepads withPadAStickB)[1]? = some (some (gamepadObject recordB)) ∧
    (GetGamepads withPadAStickB)[2]? = some none :=
  have hreach : Reachable withPadAStickB :=
    Reachable.handleEvent exampleDriver withPadA (.SDL_JOYDEVICEADDED 1)
      (Reachable.handleEvent exampleDriver initial (.SDL_CONTROLLERDEVICEADDED 0)
        Reachable.initial)
  ⟨hreach, (getGamepads_four_positions withPadAStickB hreach).1,
    (((getGamepads_four_positions withPadAStickB hreach).2.1 0 (by decide)).2
      (0, recordA) (by decide) rfl rfl).1,
    (((getGamepads_four_positions withPadAStickB hreach).2.1 1 (by decide)).2
      (1, recordB) (by decide) rfl rfl).1,
    ((getGamepads_four_positions withPadAStickB hreach).2.1 2 (by decide)).1 (by decide)⟩

/-- C3. `HandleEvent` picks the translation by the kind of the event, not by the
class of the record: `padA` is a Mapped record (added by `AddController`), and
the joystick-kind axis event the driver also reports for it, axis 4 at raw
16384, is applied by the Unmapped rules: axis 4 becomes 1/2 and button 6 stays
false, where the Mapped rules for the left trigger at that value set button 6. -/
theorem mapped_record_gets_unmapped_rules :
    find 0 withPadA.gamepads_ = some recordA ∧
    recordA.is_controller = true ∧
    find 0 (HandleEvent exampleDriver withPadA (.SDL_JOYAXISMOTION 0 4 16384)).gamepads_ =
      some (UpdateJoystickState recordA (.SDL_JOYAXISMOTION 0 4 16384)) ∧
    (UpdateJoystickState recordA (.SDL_JOYAXISMOTION 0 4 16384)).axes 4 = 1 / 2 ∧
    (UpdateJoystickState recordA (.SDL_JOYAXISMOTION 0 4 16384)).buttons 6 = false ∧
    (UpdateControllerState recordA
      (.SDL_CONTROLLERAXISMOTION 0 SDL_CONTROLLER_AXIS_TRIGGERLEFT 16384)).buttons 6 = true ∧
    UpdateJoystickState recordA (.SDL_JOYAXISMOTION 0 4 16384) ≠
      UpdateControllerState recordA
        (.SDL_CONTROLLERAXISMOTION 0 SDL_CONTROLLER_AXIS_TRIGGERLEFT 16384) := by
  have hj : (UpdateJoystickState recordA (.SDL_JOYAXISMOTION 0 4 16384)).buttons 6 = false := by
    simp [UpdateJoystickState, joystickAxis, recordA]
  have hc : (UpdateControllerState recordA
      (.SDL_CONTROLLERAXISMOTION 0 SDL_CONTROLLER_AXIS_TRIGGERLEFT 16384)).buttons 6 = true := by
    have h := triggerThreshold_lt_iff 16384
    simp [UpdateControllerState, controllerAxis, SDL_CONTROLLER_AXIS_TRIGGERLEFT,
      SDL_CONTROLLER_AXIS_LEFTX, SDL_CONTROLLER_AXIS_LEFTY, SDL_CONTROLLER_AXIS_RIGHTX,
      SDL_CONTROLLER_AXIS_RIGHTY, BUTTON_L2]
    have h2 := h.mpr (by norm_num)
    simpa using h2
  refine ⟨rfl, rfl, ?_, ?_, hj, hc, ?_⟩
  · have hf : find 0 withPadA.gamepads_ = some recordA := rfl
    simp [HandleEvent, updateRecord, hf, find_modify_self]
  · simp [UpdateJoystickState, joystickAxis]
    norm_num
  · intro he
    rw [he, hc] at hj
    exact Bool.noConfusion hj

/-- C8, as stated, fails: the object handed to the `disconnected` observer has
no button or axis value in it. `padA` removed after its button A went down and
`padA` removed untouched hand the observer the same object, though the records
held different buttons when they were removed; so nothing read off the object
can be the last-known button state. -/
theorem disconnect_object_lacks_buttons :
    (∃ callback object,
      (RemoveDevice observedPadAPressed 0).emitted.getLast?.bind (fun e => e.call) =
        some (callback, object) ∧
      (RemoveDevice observedPadA 0).emitted.getLast?.bind (fun e => e.call) =
        some (callback, object)) ∧
    (∃ state, find 0 observedPadAPressed.gamepads_ = some state ∧ state.buttons 0 = true) ∧
    (∃ state, find 0 observedPadA.gamepads_ = some state ∧ state.buttons 0 = false) ∧
    ¬ ∃ read : GamepadEvent → Fin 17 → Bool,
        ∀ (m : Manager) (x : Int) (state : GamepadState) (callback : Nat)
          (object : GamepadEvent),
          find x m.gamepads_ = some state →
          (RemoveDevice m x).emitted.getLast?.bind (fun e => e.call) =
            some (callback, object) →
          read object = state.buttons := by
  have h1 : (RemoveDevice observedPadAPressed 0).emitted.getLast?.bind (fun e => e.call) =
      some (2, { id := "Pad A", guid := "guid-a", index := 0, connected := false,
                 isController := true }) := rfl
  have h2 : (RemoveDevice observedPadA 0).emitted.getLast?.bind (fun e => e.call) =
      some (2, { id := "Pad A", guid := "guid-a", index := 0, connected := false,
                 isController := true }) := rfl
  have f1 : find 0 observedPadAPressed.gamepads_ =
      some (UpdateControllerState recordA
        (.SDL_CONTROLLERBUTTONDOWN 0 SDL_CONTROLLER_BUTTON_A)) := rfl
  have f2 : find 0 observedPadA.gamepads_ = some recordA := rfl
  have b1 : (UpdateControllerState recordA
      (.SDL_CONTROLLERBUTTONDOWN 0 SDL_CONTROLLER_BUTTON_A)).buttons 0 = true := by
    simp [UpdateControllerState, controllerButton, SDL_CONTROLLER_BUTTON_A, BUTTON_A]
  have b2 : recordA.buttons 0 = false := rfl
  refine ⟨⟨_, _, h1, h2⟩, ⟨_, f1, b1⟩, ⟨_, f2, b2⟩, ?_⟩
  rintro ⟨read, hread⟩
  have r1 := hread observedPadAPressed 0 _ _ _ f1 h1
  have r2 := hread observedPadA 0 _ _ _ f2 h2
  have : (UpdateControllerState recordA
      (.SDL_CONTROLLERBUTTONDOWN 0 SDL_CONTROLLER_BUTTON_A)).buttons 0 = recordA.buttons 0 := by
    rw [← r1, ← r2]
  rw [b1, b2] at this
  exact Bool.noConfusion this

/-- C8, amended. A device is added, any button and axis events follow, and the
device is removed: `EmitConnected` is called once and then `EmitDisconnected`
once, both for that device. The object for the `disconnected` observer carries
name, GUID, slot and class, and `connected` false: no button and no axis value.
The record as it was at the removal, last-known buttons and axes included, is
what `EmitDisconnected` is called for, and it is still in the registry at that
moment; after the removal it is not. -/
theorem connect_then_disconnect (drv : Driver) (m : Manager) (device_index : Int)
    (dev : Opened) (is_controller : Bool) (events : List (Driver × SDL_Event))
    (hopen : (if is_controller then drv.SDL_GameControllerOpen device_index
              else drv.SDL_JoystickOpen device_index) = some dev)
    (hnew : find dev.instance_id m.gamepads_ = none)
    (hstate : ∀ de ∈ events, isStateEvent de.2 = true) :
    ∃ (added polled removed : Manager) (first last : GamepadState),
      added = (if is_controller then AddController drv m device_index
               else AddJoystick drv m device_index) ∧
      polled = Poll added events ∧
      removed = RemoveDevice polled dev.instance_id ∧
      find dev.instance_id added.gamepads_ = some first ∧
      find dev.instance_id polled.gamepads_ = some last ∧
      find dev.instance_id removed.gamepads_ = none ∧
      removed.emitted = m.emitted ++
        [{ kind := EventKind.connected, state := first, registry := added.gamepads_,
           call := m.on_connected_.map (fun callback =>
             (callback, { id := dev.name, guid := dev.guid, index := m.next_index_,
                          connected := true, isController := is_controller })) },
         { kind := EventKind.disconnected, state := last, registry := polled.gamepads_,
           call := m.on_disconnected_.map (fun callback =>
             (callback, { id := dev.name, guid := dev.guid, index := m.next_index_,
                          connected := false, isController := is_controller })) }] := by
  have hadd := add_new_eq drv m device_index dev is_controller hopen hnew
  obtain ⟨g, hg, hfind⟩ := Poll_state_events events hstate
    (if is_controller then AddController drv m device_index
      else AddJoystick drv m device_index)
  have hfirst : find dev.instance_id
      (if is_controller then AddController drv m device_index
        else AddJoystick drv m device_index).gamepads_ =
      some { instance_id := dev.instance_id, id := dev.name, guid := dev.guid,
             index := m.next_index_, is_controller := is_controller, connected := true,
             device := dev.handle, buttons := fun _ => false, axes := fun _ => 0 } := by
    rw [hadd]
    exact find_insert_self _ _ _
  obtain ⟨last, hlast, hsame⟩ := hfind _ _ hfirst
  obtain ⟨_, s2, s3, s4, s5, _, _⟩ := hsame
  have hlast' : find dev.instance_id
      (Poll (if is_controller then AddController drv m device_index
        else AddJoystick drv m device_index) events).gamepads_ = some last := by
    rw [hg]
    exact hlast
  refine ⟨_, _, _, _, last, rfl, rfl, rfl, hfirst, hlast', ?_, ?_⟩
  · rw [RemoveDevice_gamepads]
    exact find_erase_self _ _
  · rw [RemoveDevice_found _ _ last hlast', hg, hadd]
    simp only [List.append_assoc, List.singleton_append]
    rw [s2, s3, s4, s5]

/-- C8 amended, at a concrete input: `padA` is added to the observed manager, its
button A goes down, and it is removed. -/
theorem connect_then_disconnect_witness :
    ∃ (added polled removed : Manager) (first last : GamepadState),
      added = (if true then AddController exampleDriver observed 0
               else AddJoystick exampleDriver observed 0) ∧
      polled = Poll added
        [(exampleDriver, .SDL_CONTROLLERBUTTONDOWN 0 SDL_CONTROLLER_BUTTON_A)] ∧
      removed = RemoveDevice polled padA.instance_id ∧
      find padA.instance_id added.gamepads_ = some first ∧
      find padA.instance_id polled.gamepads_ = some last ∧
      find padA.instance_id removed.gamepads_ = none ∧
      removed.emitted = observed.emitted ++
        [{ kind := EventKind.connected, state := first, registry := added.gamepads_,
           call := observed.on_connected_.map (fun callback =>
             (callback, { id := padA.name, guid := padA.guid, index := observed.next_index_,
                          connected := true, isController := true })) },
         { kind := EventKind.disconnected, state := last, registry := polled.gamepads_,
           call := observed.on_disconnected_.map (fun callback =>
             (callback, { id := padA.name, guid := padA.guid, index := observed.next_index_,
                          connected := false, isController := true })) }] :=
  connect_then_disconnect exampleDriver observed 0 padA true
    [(exampleDriver, .SDL_CONTROLLERBUTTONDOWN 0 SDL_CONTROLLER_BUTTON_A)] rfl rfl
    (by decide)

/-- C10. From a manager with no device and the counter at 0 (the initial one,
whatever observers are registered): adding `A` as a controller gives it slot 0
and emits `connected` for slot 0; adding `B` as a joystick gives it slot 1 and
emits `connected` for slot 1; removing `A` emits `disconnected` for slot 0, and
`GetGamepads` then shows position 0 empty and `B` at position 1; adding `C`, as
either class, gives it slot 2, not slot 0, and emits `connected` for slot 2. -/
theorem scenario_slot_not_reused (drv : Driver) (m0 : Manager) (iA iB iC : Int)
    (A B C : Opened) (cIsController : Bool)
    (hempty : m0.gamepads_ = []) (hzero : m0.next_index_ = 0)
    (hA : drv.SDL_GameControllerOpen iA = some A)
    (hB : drv.SDL_JoystickOpen iB = some B)
    (hC : (if cIsController then drv.SDL_GameControllerOpen iC
           else drv.SDL_JoystickOpen iC) = some C)
    (hAB : A.instance_id ≠ B.instance_id) (hCB : C.instance_id ≠ B.instance_id) :
    ∃ (m1 m2 m3 m4 : Manager) (recA recB recC : GamepadState),
      m1 = AddController drv m0 iA ∧
      m2 = AddJoystick drv m1 iB ∧
      m3 = RemoveDevice m2 A.instance_id ∧
      m4 = (if cIsController then AddController drv m3 iC else AddJoystick drv m3 iC) ∧
      recA = { instance_id := A.instance_id, id := A.name, guid := A.guid, index := 0,
               is_controller := true, connected := true, device := A.handle,
               buttons := fun _ => false, axes := fun _ => 0 } ∧
      recB = { instance_id := B.instance_id, id := B.name, guid := B.guid, index := 1,
               is_controller := false, connected := true, device := B.handle,
               buttons := fun _ => false, axes := fun _ => 0 } ∧
      recC = { instance_id := C.instance_id, id := C.name, guid := C.guid, index := 2,
               is_controller := cIsController, connected := true, device := C.handle,
               buttons := fun _ => false, axes := fun _ => 0 } ∧
      find A.instance_id m1.gamepads_ = some recA ∧
      m1.emitted = m0.emitted ++
        [{ kind := EventKind.connected, state := recA, registry := m1.gamepads_,
           call := m0.on_connected_.map (fun callback =>
             (callback, { id := A.name, guid := A.guid, index := 0, connected := true,
                          isController := true })) }] ∧
      find B.instance_id m2.gamepads_ = some recB ∧
      m2.emitted = m1.emitted ++
        [{ kind := EventKind.connected, state := recB, registry := m2.gamepads_,
           call := m0.on_connected_.map (fun callback =>
             (callback, { id := B.name, guid := B.guid, index := 1, connected := true,
                          isController := false })) }] ∧
      m3.emitted = m2.emitted ++
        [{ kind := EventKind.disconnected, state := recA, registry := m2.gamepads_,
           call := m0.on_disconnected_.map (fun callback =>
             (callback, { id := A.name, guid := A.guid, index := 0, connected := false,
                          isController := true })) }] ∧
      find A.instance_id m3.gamepads_ = none ∧
      GetGamepads m3 = [none, some (gamepadObject recB), none, none] ∧
      find C.instance_id m4.gamepads_ = some recC ∧
      m4.emitted = m3.emitted ++
        [{ kind := EventKind.connected, state := recC, registry := m4.gamepads_,
           call := m0.on_connected_.map (fun callback =>
             (callback, { id := C.name, guid := C.guid, index := 2, connected := true,
                          isController := cIsController })) }] ∧
      m4.next_index_ = 3 := by
  have hAnew : find A.instance_id m0.gamepads_ = none := by rw [hempty]; rfl
  have e1 := add_new_eq drv m0 iA A true hA hAnew
  simp only [if_true] at e1
  have hBnew : find B.instance_id (AddController drv m0 iA).gamepads_ = none := by
    rw [e1, hempty]
    simp [insert, find, hAB]
  have e2 := add_new_eq drv (AddController drv m0 iA) iB B false hB hBnew
  simp only [Bool.false_eq_true, if_false] at e2
  have hAin : find A.instance_id (AddJoystick drv (AddController drv m0 iA) iB).gamepads_ =
      some { instance_id := A.instance_id, id := A.name, guid := A.guid, index := 0,
             is_controller := true, connected := true, device := A.handle,
             buttons := fun _ => false, axes := fun _ => 0 } := by
    rw [e2]
    show find A.instance_id (insert B.instance_id _ (AddController drv m0 iA).gamepads_) = _
    rw [find_insert_ne _ _ _ _ hAB, e1, hzero]
    exact find_insert_self _ _ _
  have e3 := RemoveDevice_found _ _ _ hAin
  have hreg3 : (RemoveDevice (AddJoystick drv (AddController drv m0 iA) iB)
      A.instance_id).gamepads_ =
      [(B.instance_id,
        { instance_id := B.instance_id, id := B.name, guid := B.guid, index := 1,
          is_controller := false, connected := true, device := B.handle,
          buttons := fun _ => false, axes := fun _ => 0 })] := by
    rw [RemoveDevice_gamepads, e2]
    show erase A.instance_id (insert B.instance_id _ (AddController drv m0 iA).gamepads_) = _
    rw [e1, hempty, hzero]
    have hBA : ¬ B.instance_id = A.instance_id := fun h => hAB h.symm
    by_cases hlt : B.instance_id < A.instance_id
    · simp [insert, erase, hlt, hBA]
    · simp [insert, erase, hlt, hBA]
  have hCnew : find C.instance_id (RemoveDevice (AddJoystick drv (AddController drv m0 iA) iB)
      A.instance_id).gamepads_ = none := by
    rw [hreg3]
    have hBC : ¬ B.instance_id = C.instance_id := fun h => hCB h.symm
    simp [find, hBC]
  have e4 := add_new_eq drv _ iC C cIsController hC hCnew
  have hn1 : (AddController drv m0 iA).next_index_ = 1 := by rw [e1, hzero]; rfl
  have hn2 : (AddJoystick drv (AddController drv m0 iA) iB).next_index_ = 2 := by
    rw [e2]
    show (AddController drv m0 iA).next_index_ + 1 = 2
    rw [hn1]
    rfl
  have hn3 : (RemoveDevice (AddJoystick drv (AddController drv m0 iA) iB)
      A.instance_id).next_index_ = 2 := by
    rw [RemoveDevice_next_index, hn2]
  have hoc1 : (AddController drv m0 iA).on_connected_ = m0.on_connected_ := by rw [e1]
  have hoc2 : (AddJoystick drv (AddController drv m0 iA) iB).on_connected_ =
      m0.on_connected_ := by rw [e2]; exact hoc1
  have hod1 : (AddController drv m0 iA).on_disconnected_ = m0.on_disconnected_ := by rw [e1]
  have hod2 : (AddJoystick drv (AddController drv m0 iA) iB).on_disconnected_ =
      m0.on_disconnected_ := by rw [e2]; exact hod1
  have hoc3 : (RemoveDevice (AddJoystick drv (AddController drv m0 iA) iB)
      A.instance_id).on_connected_ = m0.on_connected_ := by rw [e3]; exact hoc2
  refine ⟨_, _, _, _, _, _, _, rfl, rfl, rfl, rfl, rfl, rfl, rfl, ?_, ?_, ?_, ?_, ?_, ?_, ?_,
    ?_, ?_, ?_⟩
  · rw [e1, hzero]
    exact find_insert_self _ _ _
  · conv_lhs => rw [e1]
    rw [e1, hzero]
  · rw [e2, hn1]
    exact find_insert_self _ _ _
  · conv_lhs => rw [e2]
    rw [hn1, hoc1]
    rw [e2, hn1]
  · conv_lhs => rw [e3]
    rw [hod2]
  · rw [RemoveDevice_gamepads]
    exact find_erase_self _ _
  · unfold GetGamepads
    rw [hreg3]
    simp [storeGamepad, arraySet]
  · rw [e4, hn3]
    exact find_insert_self _ _ _
  · conv_lhs => rw [e4]
    rw [hn3, hoc3]
    rw [e4, hn3]
  · rw [e4]
    show (RemoveDevice (AddJoystick drv (AddController drv m0 iA) iB)
      A.instance_id).next_index_ + 1 = 3
    rw [hn3]
    rfl

/-- C10 at a concrete input: the initial manager and the example driver, with
`padA` as `A`, `stickB` as `B` and `padC`, a controller, as `C`. -/
theorem scenario_slot_not_reused_witness :
    ∃ (m1 m2 m3 m4 : Manager) (recA recB recC : GamepadState),
      m1 = AddController exampleDriver initial 0 ∧
      m2 = AddJoystick exampleDriver m1 1 ∧
      m3 = RemoveDevice m2 padA.instance_id ∧
      m4 = (if true then AddController exampleDriver m3 2
            else AddJoystick exampleDriver m3 2) ∧
      recA = { instance_id := padA.instance_id, id := padA.name, guid := padA.guid,
               index := 0, is_controller := true, connected := true, device := padA.handle,
               buttons := fun _ => false, axes := fun _ => 0 } ∧
      recB = { instance_id := stickB.instance_id, id := stickB.name, guid := stickB.guid,
               index := 1, is_controller := false, connected := true,
               device := stickB.handle, buttons := fun _ => false, axes := fun _ => 0 } ∧
      recC = { instance_id := padC.instance_id, id := padC.name, guid := padC.guid,
               index := 2, is_controller := true, connected := true, device := padC.handle,
               buttons := fun _ => false, axes := fun _ => 0 } ∧
      find padA.instance_id m1.gamepads_ = some recA ∧
      m1.emitted = initial.emitted ++
        [{ kind := EventKind.connected, state := recA, registry := m1.gamepads_,
           call := initial.on_connected_.map (fun callback =>
             (callback, { id := padA.name, guid := padA.guid, index := 0, connected := true,
                          isController := true })) }] ∧
      find stickB.instance_id m2.gamepads_ = some recB ∧
      m2.emitted = m1.emitted ++
        [{ kind := EventKind.connected, state := recB, registry := m2.gamepads_,
           call := initial.on_connected_.map (fun callback =>
             (callback, { id := stickB.name, guid := stickB.guid, index := 1,
                          connected := true, isController := false })) }] ∧
      m3.emitted = m2.emitted ++
        [{ kind := EventKind.disconnected, state := recA, registry := m2.gamepads_,
           call := initial.on_disconnected_.map (fun callback =>
             (callback, { id := padA.name, guid := padA.guid, index := 0,
                          connected := false, isController := true })) }] ∧
      find padA.instance_id m3.gamepads_ = none ∧
      GetGamepads m3 = [none, some (gamepadObject recB), none, none] ∧
      find padC.instance_id m4.gamepads_ = some recC ∧
      m4.emitted = m3.emitted ++
        [{ kind := EventKind.connected, state := recC, registry := m4.gamepads_,
           call := initial.on_connected_.map (fun callback =>
             (callback, { id := padC.name, guid := padC.guid, index := 2, connected := true,
                          isController := true })) }] ∧
      m4.next_index_ = 3 :=
  scenario_slot_not_reused exampleDriver initial 0 1 2 padA stickB padC true rfl rfl rfl rfl
    rfl (by decide) (by decide)

/-- C11. When every record with slot `s` is Unmapped, which is so when no record
has slot `s` and when the one record with slot `s` is Unmapped, `PlayVibration`
and `StopVibration` for slot `s` return false and leave the manager as it was,
the trace of driver calls included: no rumble call is made. -/
theorem vibration_without_mapped_record (drv : Driver) (m : Manager) (s duration : Int)
    (strong weak : ℚ)
    (hslot : ∀ kv ∈ m.gamepads_, kv.2.index = s → kv.2.is_controller = false) :
    PlayVibration drv m s duration strong weak = (m, false) ∧
    StopVibration drv m s = (m, false) := by
  have hfind : ∀ target, findByIndex s m.gamepads_ = some target →
      target.is_controller = false := by
    intro target ht
    obtain ⟨key, hmem, hidx⟩ := findByIndex_some s m.gamepads_ target ht
    exact hslot (key, target) hmem hidx
  constructor
  · unfold PlayVibration
    cases hf : findByIndex s m.gamepads_ with
    | none => rfl
    | some target => simp [hfind target hf]
  · unfold StopVibration
    cases hf : findByIndex s m.gamepads_ with
    | none => rfl
    | some target => simp [hfind target hf]

/-- C11 at a concrete input: `playVibration(5, 100, 0.5, 0.5)` on the manager
that holds `padA` in slot 0 and `stickB` in slot 1, where slot 5 is empty; and
the same call for slot 1, which the Unmapped `stickB` holds. -/
theorem vibration_without_mapped_record_witness :
    (PlayVibration exampleDriver withPadAStickB 5 100 (1 / 2) (1 / 2) =
      (withPadAStickB, false) ∧
    StopVibration exampleDriver withPadAStickB 5 = (withPadAStickB, false)) ∧
    (PlayVibration exampleDriver withPadAStickB 1 100 (1 / 2) (1 / 2) =
      (withPadAStickB, false) ∧
    StopVibration exampleDriver withPadAStickB 1 = (withPadAStickB, false)) :=
  ⟨vibration_without_mapped_record exampleDriver withPadAStickB 5 100 (1 / 2) (1 / 2)
    (by decide),
   vibration_without_mapped_record exampleDriver withPadAStickB 1 100 (1 / 2) (1 / 2)
    (by decide)⟩

/-- C16. When the driver fails to open the device of an add and hands back no
handle, the add, made directly or through the device-added event, leaves the
whole manager as it was: no record, the counter not advanced, nothing emitted,
no driver call, and the function returns normally. -/
theorem add_with_open_failure (drv : Driver) (m : Manager) (device_index : Int)
    (is_controller : Bool)
    (hfail : (if is_controller then drv.SDL_GameControllerOpen device_index
              else drv.SDL_JoystickOpen device_index) = none) :
    (if is_controller then AddController drv m device_index
      else AddJoystick drv m device_index) = m ∧
    (if is_controller then HandleEvent drv m (.SDL_CONTROLLERDEVICEADDED device_index)
      else HandleEvent drv m (.SDL_JOYDEVICEADDED device_index)) = m := by
  cases is_controller with
  | true =>
    simp only [if_true] at hfail ⊢
    simp [HandleEvent, AddController, hfail]
  | false =>
    simp only [Bool.false_eq_true, if_false] at hfail ⊢
    by_cases hc : drv.SDL_IsGameController device_index = true
    · simp [HandleEvent, AddJoystick, hfail, hc]
    · simp [HandleEvent, AddJoystick, hfail, hc]

/-- C16 at a concrete input: the example driver opens nothing at index 7, and a
controller is added there to the manager that holds `padA`. -/
theorem add_with_open_failure_witness :
    (if true then exampleDriver.SDL_GameControllerOpen 7
      else exampleDriver.SDL_JoystickOpen 7) = none ∧
    (if true then AddController exampleDriver withPadA 7
      else AddJoystick exampleDriver withPadA 7) = withPadA ∧
    (if true then HandleEvent exampleDriver withPadA (.SDL_CONTROLLERDEVICEADDED 7)
      else HandleEvent exampleDriver withPadA (.SDL_JOYDEVICEADDED 7)) = withPadA :=
  ⟨rfl, add_with_open_failure exampleDriver withPadA 7 true rfl⟩

/-- C18. `StopVibration` for a slot is `PlayVibration` for that slot with
duration 0 and both magnitudes 0.0: the same lookup, the same driver call (a
rumble with both magnitudes 0 and duration 0, or none), the same boolean and
the same manager afterwards. -/
theorem stopVibration_eq_zero_playVibration (drv : Driver) (m : Manager) (s : Int) :
    StopVibration drv m s = PlayVibration drv m s 0 0 0 := by
  have h16 : castUint16 (binary64 (0 * 65535)) = 0 := by
    simp [binary64, castUint16]
  have h32 : castUint32 0 = 0 := by
    simp [castUint32]
  unfold StopVibration PlayVibration
  simp only [h16, h32]

/-- C12. For a record of the registry (an Unmapped one in particular) and the
joystick-kind events addressed to it: a button down or up event with ordinal
`b` below 17 sets button `b` to pressed or released and changes nothing else,
and with `b` of 17 or more leaves the record as it is; an axis event with
ordinal `a` below 6 and raw value `v` sets axis `a` to `v / 32768` and changes
nothing else, and with `a` of 6 or more leaves the record as it is. No axis
event, ordinals 4 and 5 included, changes a button. -/
theorem unmapped_rules (drv : Driver) (m : Manager) (which : Int) (state : GamepadState)
    (hfind : find which m.gamepads_ = some state) :
    (∀ (b : Nat) (hb : b < 17),
      find which (HandleEvent drv m (.SDL_JOYBUTTONDOWN which b)).gamepads_ =
        some { state with buttons := Function.update state.buttons ⟨b, hb⟩ true } ∧
      find which (HandleEvent drv m (.SDL_JOYBUTTONUP which b)).gamepads_ =
        some { state with buttons := Function.update state.buttons ⟨b, hb⟩ false }) ∧
    (∀ b : Nat, 17 ≤ b →
      find which (HandleEvent drv m (.SDL_JOYBUTTONDOWN which b)).gamepads_ = some state ∧
      find which (HandleEvent drv m (.SDL_JOYBUTTONUP which b)).gamepads_ = some state) ∧
    (∀ (a : Nat) (ha : a < 6) (v : Int),
      find which (HandleEvent drv m (.SDL_JOYAXISMOTION which a v)).gamepads_ =
        some { state with axes := Function.update state.axes ⟨a, ha⟩ ((v : ℚ) / 32768) }) ∧
    (∀ (a : Nat) (v : Int), 6 ≤ a →
      find which (HandleEvent drv m (.SDL_JOYAXISMOTION which a v)).gamepads_ = some state) ∧
    (∀ (a : Nat) (v : Int) (after : GamepadState),
      find which (HandleEvent drv m (.SDL_JOYAXISMOTION which a v)).gamepads_ = some after →
      after.buttons = state.buttons) := by
  obtain ⟨hbtn, haxis⟩ := find_HandleEvent_joystick drv m which state hfind
  refine ⟨fun b hb => ?_, fun b hb => ?_, fun a ha v => ?_, fun a v ha => ?_,
    fun a v after hafter => ?_⟩
  · rw [(hbtn b).1, (hbtn b).2]
    simp [UpdateJoystickState, joystickButton, hb]
  · have hb' : ¬ b < 17 := by omega
    rw [(hbtn b).1, (hbtn b).2]
    simp [UpdateJoystickState, joystickButton, hb']
  · rw [haxis a v]
    simp [UpdateJoystickState, joystickAxis, ha]
  · have ha' : ¬ a < 6 := by omega
    rw [haxis a v]
    simp [UpdateJoystickState, joystickAxis, ha']
  · rw [haxis a v] at hafter
    have he : after = UpdateJoystickState state (.SDL_JOYAXISMOTION which a v) :=
      (Option.some.inj hafter).symm
    rw [he]
    obtain ⟨ax, hax⟩ := joystickAxis_shape state a v
    simp only [UpdateJoystickState, hax]

/-- C12 at a concrete input: `stickB`, the Unmapped record under identity 1, gets
button 3 down. -/
theorem unmapped_rules_witness :
    find 1 withPadAStickB.gamepads_ = some recordB ∧
    find 1 (HandleEvent exampleDriver withPadAStickB (.SDL_JOYBUTTONDOWN 1 3)).gamepads_ =
      some { recordB with buttons := Function.update recordB.buttons ⟨3, by decide⟩ true } :=
  ⟨rfl, ((unmapped_rules exampleDriver withPadAStickB 1 recordB rfl).1 3 (by decide)).1⟩

/-- C13. For a record of the registry (a Mapped one in particular) and a
controller-kind button down or up event with driver ordinal `d`: when `d` is one
of the 15 driver buttons of the table, the canonical button the table gives is
set to pressed or released, and every other button and every axis stays; when
`d` is any other ordinal the record stays as it is. The table sends A, B, X, Y
to 0-3, the shoulders to 4 and 5, back to 8, start to 9, the sticks to 10 and
11, the d-pad to 12-15 and guide to 16; it is injective and targets neither 6
nor 7. -/
theorem mapped_button_table (drv : Driver) (m : Manager) (which : Int)
    (state : GamepadState) (hfind : find which m.gamepads_ = some state) :
    (∀ p ∈ buttonTable,
      find which (HandleEvent drv m (.SDL_CONTROLLERBUTTONDOWN which p.1)).gamepads_ =
        some { state with buttons := Function.update state.buttons p.2 true } ∧
      find which (HandleEvent drv m (.SDL_CONTROLLERBUTTONUP which p.1)).gamepads_ =
        some { state with buttons := Function.update state.buttons p.2 false }) ∧
    (∀ d, d ∉ buttonTable.map Prod.fst →
      find which (HandleEvent drv m (.SDL_CONTROLLERBUTTONDOWN which d)).gamepads_ =
        some state ∧
      find which (HandleEvent drv m (.SDL_CONTROLLERBUTTONUP which d)).gamepads_ =
        some state) ∧
    buttonTable.map Prod.fst = [0, 1, 2, 3, 9, 10, 4, 6, 7, 8, 11, 12, 13, 14, 5] ∧
    buttonTable.map Prod.snd = [0, 1, 2, 3, 4, 5, 8, 9, 10, 11, 12, 13, 14, 15, 16] ∧
    (buttonTable.map Prod.fst).Nodup ∧
    (buttonTable.map Prod.snd).Nodup ∧
    (∀ p ∈ buttonTable, p.2 ≠ 6 ∧ p.2 ≠ 7) := by
  obtain ⟨hbtn, _⟩ := find_HandleEvent_controller drv m which state hfind
  refine ⟨fun p hp => ?_, fun d hd => ?_, rfl, rfl, by decide, by decide, by decide⟩
  · rw [(hbtn p.1).1, (hbtn p.1).2]
    simp only [UpdateControllerState, controllerButton_table state _ p hp, and_self]
  · rw [(hbtn d).1, (hbtn d).2]
    simp only [UpdateControllerState, controllerButton_other state _ d hd, and_self]

/-- C13 at a concrete input: `padA`, the Mapped record under identity 0, gets
the driver's back button (ordinal 4) down, which is canonical button 8. -/
theorem mapped_button_table_witness :
    find 0 withPadA.gamepads_ = some recordA ∧
    find 0 (HandleEvent exampleDriver withPadA
      (.SDL_CONTROLLERBUTTONDOWN 0 SDL_CONTROLLER_BUTTON_BACK)).gamepads_ =
      some { recordA with buttons := Function.update recordA.buttons 8 true } :=
  ⟨rfl, ((mapped_button_table exampleDriver withPadA 0 recordA rfl).1
    (SDL_CONTROLLER_BUTTON_BACK, 8) (by decide)).1⟩

/-- C14. For a record of the registry (a Mapped one in particular) and a
controller-kind axis event with raw value `v`: on one of the six driver axes
(left X, left Y, right X, right Y, left trigger, right trigger) the canonical
axis 0, 1, 2, 3, 4, 5 in that order is set to exactly `v / 32768` and the other
five axes stay; on any other ordinal the record stays as it is. A left-trigger
event at raw 16384 sets axis 4 to 1/2 and button 6 to true. -/
theorem mapped_axis_table (drv : Driver) (m : Manager) (which : Int)
    (state : GamepadState) (v : Int) (hfind : find which m.gamepads_ = some state) :
    (∀ p ∈ axisTable, ∃ after,
      find which (HandleEvent drv m (.SDL_CONTROLLERAXISMOTION which p.1 v)).gamepads_ =
        some after ∧
      after.axes p.2 = (v : ℚ) / 32768 ∧
      ∀ j, j ≠ p.2 → after.axes j = state.axes j) ∧
    (∀ d, d ∉ axisTable.map Prod.fst →
      find which (HandleEvent drv m (.SDL_CONTROLLERAXISMOTION which d v)).gamepads_ =
        some state) ∧
    axisTable.map Prod.fst = [0, 1, 2, 3, 4, 5] ∧
    axisTable.map Prod.snd = [0, 1, 2, 3, 4, 5] ∧
    (∃ after,
      find which (HandleEvent drv m
        (.SDL_CONTROLLERAXISMOTION which SDL_CONTROLLER_AXIS_TRIGGERLEFT 16384)).gamepads_ =
        some after ∧
      after.axes 4 = 1 / 2 ∧ after.buttons 6 = true) := by
  obtain ⟨_, haxis⟩ := find_HandleEvent_controller drv m which state hfind
  refine ⟨fun p hp => ?_, fun d hd => ?_, rfl, rfl, ?_⟩
  · exact ⟨_, haxis p.1 v, controllerAxis_table state v p hp⟩
  · rw [haxis d v]
    simp only [UpdateControllerState, controllerAxis_other state v d hd]
  · refine ⟨_, haxis SDL_CONTROLLER_AXIS_TRIGGERLEFT 16384, ?_, ?_⟩
    · have h := (controllerAxis_table state 16384 (SDL_CONTROLLER_AXIS_TRIGGERLEFT, 4)
        (by decide)).1
      simp only [UpdateControllerState]
      rw [h]
      norm_num
    · have h := (triggerThreshold_lt_iff 16384).mpr (by norm_num)
      simp only [UpdateControllerState, controllerAxis, SDL_CONTROLLER_AXIS_TRIGGERLEFT,
        SDL_CONTROLLER_AXIS_LEFTX, SDL_CONTROLLER_AXIS_LEFTY, SDL_CONTROLLER_AXIS_RIGHTX,
        SDL_CONTROLLER_AXIS_RIGHTY, BUTTON_L2]
      simp only [Nat.reduceEqDiff, if_false, if_true]
      simpa using h

/-- C14 at a concrete input: `padA` gets the left trigger at raw 16384. -/
theorem mapped_axis_table_witness :
    find 0 withPadA.gamepads_ = some recordA ∧
    ∃ after,
      find 0 (HandleEvent exampleDriver withPadA
        (.SDL_CONTROLLERAXISMOTION 0 SDL_CONTROLLER_AXIS_TRIGGERLEFT 16384)).gamepads_ =
        some after ∧
      after.axes 4 = 1 / 2 ∧ after.buttons 6 = true :=
  ⟨rfl, (mapped_axis_table exampleDriver withPadA 0 recordA 16384 rfl).2.2.2.2⟩

/-- C15. After every run of add, remove and state events from the initial
manager in which the raw axis values are 16-bit signed integers, each of the 6
axis values of each record lies in [-1, 1]; and each record has its 17 button
entries and its 6 axis entries, the arrays being of fixed size. -/
theorem axes_stay_in_range (events : List (Driver × SDL_Event))
    (hrange : ∀ de ∈ events, axisValueInRange de.2 = true) :
    ∀ kv ∈ (Poll initial events).gamepads_,
      (∀ i : Fin 6, -1 ≤ kv.2.axes i ∧ kv.2.axes i ≤ 1) ∧
      (List.ofFn kv.2.buttons).length = 17 ∧
      (List.ofFn kv.2.axes).length = 6 := by
  intro kv hkv
  refine ⟨axesInRange_Poll events hrange initial ?_ kv hkv, by simp, by simp⟩
  intro kv' hkv'
  simp [initial] at hkv'

/-- C15 at a concrete input: `padA` is added and its left stick goes to the two
ends of the raw range. -/
theorem axes_stay_in_range_witness :
    (∀ de ∈
        [(exampleDriver, SDL_Event.SDL_CONTROLLERDEVICEADDED 0),
         (exampleDriver, .SDL_CONTROLLERAXISMOTION 0 SDL_CONTROLLER_AXIS_LEFTX (-32768)),
         (exampleDriver, .SDL_CONTROLLERAXISMOTION 0 SDL_CONTROLLER_AXIS_LEFTY 32767)],
      axisValueInRange de.2 = true) ∧
    ∀ kv ∈ (Poll initial
        [(exampleDriver, .SDL_CONTROLLERDEVICEADDED 0),
         (exampleDriver, .SDL_CONTROLLERAXISMOTION 0 SDL_CONTROLLER_AXIS_LEFTX (-32768)),
         (exampleDriver, .SDL_CONTROLLERAXISMOTION 0 SDL_CONTROLLER_AXIS_LEFTY 32767)]).gamepads_,
      (∀ i : Fin 6, -1 ≤ kv.2.axes i ∧ kv.2.axes i ≤ 1) ∧
      (List.ofFn kv.2.buttons).length = 17 ∧
      (List.ofFn kv.2.axes).length = 6 :=
  ⟨by decide,
   axes_stay_in_range
    [(exampleDriver, .SDL_CONTROLLERDEVICEADDED 0),
     (exampleDriver, .SDL_CONTROLLERAXISMOTION 0 SDL_CONTROLLER_AXIS_LEFTX (-32768)),
     (exampleDriver, .SDL_CONTROLLERAXISMOTION 0 SDL_CONTROLLER_AXIS_LEFTY 32767)]
    (by decide)⟩

/-- C17. After every run of events from the initial manager, every identity in
the registry is a live one: the driver reported it added and has not reported
it removed since. The registry holds at most one record per identity. So the
number of connected records is at most the number of distinct live
identities. -/
theorem connected_records_bounded_by_live (events : List (Driver × SDL_Event)) :
    ((Poll initial events).gamepads_.filter (fun kv => kv.2.connected)).length ≤
      (liveIdentities events).toFinset.card ∧
    (∀ kv ∈ (Poll initial events).gamepads_, kv.1 ∈ liveIdentities events) ∧
    (∀ kv ∈ (Poll initial events).gamepads_, ∀ kv' ∈ (Poll initial events).gamepads_,
      kv.1 = kv'.1 → kv = kv') ∧
    ((Poll initial events).gamepads_.map Prod.fst).Nodup := by
  have hwf := WellFormed_Poll events initial WellFormed_initial
  obtain ⟨_, hkeys, _, _⟩ := hwf
  have hlive : ∀ kv ∈ (Poll initial events).gamepads_, kv.1 ∈ liveIdentities events :=
    keys_live_Poll events initial [] (fun kv hkv => by simp [initial] at hkv)
  have hnodup : ((Poll initial events).gamepads_.map Prod.fst).Nodup := by
    have hp : ((Poll initial events).gamepads_.map Prod.fst).Pairwise (fun a b => a < b) :=
      List.pairwise_map.mpr hkeys
    exact hp.imp (fun hlt => ne_of_lt hlt)
  refine ⟨?_, hlive, fun kv hkv kv' hkv' h => eq_of_key_eq _ hkeys kv kv' hkv hkv' h, hnodup⟩
  calc ((Poll initial events).gamepads_.filter (fun kv => kv.2.connected)).length
      ≤ (Poll initial events).gamepads_.length := List.length_filter_le _ _
    _ = ((Poll initial events).gamepads_.map Prod.fst).length := (List.length_map _ _).symm
    _ = ((Poll initial events).gamepads_.map Prod.fst).toFinset.card :=
        (List.toFinset_card_of_nodup hnodup).symm
    _ ≤ (liveIdentities events).toFinset.card := by
        apply Finset.card_le_card
        intro x hx
        rw [List.mem_toFinset] at hx ⊢
        obtain ⟨kv, hkv, hkx⟩ := List.mem_map.mp hx
        rw [← hkx]
        exact hlive kv hkv

/-- C19, amended. In a reachable state, for a slot `s` held by a Mapped record,
whatever `s` is (4 or more included), with both magnitudes in [0, 1] and a
duration that is not negative, `PlayVibration` makes exactly one rumble call, on that
record's device: the low-frequency magnitude is the integer part of the
`double` product `weak * 65535`, the high-frequency magnitude that of
`strong * 65535`, both within 0..65535, and the duration is the one given. It
returns true exactly when the driver's answer is 0, and the manager is as
before but for that call in the trace. As the product is rounded to a
`double`, each magnitude lies between the floor and the ceiling of the exact
product. -/
theorem playVibration_on_mapped_record (drv : Driver) (m : Manager) (key : Int)
    (target : GamepadState) (s duration : Int) (strong weak : ℚ)
    (hreach : Reachable m) (hmem : (key, target) ∈ m.gamepads_)
    (hslot : target.index = s) (hmapped : target.is_controller = true)
    (hstrong : 0 ≤ strong ∧ strong ≤ 1) (hweak : 0 ≤ weak ∧ weak ≤ 1)
    (hduration : 0 ≤ duration ∧ duration < 2147483648) :
    ∃ low high : Nat,
      (low : Int) = ⌊binary64 (weak * 65535)⌋ ∧
      (high : Int) = ⌊binary64 (strong * 65535)⌋ ∧
      low ≤ 65535 ∧ high ≤ 65535 ∧
      ⌊weak * 65535⌋ ≤ (low : Int) ∧ (low : Int) ≤ ⌈weak * 65535⌉ ∧
      ⌊strong * 65535⌋ ≤ (high : Int) ∧ (high : Int) ≤ ⌈strong * 65535⌉ ∧
      PlayVibration drv m s duration strong weak =
        ({ m with driver_calls := m.driver_calls ++
            [DriverCall.SDL_GameControllerRumble target.device low high duration.toNat] },
          decide (drv.SDL_GameControllerRumble target.device low high duration.toNat = 0)) ∧
      (PlayVibration drv m s duration strong weak).1.gamepads_ = m.gamepads_ ∧
      (PlayVibration drv m s duration strong weak).1.next_index_ = m.next_index_ ∧
      (PlayVibration drv m s duration strong weak).1.emitted = m.emitted := by
  obtain ⟨_, _, hdist, _⟩ := Reachable.wellFormed m hreach
  have hfind : findByIndex s m.gamepads_ = some target := by
    rw [← hslot]
    exact findByIndex_of_mem m.gamepads_ hdist key target hmem
  obtain ⟨l1, l2, l3, l4⟩ := magnitude_of_unit weak hweak.1 hweak.2
  obtain ⟨g1, g2, g3, g4⟩ := magnitude_of_unit strong hstrong.1 hstrong.2
  have hd := castUint32_of_range duration hduration.1 hduration.2
  have hplay : PlayVibration drv m s duration strong weak =
      ({ m with driver_calls := m.driver_calls ++
          [DriverCall.SDL_GameControllerRumble target.device
            (castUint16 (binary64 (weak * 65535))) (castUint16 (binary64 (strong * 65535)))
            duration.toNat] },
        decide (drv.SDL_GameControllerRumble target.device
          (castUint16 (binary64 (weak * 65535))) (castUint16 (binary64 (strong * 65535)))
          duration.toNat = 0)) := by
    simp only [PlayVibration, hfind, hmapped, hd, Bool.not_true, Bool.false_eq_true, if_false]
  refine ⟨castUint16 (binary64 (weak * 65535)), castUint16 (binary64 (strong * 65535)),
    l1, g1, l2, g2, l3, l4, g3, g4, hplay, ?_, ?_, ?_⟩ <;> rw [hplay]

/-- C19 amended, at a concrete input: `playVibration(0, 100, 0.5, 0.5)` on the manager
that holds the Mapped `padA` in slot 0. -/
theorem playVibration_on_mapped_record_witness :
    ∃ low high : Nat,
      (low : Int) = ⌊binary64 ((1 / 2 : ℚ) * 65535)⌋ ∧
      (high : Int) = ⌊binary64 ((1 / 2 : ℚ) * 65535)⌋ ∧
      low ≤ 65535 ∧ high ≤ 65535 ∧
      ⌊(1 / 2 : ℚ) * 65535⌋ ≤ (low : Int) ∧ (low : Int) ≤ ⌈(1 / 2 : ℚ) * 65535⌉ ∧
      ⌊(1 / 2 : ℚ) * 65535⌋ ≤ (high : Int) ∧ (high : Int) ≤ ⌈(1 / 2 : ℚ) * 65535⌉ ∧
      PlayVibration exampleDriver withPadA 0 100 (1 / 2) (1 / 2) =
        ({ withPadA with driver_calls := withPadA.driver_calls ++
            [DriverCall.SDL_GameControllerRumble recordA.device low high (100 : Int).toNat] },
          decide (exampleDriver.SDL_GameControllerRumble recordA.device low high
            (100 : Int).toNat = 0)) ∧
      (PlayVibration exampleDriver withPadA 0 100 (1 / 2) (1 / 2)).1.gamepads_ =
        withPadA.gamepads_ ∧
      (PlayVibration exampleDriver withPadA 0 100 (1 / 2) (1 / 2)).1.next_index_ =
        withPadA.next_index_ ∧
      (PlayVibration exampleDriver withPadA 0 100 (1 / 2) (1 / 2)).1.emitted =
        withPadA.emitted :=
  playVibration_on_mapped_record exampleDriver withPadA 0 recordA 0 100 (1 / 2) (1 / 2)
    (Reachable.handleEvent exampleDriver initial (.SDL_CONTROLLERDEVICEADDED 0)
      Reachable.initial)
    (by decide) rfl rfl (by norm_num) (by norm_num) (by decide)

/-- C20. In every reachable state each record is stored under its own identity,
is connected, and has a slot from 0 up to, and below, the counter; no two
records share a slot, so a lookup by slot matches at most one record. This
well-formedness holds initially and every operation keeps it: the two adds,
the removal, an event, a poll, the device scan, setting an observer, and the
two vibration calls; `GetGamepads` changes nothing. -/
theorem registry_well_formed (m : Manager) (hreach : Reachable m) :
    (∀ kv ∈ m.gamepads_, kv.2.instance_id = kv.1 ∧ kv.2.connected = true ∧
      0 ≤ kv.2.index ∧ kv.2.index < m.next_index_) ∧
    (∀ kv ∈ m.gamepads_, ∀ kv' ∈ m.gamepads_, kv.2.index = kv'.2.index → kv = kv') ∧
    (∀ (s : Int) (target : GamepadState), findByIndex s m.gamepads_ = some target →
      ∀ kv ∈ m.gamepads_, kv.2.index = s → kv.2 = target) ∧
    WellFormed m ∧
    WellFormed initial ∧
    (∀ n : Manager, WellFormed n →
      (∀ (drv : Driver) (i : Int),
        WellFormed (AddController drv n i) ∧ WellFormed (AddJoystick drv n i)) ∧
      (∀ x : Int, WellFormed (RemoveDevice n x)) ∧
      (∀ (drv : Driver) (event : SDL_Event), WellFormed (HandleEvent drv n event)) ∧
      (∀ events : List (Driver × SDL_Event), WellFormed (Poll n events)) ∧
      (∀ drv : Driver, WellFormed (ScanDevices drv n)) ∧
      (∀ (event_type : String) (callback : Nat),
        WellFormed (SetEventCallback n event_type callback)) ∧
      (∀ (drv : Driver) (s duration : Int) (strong weak : ℚ),
        WellFormed (PlayVibration drv n s duration strong weak).1) ∧
      (∀ (drv : Driver) (s : Int), WellFormed (StopVibration drv n s).1)) := by
  have hwf := Reachable.wellFormed m hreach
  obtain ⟨_, _, hdist, hrec⟩ := hwf
  refine ⟨hrec, fun kv hkv kv' hkv' h => eq_of_index_eq _ hdist kv kv' hkv hkv' h, ?_,
    Reachable.wellFormed m hreach, WellFormed_initial, ?_⟩
  · intro s target hf kv hkv hidx
    obtain ⟨key, hmem, hti⟩ := findByIndex_some s m.gamepads_ target hf
    have := eq_of_index_eq _ hdist kv (key, target) hkv hmem (by rw [hidx, hti])
    rw [this]
  · intro n hn
    exact ⟨fun drv i => ⟨WellFormed_AddController drv n i hn, WellFormed_AddJoystick drv n i hn⟩,
      fun x => WellFormed_RemoveDevice n x hn,
      fun drv event => WellFormed_HandleEvent drv n event hn,
      fun events => WellFormed_Poll events n hn,
      fun drv => WellFormed_ScanDevices drv n hn,
      fun ty cb => WellFormed_SetEventCallback n ty cb hn,
      fun drv s d st w => WellFormed_PlayVibration drv n s d st w hn,
      fun drv s => WellFormed_StopVibration drv n s hn⟩

/-- C20 at a concrete input: the manager that holds `padA` in slot 0 and `stickB`
in slot 1, counter at 2. -/
theorem registry_well_formed_witness :
    Reachable withPadAStickB ∧
    (∀ kv ∈ withPadAStickB.gamepads_, kv.2.instance_id = kv.1 ∧ kv.2.connected = true ∧
      0 ≤ kv.2.index ∧ kv.2.index < withPadAStickB.next_index_) ∧
    (∀ kv ∈ withPadAStickB.gamepads_, ∀ kv' ∈ withPadAStickB.gamepads_,
      kv.2.index = kv'.2.index → kv = kv') :=
  have hreach : Reachable withPadAStickB :=
    Reachable.handleEvent exampleDriver withPadA (.SDL_JOYDEVICEADDED 1)
      (Reachable.handleEvent exampleDriver initial (.SDL_CONTROLLERDEVICEADDED 0)
        Reachable.initial)
  ⟨hreach, (registry_well_formed withPadAStickB hreach).1,
    (registry_well_formed withPadAStickB hreach).2.1⟩

/-- C19, as stated, fails: the magnitude is not always the floor of the product
`strong * 65535`. `padA` is a Mapped record holding slot 0 of a reachable
state, and the `double` nearest to 1/65535, which JavaScript's `1 / 65535` is,
lies in [0, 1]. Its exact product with 65535 is below 1 and has floor 0, but
the `double` product is 1.0: `playVibration(0, 100, 1 / 65535, 0)` makes the
rumble call with high-frequency magnitude 1, not 0. -/
theorem magnitude_above_exact_floor :
    Reachable withPadA ∧
    (0, recordA) ∈ withPadA.gamepads_ ∧ recordA.index = 0 ∧
    recordA.is_controller = true ∧
    binary64 (1 / 65535) = doubleOf65535th ∧
    0 ≤ doubleOf65535th ∧ doubleOf65535th ≤ 1 ∧
    ⌊doubleOf65535th * 65535⌋ = 0 ∧
    castUint16 (binary64 (doubleOf65535th * 65535)) = 1 ∧
    (PlayVibration exampleDriver withPadA 0 100 doubleOf65535th 0).1.driver_calls =
      [DriverCall.SDL_GameControllerRumble 100 0 1 100] ∧
    (PlayVibration exampleDriver withPadA 0 100 doubleOf65535th 0).1.driver_calls ≠
      withPadA.driver_calls ++
        [DriverCall.SDL_GameControllerRumble recordA.device
          ⌊(0 : ℚ) * 65535⌋.toNat ⌊doubleOf65535th * 65535⌋.toNat 100] := by
  have h1 : castUint16 (binary64 (doubleOf65535th * 65535)) = 1 := by
    rw [binary64_doubleOf65535th_product]
    simp [castUint16]
  have h0 : castUint16 (binary64 (0 * 65535)) = 0 := by
    simp [binary64, castUint16]
  have hfind : findByIndex 0 withPadA.gamepads_ = some recordA := rfl
  have hcalls : withPadA.driver_calls = [] := rfl
  have hfloor : ⌊doubleOf65535th * 65535⌋ = 0 := by
    rw [Int.floor_eq_iff]
    unfold doubleOf65535th
    norm_num
  have hmade : (PlayVibration exampleDriver withPadA 0 100 doubleOf65535th 0).1.driver_calls =
      [DriverCall.SDL_GameControllerRumble 100 0 1 100] := by
    simp only [PlayVibration, hfind, h1, h0, hcalls]
    rfl
  refine ⟨Reachable.handleEvent exampleDriver initial (.SDL_CONTROLLERDEVICEADDED 0)
      Reachable.initial, by decide, rfl, rfl, binary64_one_over_65535, ?_, ?_, hfloor, h1,
    hmade, ?_⟩
  · unfold doubleOf65535th
    norm_num
  · unfold doubleOf65535th
    norm_num
  · rw [hmade, hfloor, hcalls]
    simp

/-- C21. A button or axis event, of either kind, addressed to identity `x`
changes at most the buttons and axes of the record of `x`: that record keeps
its identity, name, GUID, slot, class, connected flag and handle; every record
under another identity is as it was; the identities in the registry, in their
order, and the counter are the same; and nothing is emitted, no observer is
replaced and no driver call is made. When the registry has no record for `x`
the manager is as it was. -/
theorem state_event_frame (drv : Driver) (m : Manager) (x : Int) (button axis : Nat)
    (value : Int) (event : SDL_Event)
    (hev : event ∈ [SDL_Event.SDL_CONTROLLERBUTTONDOWN x button,
      SDL_Event.SDL_CONTROLLERBUTTONUP x button,
      SDL_Event.SDL_CONTROLLERAXISMOTION x axis value,
      SDL_Event.SDL_JOYBUTTONDOWN x button, SDL_Event.SDL_JOYBUTTONUP x button,
      SDL_Event.SDL_JOYAXISMOTION x axis value]) :
    (∀ state, find x m.gamepads_ = some state →
      ∃ after, find x (HandleEvent drv m event).gamepads_ = some after ∧
        after.instance_id = state.instance_id ∧ after.id = state.id ∧
        after.guid = state.guid ∧ after.index = state.index ∧
        after.is_controller = state.is_controller ∧ after.connected = state.connected ∧
        after.device = state.device) ∧
    (find x m.gamepads_ = none → HandleEvent drv m event = m) ∧
    (∀ y, y ≠ x → find y (HandleEvent drv m event).gamepads_ = find y m.gamepads_) ∧
    (∀ kv ∈ m.gamepads_, kv.1 ≠ x → kv ∈ (HandleEvent drv m event).gamepads_) ∧
    (HandleEvent drv m event).gamepads_.map Prod.fst = m.gamepads_.map Prod.fst ∧
    (HandleEvent drv m event).next_index_ = m.next_index_ ∧
    (HandleEvent drv m event).emitted = m.emitted ∧
    (HandleEvent drv m event).on_connected_ = m.on_connected_ ∧
    (HandleEvent drv m event).on_disconnected_ = m.on_disconnected_ ∧
    (HandleEvent drv m event).driver_calls = m.driver_calls := by
  obtain ⟨f, hf, hstep⟩ := HandleEvent_addressed drv m x button axis value event hev
  rw [hstep]
  refine ⟨fun state hs => ?_, fun hnone => ?_, fun y hy => find_modify_ne x y f _ hy,
    fun kv hkv hne => mem_modify_of_ne x f _ kv hkv hne,
    map_modify x f Prod.fst (fun _ _ => rfl) _, rfl, rfl, rfl, rfl, rfl⟩
  · obtain ⟨st', h1, h2⟩ := find_modify_sameDevice x x f hf m.gamepads_ state hs
    exact ⟨st', h1, h2⟩
  · show { m with gamepads_ := modify x f m.gamepads_ } = m
    rw [modify_of_find_none x f m.gamepads_ hnone]

/-- C21 at a concrete input: the left trigger of `padA` goes to raw 16384 in the
manager that holds `padA` and `stickB`; `stickB` is untouched. -/
theorem state_event_frame_witness :
    find 1 (HandleEvent exampleDriver withPadAStickB
      (.SDL_CONTROLLERAXISMOTION 0 SDL_CONTROLLER_AXIS_TRIGGERLEFT 16384)).gamepads_ =
      some recordB ∧
    (HandleEvent exampleDriver withPadAStickB
      (.SDL_CONTROLLERAXISMOTION 0 SDL_CONTROLLER_AXIS_TRIGGERLEFT 16384)).next_index_ =
      withPadAStickB.next_index_ ∧
    (HandleEvent exampleDriver withPadAStickB
      (.SDL_CONTROLLERAXISMOTION 0 SDL_CONTROLLER_AXIS_TRIGGERLEFT 16384)).emitted =
      withPadAStickB.emitted :=
  have h := state_event_frame exampleDriver withPadAStickB 0 0
    SDL_CONTROLLER_AXIS_TRIGGERLEFT 16384
    (.SDL_CONTROLLERAXISMOTION 0 SDL_CONTROLLER_AXIS_TRIGGERLEFT 16384) (by decide)
  ⟨(h.2.2.1 1 (by decide)).trans rfl, h.2.2.2.2.2.1, h.2.2.2.2.2.2.1⟩

end Gamepad
